import Mathlib

/-!
# The Go-side binding generator (bind/gengo.go)

A shallow embedding of the methods of `goGen` and theorems about the text and
the generation errors they produce.
-/

namespace Bind

/-! ## The type descriptors of go/types that the generator inspects -/

/-- Kinds of basic types, as enumerated by go/types. -/
inductive BasicKind
  | Invalid | Bool | Int | Int8 | Int16 | Int32 | Int64
  | Uint | Uint8 | Uint16 | Uint32 | Uint64 | Uintptr
  | Float32 | Float64 | Complex64 | Complex128 | String | UnsafePointer
  | UntypedBool | UntypedInt | UntypedRune | UntypedFloat | UntypedComplex
  | UntypedString | UntypedNil
deriving DecidableEq, Repr

/-- A package: its name and its import path. -/
structure Package where
  name : String
  path : String
deriving DecidableEq, Repr

/-- The implementations of types.Type. Members are (name, type) pairs; the type
of a method is a signature. A named type carries the name and package of its
object, its underlying type and its declared methods. -/
inductive Ty
  | basic (kind : BasicKind)
  | array (len : Nat) (elem : Ty)
  | slice (elem : Ty)
  | struct (fields : List (String × Ty))
  | pointer (elem : Ty)
  | tuple (vars : List (String × Ty))
  | signature (params : List (String × Ty)) (results : List (String × Ty))
  | iface (methods : List (String × Ty))
  | map (key : Ty) (elem : Ty)
  | chan (elem : Ty)
  | named (name : String) (pkg : Option Package) (underlying : Ty)
      (methods : List (String × Ty))

instance : Inhabited Ty := ⟨.basic .Invalid⟩

/-- A variable, parameter, result or field: `*types.Var`. -/
structure Var where
  name : String
  type : Ty
deriving Inhabited

/-- A function or method: `*types.Func`. Its type is always a signature, so the
parameter and result tuples are stored directly. -/
structure Func where
  name : String
  params : List Var
  results : List Var

/-- A declared type name: `*types.TypeName`. -/
structure TypeName where
  name : String
  type : Ty

/-- The summary of an interface: the methods callable through the boundary and
whether a proxy can implement the interface. -/
structure ifaceSummary where
  callable : List Func
  implementable : Bool

/-- The ownership mode of a marshalled value. -/
inductive varMode
  | modeTransient
  | modeRetained
deriving DecidableEq, Repr

/-- A generation error: the format and the rendered arguments handed to errorf. -/
structure GenErr where
  format : String
  args : List String
deriving DecidableEq, Repr

/-- Modelled from the spec: the printer (the textual emission backend, out of the
scope of the spec) is not part of gengo.go. Its buffer is kept as the sequence of
texts handed to Printf, each with the indentation depth in force at the call. -/
structure Chunk where
  indent : Nat
  text : String
deriving DecidableEq, Repr

/-- A struct declaration to bind: the entries of `g.structs`. -/
structure structInfo where
  obj : TypeName
  t : Ty

/-- An interface declaration to bind: the entries of `g.interfaces`. -/
structure interfaceInfo where
  obj : TypeName

/-- Functions used by gengo.go and defined elsewhere (the rest of package bind,
go/types, fmt). They are parameters of the development. -/
structure Deps where
  /-- The method `String` of a type, as printed by the verb `%s`. -/
  typeStr : Ty → String
  /-- The function `types.TypeString(t, types.RelativeTo(pkg))`. -/
  TypeString : Ty → Package → String
  /-- The verb `%s` applied to a package. -/
  pkgStr : Option Package → String
  /-- The verb `%q` applied to a string. -/
  quote : String → String
  /-- The function fmt.Sprintf applied to a format with no arguments. -/
  Sprintf : String → String
  /-- The method g.cgoType: the C type of a Go type, and the errors it records. -/
  cgoType : Ty → String × List GenErr
  /-- The method g.isSupported. -/
  isSupported : Ty → Bool
  /-- The method g.isSigSupported, applied to the signature of a function. -/
  isSigSupported : Func → Bool
  /-- The function paramName(params, i). -/
  paramName : List Var → Nat → String
  /-- The function pkgPrefix(pkg). -/
  pkgPrefixOf : Package → String
  /-- The function makeIfaceSummary, applied to an interface type. -/
  makeIfaceSummary : Ty → ifaceSummary
  /-- The function exportedFields, applied to a struct type. -/
  exportedFields : Ty → List Var
  /-- The function exportedMethodSet, applied to a type. -/
  exportedMethodSet : Ty → List Func
  /-- The order in which `range` visits the keys of the import set. -/
  rangeOrder : List String → List String

/-- The generator: the fields of `generator` that gengo.go reads, the error list,
the printer (buffer and indentation depth) and the import set of `goGen`. -/
structure goGen where
  pkg : Package
  pkgPrefix : String
  allPkg : List Package
  structs : List structInfo
  interfaces : List interfaceInfo
  vars : List Var
  funcs : List Func
  err : List GenErr
  buf : List Chunk
  indent : Nat
  imports : List String

/-! ## Helpers from outside gengo.go -/

/-- Modelled from the spec: isErrorType is not in gengo.go. The Error descriptor
is the predeclared type `error`, the named type that has no package. -/
def isErrorType (t : Ty) : Bool :=
  match t with
  | .named "error" none _ _ => true
  | _ => false

/-- Modelled from the spec: validPkg is not in gengo.go. A package is valid when
it is part of the declared bound-package set. -/
def validPkg (g : goGen) (pkg : Option Package) : Bool :=
  match pkg with
  | none => false
  | some p => decide (p ∈ g.allPkg)

/-- The dynamic type of a types.Type value, as printed by the verb `%T`. -/
def goTypeName (t : Ty) : String :=
  match t with
  | .basic _ => "*types.Basic"
  | .array _ _ => "*types.Array"
  | .slice _ => "*types.Slice"
  | .struct _ => "*types.Struct"
  | .pointer _ => "*types.Pointer"
  | .tuple _ => "*types.Tuple"
  | .signature _ _ => "*types.Signature"
  | .iface _ => "*types.Interface"
  | .map _ _ => "*types.Map"
  | .chan _ => "*types.Chan"
  | .named _ _ _ _ => "*types.Named"

/-- The verb `%v` applied to a boolean. -/
def boolStr (b : Bool) : String := if b then "true" else "false"

/-- The type `string`: `types.Typ[types.String]`. -/
def stringType : Ty := .basic .String

/-- Modelled from the spec: Printf belongs to the printer, which is not in
gengo.go. It appends the formatted text to the current buffer. -/
def goGen.Printf (g : goGen) (s : String) : goGen :=
  { g with buf := g.buf ++ [⟨g.indent, s⟩] }

/-- Modelled from the spec: errorf belongs to the generator, which is not in
gengo.go. It appends an error to the aggregated error list. -/
def goGen.errorf (g : goGen) (format : String) (args : List String) : goGen :=
  { g with err := g.err ++ [⟨format, args⟩] }

/-- Modelled from the spec: Indent belongs to the printer. -/
def goGen.Indent (g : goGen) : goGen := { g with indent := g.indent + 1 }

/-- Modelled from the spec: Outdent belongs to the printer. -/
def goGen.Outdent (g : goGen) : goGen := { g with indent := g.indent - 1 }

/-- The call g.cgoType(t): the C type name, and the generator with the errors the
call records. -/
def goGen.cgoType (D : Deps) (g : goGen) (t : Ty) : String × goGen :=
  ((D.cgoType t).1, { g with err := g.err ++ (D.cgoType t).2 })

/-- An index loop `for i := 0; i < xs.Len(); i++` over a tuple, started at `i`. -/
def forIdx {α : Type} (body : goGen → Nat → α → goGen) : Nat → List α → goGen → goGen
  | _, [], g => g
  | i, x :: xs, g => forIdx body (i + 1) xs (body g i x)

/-! ## gengo.go -/

/-- The method pkgName: returns the package name and adds the package path to
the set of imports. -/
def goGen.pkgName (g : goGen) (pkg : Package) : String × goGen :=
  (pkg.name,
    { g with imports := if pkg.path ∈ g.imports then g.imports else g.imports ++ [pkg.path] })

/-- The method genToRefNum. -/
def genToRefNum (g : goGen) (toVar fromVar : String) : goGen :=
  let g := g.Printf ("var " ++ toVar ++ " C.int32_t = _seq.NullRefNum\n")
  let g := g.Printf ("if " ++ fromVar ++ " != nil \x7b\n")
  let g := g.Printf ("\t" ++ toVar ++ " = C.int32_t(_seq.ToRefNum(" ++ fromVar ++ "))\n")
  g.Printf "\x7d\n"

/-- The type switch of genWrite, reached when the type is not the error type. -/
def genWriteSwitch (D : Deps) (g : goGen) (toVar fromVar : String) (t : Ty)
    (mode : varMode) : goGen :=
  match t with
  | .basic k =>
    match k with
    | .String => g.Printf (toVar ++ " := encodeString(" ++ fromVar ++ ")\n")
    | .Bool =>
      let c := g.cgoType D t
      let g := c.2.Printf ("var " ++ toVar ++ " C." ++ c.1 ++ " = 0\n")
      g.Printf ("if " ++ fromVar ++ " \x7b " ++ toVar ++ " = 1 \x7d\n")
    | _ =>
      let c := g.cgoType D t
      c.2.Printf (toVar ++ " := C." ++ c.1 ++ "(" ++ fromVar ++ ")\n")
  | .slice e =>
    match e with
    | .basic .Uint8 =>
      g.Printf (toVar ++ " := fromSlice(" ++ fromVar ++ ", "
        ++ boolStr (decide (mode = .modeRetained)) ++ ")\n")
    | .basic _ => g.errorf "unsupported type: %s" [D.typeStr t]
    | _ => g.errorf "unsupported type: %s" [D.typeStr t]
  | .pointer e =>
    match e with
    | .named _ _ _ _ => genToRefNum g toVar fromVar
    | _ => g.errorf "unsupported type %s" [D.typeStr e]
  | .named _ _ u _ =>
    match u with
    | .iface _ => genToRefNum g toVar fromVar
    | .pointer _ => genToRefNum g toVar fromVar
    | _ => g.errorf "unsupported, direct named type %s: %s" [D.typeStr t, D.typeStr u]
  | _ => g.errorf "unsupported type %s" [D.typeStr t]

/-- The method genWrite. The recursive call of the error branch is at the type
`string`, which is not the error type, so it goes to the type switch. -/
def genWrite (D : Deps) (g : goGen) (toVar fromVar : String) (t : Ty)
    (mode : varMode) : goGen :=
  if isErrorType t then
    let g := g.Printf ("var " ++ toVar ++ "_str string\n")
    let g := g.Printf ("if " ++ fromVar ++ " == nil \x7b\n")
    let g := g.Printf ("    " ++ toVar ++ "_str = \"\"\n")
    let g := g.Printf "\x7d else \x7b\n"
    let g := g.Printf ("    " ++ toVar ++ "_str = " ++ fromVar ++ ".Error()\n")
    let g := g.Printf "\x7d\n"
    genWriteSwitch D g toVar (toVar ++ "_str") stringType mode
  else
    genWriteSwitch D g toVar fromVar t mode

/-- The method typeString. -/
def typeString (D : Deps) (g : goGen) (typ : Ty) : String × goGen :=
  match typ with
  | .named _ none _ _ => (D.TypeString typ g.pkg, g)
  | .named _ (some oPkg) u _ =>
    if !validPkg g (some oPkg) then
      ("TODO", g.errorf "type %s is defined in %s, which is not bound"
        [D.typeStr typ, D.pkgStr (some oPkg)])
    else
      match u with
      | .iface _ | .struct _ =>
        let n := g.pkgName oPkg
        (n.1 ++ "." ++ D.TypeString typ oPkg, n.2)
      | _ => ("", g.errorf "unsupported named type %s / %T" [D.typeStr typ, goTypeName typ])
  | .pointer e =>
    match e with
    | .named _ _ _ _ =>
      let s := typeString D g e
      ("*" ++ s.1, s.2)
    | _ => ("", g.errorf "not yet supported, pointer type %s / %T" [D.typeStr e, goTypeName e])
  | _ => (D.TypeString typ g.pkg, g)

/-- The type switch of genRead, reached when the type is not the error type.
A nil package is not valid, so the object package is matched first. -/
def genReadSwitch (D : Deps) (g : goGen) (toVar fromVar : String) (typ : Ty)
    (mode : varMode) : goGen :=
  match typ with
  | .basic k =>
    match k with
    | .String => g.Printf (toVar ++ " := decodeString(" ++ fromVar ++ ")\n")
    | .Bool => g.Printf (toVar ++ " := " ++ fromVar ++ " != 0\n")
    | _ => g.Printf (toVar ++ " := " ++ D.typeStr typ ++ "(" ++ fromVar ++ ")\n")
  | .slice e =>
    match e with
    | .basic .Uint8 =>
      g.Printf (toVar ++ " := toSlice(" ++ fromVar ++ ", "
        ++ boolStr (decide (mode = .modeRetained)) ++ ")\n")
    | .basic _ => g.errorf "unsupported type: %s" [D.typeStr typ]
    | _ => g.errorf "unsupported type: %s" [D.typeStr typ]
  | .pointer u =>
    match u with
    | .named name oPkg _ _ =>
      match oPkg with
      | none =>
        g.errorf "type %s is defined in %s, which is not bound" [D.typeStr u, D.pkgStr oPkg]
      | some p =>
        if !validPkg g (some p) then
          g.errorf "type %s is defined in %s, which is not bound" [D.typeStr u, D.pkgStr oPkg]
        else
          let g := g.Printf "// Must be a Go object\n"
          let g := g.Printf (toVar ++ "_ref := _seq.FromRefNum(int32(" ++ fromVar ++ "))\n")
          let n := g.pkgName p
          n.2.Printf (toVar ++ " := " ++ toVar ++ "_ref.Get().(*" ++ n.1 ++ "." ++ name ++ ")\n")
    | _ => g.errorf "unsupported pointer type %s" [D.typeStr typ]
  | .named name oPkg u _ =>
    match u with
    | .iface _ | .pointer _ =>
      let hasProxy :=
        match u with
        | .iface _ => (D.makeIfaceSummary u).implementable
        | _ => true
      match oPkg with
      | none =>
        g.errorf "type %s is defined in %s, which is not bound" [D.typeStr typ, D.pkgStr oPkg]
      | some p =>
        if !validPkg g (some p) then
          g.errorf "type %s is defined in %s, which is not bound" [D.typeStr typ, D.pkgStr oPkg]
        else
          let ts := typeString D g typ
          let g := ts.2.Printf ("var " ++ toVar ++ " " ++ ts.1 ++ "\n")
          let g := g.Printf (toVar ++ "_ref := _seq.FromRefNum(int32(" ++ fromVar ++ "))\n")
          let g := g.Printf ("if " ++ toVar ++ "_ref != nil \x7b\n")
          let g := g.Printf ("\tif " ++ toVar ++ "_ref.Bind_Num < 0 \x7b // go object \n")
          let n := g.pkgName p
          let g := n.2.Printf ("  \t " ++ toVar ++ " = " ++ toVar ++ "_ref.Get().(" ++ n.1 ++ "."
            ++ name ++ ")\n")
          let g :=
            if hasProxy then
              let g := g.Printf "\t\x7d else \x7b // foreign object \n"
              g.Printf ("\t   " ++ toVar ++ " = (*proxy" ++ D.pkgPrefixOf p ++ "_" ++ name ++ ")("
                ++ toVar ++ "_ref)\n")
            else g
          let g := g.Printf "\t\x7d\n"
          g.Printf "\x7d\n"
    | _ => g.errorf "unsupported named type %s" [D.typeStr typ]
  | _ => g.errorf "unsupported type: %s" [D.typeStr typ]

/-- The method genRead. The recursive call of the error branch is at the type
`string`, which is not the error type, so it goes to the type switch. -/
def genRead (D : Deps) (g : goGen) (toVar fromVar : String) (typ : Ty)
    (mode : varMode) : goGen :=
  if isErrorType typ then
    let g := genReadSwitch D g (toVar ++ "_str") fromVar stringType mode
    g.Printf (toVar ++ " := toError(" ++ toVar ++ "_str)\n")
  else
    genReadSwitch D g toVar fromVar typ mode

/-- The result-arity test of genFuncBody and genInterface: more than two results,
or two results whose second is not the error type. -/
def arityViolated (res : List Var) : Bool :=
  decide (res.length > 2) || (decide (res.length = 2) && !isErrorType (res.getD 1 default).type)

/-- A loop printing `pre` followed by the index for each element, separated by
commas. -/
def printIndexed (pre : String) (res : List Var) (g : goGen) : goGen :=
  forIdx (fun g i _ =>
    let g := if i > 0 then g.Printf ", " else g
    g.Printf (pre ++ toString i)) 0 res g

/-- The first loop of genFuncBody: the decoding of the parameters. -/
def decodeParams (D : Deps) (params : List Var) (g : goGen) : goGen :=
  forIdx (fun g i p =>
    let pn := "param_" ++ D.paramName params i
    genRead D g ("_" ++ pn) pn p.type .modeTransient) 0 params g

/-- The loop of genFuncBody printing the arguments of the call. -/
def printArgs (D : Deps) (params : List Var) (g : goGen) : goGen :=
  forIdx (fun g i _ =>
    let g := if i > 0 then g.Printf ", " else g
    g.Printf ("_param_" ++ D.paramName params i)) 0 params g

/-- The loop of genFuncBody encoding the results. -/
def encodeResults (D : Deps) (res : List Var) (g : goGen) : goGen :=
  forIdx (fun g i r =>
    let pn := "res_" ++ toString i
    genWrite D g ("_" ++ pn) pn r.type .modeRetained) 0 res g

/-- The part of genFuncBody after the result-arity test. -/
def genFuncBodyCall (D : Deps) (g : goGen) (o : Func) (selectorLHS : String) : goGen :=
  let params := o.params
  let res := o.results
  let g :=
    if res.length > 0 then
      let g := printIndexed "res_" res g
      g.Printf " := "
    else g
  let g := g.Printf (selectorLHS ++ "." ++ o.name ++ "(")
  let g := printArgs D params g
  let g := g.Printf ")\n"
  let g := encodeResults D res g
  if res.length > 0 then
    let g := g.Printf "return "
    let g := printIndexed "_res_" res g
    g.Printf "\n"
  else g

/-- The method genFuncBody. -/
def genFuncBody (D : Deps) (g : goGen) (o : Func) (selectorLHS : String) : goGen :=
  let params := o.params
  let g := decodeParams D params g
  let res := o.results
  if arityViolated res then
    g.errorf
      "functions and methods must return either zero or one values, and optionally an error" []
  else
    genFuncBodyCall D g o selectorLHS

/-- The loop of genFuncSignature over the parameters. -/
def sigParams (D : Deps) (objName : String) (params : List Var) (g : goGen) : goGen :=
  forIdx (fun g i p =>
    let g := if objName ≠ "" ∨ i > 0 then g.Printf ", " else g
    let c := g.cgoType D p.type
    c.2.Printf ("param_" ++ D.paramName params i ++ " C." ++ c.1)) 0 params g

/-- The loop of genFuncSignature over the results. -/
def sigResults (D : Deps) (res : List Var) (g : goGen) : goGen :=
  forIdx (fun g i r =>
    let g := if i > 0 then g.Printf ", " else g
    let c := g.cgoType D r.type
    c.2.Printf ("C." ++ c.1)) 0 res g

/-- The method genFuncSignature. -/
def genFuncSignature (D : Deps) (g : goGen) (o : Func) (objName : String) : goGen :=
  let g := g.Printf ("//export proxy" ++ g.pkgPrefix ++ "_" ++ objName ++ "_" ++ o.name ++ "\n")
  let g := g.Printf ("func proxy" ++ g.pkgPrefix ++ "_" ++ objName ++ "_" ++ o.name ++ "(")
  let g := if objName ≠ "" then g.Printf "refnum C.int32_t" else g
  let params := o.params
  let g := sigParams D objName params g
  let g := g.Printf ") "
  let res := o.results
  let g :=
    if res.length > 0 then
      let g := g.Printf "("
      let g := sigResults D res g
      g.Printf ") "
    else g
  g.Printf "\x7b\n"

/-- The method genFunc. -/
def genFunc (D : Deps) (g : goGen) (o : Func) : goGen :=
  if !D.isSigSupported o then
    g.Printf ("// skipped function " ++ o.name
      ++ " with unsupported parameter or result types\n")
  else
    let g := genFuncSignature D g o ""
    let g := g.Indent
    let n := g.pkgName g.pkg
    let g := genFuncBody D n.2 o n.1
    let g := g.Outdent
    g.Printf "\x7d\n\n"

/-- The body of the field loop of genStruct. -/
def genStructField (D : Deps) (obj : TypeName) (g : goGen) (f : Var) : goGen :=
  if !D.isSupported f.type then
    g.Printf ("// skipped field " ++ obj.name ++ "." ++ f.name ++ " with unsupported type: "
      ++ goTypeName f.type ++ "\n\n")
  else
    let g := g.Printf ("//export proxy" ++ g.pkgPrefix ++ "_" ++ obj.name ++ "_" ++ f.name
      ++ "_Set\n")
    let c := g.cgoType D f.type
    let g := c.2.Printf ("func proxy" ++ g.pkgPrefix ++ "_" ++ obj.name ++ "_" ++ f.name
      ++ "_Set(refnum C.int32_t, v C." ++ c.1 ++ ") \x7b\n")
    let g := g.Indent
    let g := g.Printf "ref := _seq.FromRefNum(int32(refnum))\n"
    let g := genRead D g "_v" "v" f.type .modeRetained
    let n := g.pkgName g.pkg
    let g := n.2.Printf ("ref.Get().(*" ++ n.1 ++ "." ++ obj.name ++ ")." ++ f.name ++ " = _v\n")
    let g := g.Outdent
    let g := g.Printf "\x7d\n\n"
    let g := g.Printf ("//export proxy" ++ g.pkgPrefix ++ "_" ++ obj.name ++ "_" ++ f.name
      ++ "_Get\n")
    let c := g.cgoType D f.type
    let g := c.2.Printf ("func proxy" ++ g.pkgPrefix ++ "_" ++ obj.name ++ "_" ++ f.name
      ++ "_Get(refnum C.int32_t) C." ++ c.1 ++ " \x7b\n")
    let g := g.Indent
    let g := g.Printf "ref := _seq.FromRefNum(int32(refnum))\n"
    let n := g.pkgName g.pkg
    let g := n.2.Printf ("v := ref.Get().(*" ++ n.1 ++ "." ++ obj.name ++ ")." ++ f.name ++ "\n")
    let g := genWrite D g "_v" "v" f.type .modeRetained
    let g := g.Printf "return _v\n"
    let g := g.Outdent
    g.Printf "\x7d\n\n"

/-- The body of the method loop of genStruct. -/
def genStructMethod (D : Deps) (obj : TypeName) (g : goGen) (m : Func) : goGen :=
  if !D.isSigSupported m then
    g.Printf ("// skipped method " ++ obj.name ++ "." ++ m.name
      ++ " with unsupported parameter or return types\n\n")
  else
    let g := genFuncSignature D g m obj.name
    let g := g.Indent
    let g := g.Printf "ref := _seq.FromRefNum(int32(refnum))\n"
    let n := g.pkgName g.pkg
    let g := n.2.Printf ("v := ref.Get().(*" ++ n.1 ++ "." ++ obj.name ++ ")\n")
    let g := genFuncBody D g m "v"
    let g := g.Outdent
    g.Printf "\x7d\n\n"

/-- The method genStruct. -/
def genStruct (D : Deps) (g : goGen) (obj : TypeName) (T : Ty) : goGen :=
  let fields := D.exportedFields T
  let methods := D.exportedMethodSet (.pointer obj.type)
  let g := fields.foldl (genStructField D obj) g
  methods.foldl (genStructMethod D obj) g

/-- The method genVar. -/
def genVar (D : Deps) (g : goGen) (o : Var) : goGen :=
  if !D.isSupported o.type then
    g.Printf ("// skipped variable " ++ o.name ++ " with unsupported type "
      ++ goTypeName o.type ++ "\n\n")
  else
    let n := g.pkgName g.pkg
    let g := n.2
    let v := n.1 ++ "." ++ o.name
    let g := g.Printf ("//export var_set" ++ g.pkgPrefix ++ "_" ++ o.name ++ "\n")
    let c := g.cgoType D o.type
    let g := c.2.Printf ("func var_set" ++ g.pkgPrefix ++ "_" ++ o.name ++ "(v C." ++ c.1
      ++ ") \x7b\n")
    let g := g.Indent
    let g := genRead D g "_v" "v" o.type .modeRetained
    let g := g.Printf (v ++ " = _v\n")
    let g := g.Outdent
    let g := g.Printf "\x7d\n"
    let g := g.Printf ("//export var_get" ++ g.pkgPrefix ++ "_" ++ o.name ++ "\n")
    let c := g.cgoType D o.type
    let g := c.2.Printf ("func var_get" ++ g.pkgPrefix ++ "_" ++ o.name ++ "() C." ++ c.1
      ++ " \x7b\n")
    let g := g.Indent
    let g := g.Printf ("v := " ++ v ++ "\n")
    let g := genWrite D g "_v" "v" o.type .modeRetained
    let g := g.Printf "return _v\n"
    let g := g.Outdent
    g.Printf "\x7d\n"

/-- The body of the first loop of genInterface: the entry point of a method. -/
def genInterfaceEntry (D : Deps) (obj : TypeName) (g : goGen) (m : Func) : goGen :=
  if !D.isSigSupported m then
    g.Printf ("// skipped method " ++ obj.name ++ "." ++ m.name
      ++ " with unsupported parameter or return types\n\n")
  else
    let g := genFuncSignature D g m obj.name
    let g := g.Indent
    let g := g.Printf "ref := _seq.FromRefNum(int32(refnum))\n"
    let n := g.pkgName g.pkg
    let g := n.2.Printf ("v := ref.Get().(" ++ n.1 ++ "." ++ obj.name ++ ")\n")
    let g := genFuncBody D g m "v"
    let g := g.Outdent
    g.Printf "\x7d\n\n"

/-- The loop of the proxy method printing the parameter list. -/
def proxyParams (D : Deps) (params : List Var) (g : goGen) : goGen :=
  forIdx (fun g i p =>
    let g := if i > 0 then g.Printf ", " else g
    let ts := typeString D g p.type
    ts.2.Printf ("param_" ++ D.paramName params i ++ " " ++ ts.1)) 0 params g

/-- The loop of the proxy method encoding the arguments. -/
def proxyEncodeParams (D : Deps) (params : List Var) (g : goGen) : goGen :=
  forIdx (fun g i p =>
    let pn := "param_" ++ D.paramName params i
    genWrite D g ("_" ++ pn) pn p.type .modeTransient) 0 params g

/-- The loop of the proxy method printing the arguments of the C call. -/
def proxyArgs (D : Deps) (params : List Var) (g : goGen) : goGen :=
  forIdx (fun g i _ =>
    g.Printf (", _param_" ++ D.paramName params i)) 0 params g

/-- The loop of the proxy method decoding the two results. -/
def proxyDecodeResults (D : Deps) (res : List Var) (g : goGen) : goGen :=
  forIdx (fun g i r =>
    genRead D g ("res_" ++ toString i) ("res.r" ++ toString i) r.type .modeRetained) 0 res g

/-- The body of the second loop of genInterface: the method of the proxy. -/
def genInterfaceProxyMethod (D : Deps) (obj : TypeName) (g : goGen) (m : Func) : goGen :=
  if !D.isSigSupported m then
    g.Printf ("// skipped method " ++ obj.name ++ "." ++ m.name
      ++ " with unsupported parameter or result types\n")
  else
    let params := m.params
    let res := m.results
    if arityViolated res then
      g.errorf
        "functions and methods must return either zero or one value, and optionally an error: %s.%s"
        [obj.name, m.name]
    else
      let g := g.Printf ("func (p *proxy" ++ g.pkgPrefix ++ "_" ++ obj.name ++ ") " ++ m.name ++ "(")
      let g := proxyParams D params g
      let g := g.Printf ") "
      let g :=
        if res.length = 1 then
          let ts := typeString D g (res.getD 0 default).type
          ts.2.Printf (D.Sprintf ts.1)
        else if res.length = 2 then
          let ts := typeString D g (res.getD 0 default).type
          ts.2.Printf ("(" ++ ts.1 ++ ", error)")
        else g
      let g := g.Printf " \x7b\n"
      let g := g.Indent
      let g := proxyEncodeParams D params g
      let g := if res.length > 0 then g.Printf "res := " else g
      let g := g.Printf ("C.cproxy" ++ g.pkgPrefix ++ "_" ++ obj.name ++ "_" ++ m.name
        ++ "(C.int32_t(p.Bind_Num)")
      let g := proxyArgs D params g
      let g := g.Printf ")\n"
      let g :=
        if res.length > 0 then
          if res.length = 1 then
            let g := genRead D g "_res" "res" (res.getD 0 default).type .modeRetained
            g.Printf ("return " ++ "_res" ++ "\n")
          else
            let g := proxyDecodeResults D res g
            let rvs := (List.range res.length).map (fun i => "res_" ++ toString i)
            g.Printf ("return " ++ String.intercalate ", " rvs ++ "\n")
        else g
      let g := g.Outdent
      g.Printf "\x7d\n\n"

/-- The statements of genInterface after the first one, for the interface type
`iface` obtained by the type assertions. -/
def genInterfaceBody (D : Deps) (g : goGen) (obj : TypeName) (iface : Ty) : goGen :=
  let summary := D.makeIfaceSummary iface
  let g := summary.callable.foldl (genInterfaceEntry D obj) g
  if !summary.implementable then
    g
  else
    let g := g.Printf ("type proxy" ++ g.pkgPrefix ++ "_" ++ obj.name ++ " _seq.Ref\n\n")
    let g := g.Printf ("func (p *proxy" ++ g.pkgPrefix ++ "_" ++ obj.name
      ++ ") Bind_proxy_refnum__() int32 \x7b return p.Bind_Num \x7d\n\n")
    summary.callable.foldl (genInterfaceProxyMethod D obj) g

/-- The method genInterface. The type assertions of its first statement fail
(none) when the object is not a named interface type. -/
def genInterface (D : Deps) (g : goGen) (obj : TypeName) : Option goGen :=
  match obj.type with
  | .named _ _ (.iface ms) _ => some (genInterfaceBody D g obj (.iface ms))
  | _ => none

/-- The constant goPreamble, formatted with the package name and path. -/
def goPreamble (name path : String) : String :=
  "// Package gomobile_bind is an autogenerated binder stub for package " ++ name ++ ".\n"
    ++ "//   gobind -lang=go " ++ path ++ "\n"
    ++ "//\n"
    ++ "// File is generated by gobind. Do not edit.\n"
    ++ "package gomobile_bind\n"
    ++ "\n"
    ++ "/*\n"
    ++ "#include <stdlib.h>\n"
    ++ "#include <stdint.h>\n"
    ++ "#include \"seq.h\"\n"
    ++ "#include \"" ++ name ++ ".h\"\n"
    ++ "\n"
    ++ "*/\n"
    ++ "import \"C\"\n"
    ++ "\n"

/-- The method genPreamble. -/
def genPreamble (D : Deps) (g : goGen) : goGen :=
  let g := g.Printf (goPreamble g.pkg.name g.pkg.path)
  let g := g.Printf "import (\n"
  let g := g.Indent
  let g := g.Printf "_seq \"golang.org/x/mobile/bind/seq\"\n"
  let g := (D.rangeOrder g.imports).foldl (fun g path => g.Printf (D.quote path ++ "\n")) g
  let g := g.Outdent
  g.Printf ")\n\n"

/-- The loop of gen over the interfaces; it stops when genInterface fails. -/
def genInterfaces (D : Deps) : List interfaceInfo → goGen → Option goGen
  | [], g => some g
  | intf :: rest, g =>
    match genInterface D g intf.obj with
    | none => none
    | some g => genInterfaces D rest g

/-- The statements of gen between the two switches of buffer: the two header
lines and the loops over the structs, interfaces, variables and functions. -/
def genDecls (D : Deps) (g : goGen) : Option goGen :=
  let g := g.Printf "// suppress the error if seq ends up unused\n"
  let g := g.Printf "var _ = _seq.FromRefNum\n"
  let g := g.structs.foldl (fun g s => genStruct D g s.obj s.t) g
  match genInterfaces D g.interfaces g with
  | none => none
  | some g =>
    let g := g.vars.foldl (genVar D) g
    some (g.funcs.foldl (genFunc D) g)

/-- The method gen: the final generator and the returned error (none for nil).
The whole result is none when a type assertion of genInterface fails. -/
def gen (D : Deps) (g : goGen) : Option (goGen × Option (List GenErr)) :=
  let g := { g with imports := [] }
  let oldBuf := g.buf
  let g := { g with buf := [] }
  match genDecls D g with
  | none => none
  | some g =>
    let newBuf := g.buf
    let g := { g with buf := oldBuf }
    let g := genPreamble D g
    let g := { g with buf := g.buf ++ newBuf }
    if g.err.length > 0 then some (g, some g.err) else some (g, none)

/-! ## Example inputs

An instance of the parameters, after the helpers of package bind, and the
declarations of the example package `hello`. They serve to evaluate the
definitions on concrete inputs. -/

/-- The name of a basic kind. -/
def basicName : BasicKind → String
  | .Invalid => "invalid type"
  | .Bool => "bool"
  | .Int => "int"
  | .Int8 => "int8"
  | .Int16 => "int16"
  | .Int32 => "int32"
  | .Int64 => "int64"
  | .Uint => "uint"
  | .Uint8 => "uint8"
  | .Uint16 => "uint16"
  | .Uint32 => "uint32"
  | .Uint64 => "uint64"
  | .Uintptr => "uintptr"
  | .Float32 => "float32"
  | .Float64 => "float64"
  | .Complex64 => "complex64"
  | .Complex128 => "complex128"
  | .String => "string"
  | .UnsafePointer => "unsafe.Pointer"
  | .UntypedBool => "untyped bool"
  | .UntypedInt => "untyped int"
  | .UntypedRune => "untyped rune"
  | .UntypedFloat => "untyped float"
  | .UntypedComplex => "untyped complex"
  | .UntypedString => "untyped string"
  | .UntypedNil => "untyped nil"

/-- A rendering of a type relative to a package, for the examples. -/
def exTypeString (t : Ty) (rel : Option Package) : String :=
  match t with
  | .basic k => basicName k
  | .named n none _ _ => n
  | .named n (some p) _ _ => if rel = some p then n else p.path ++ "." ++ n
  | .pointer _ => "*T"
  | .slice _ => "[]T"
  | _ => goTypeName t

/-- The C type of a Go type, for the examples. -/
def exCgoType (t : Ty) : String × List GenErr :=
  match t with
  | .named _ _ _ _ => if isErrorType t then ("nstring", []) else ("int32_t", [])
  | .basic k =>
    match k with
    | .Bool | .UntypedBool => ("char", [])
    | .Int => ("nint", [])
    | .Int8 => ("int8_t", [])
    | .Int16 => ("int16_t", [])
    | .Int32 | .UntypedRune => ("int32_t", [])
    | .Int64 | .UntypedInt => ("int64_t", [])
    | .Uint8 => ("uint8_t", [])
    | .Float32 => ("float", [])
    | .Float64 | .UntypedFloat => ("double", [])
    | .String => ("nstring", [])
    | _ => ("TODO", [⟨"unsupported basic type: %s", [basicName k]⟩])
  | .slice (.basic .Uint8) => ("nbyteslice", [])
  | .pointer (.named _ _ _ _) => ("int32_t", [])
  | _ => ("TODO", [⟨"unsupported type: %s", [goTypeName t]⟩])

/-- The supported types, for the examples, relative to the bound packages. -/
def exIsSupported (bound : List Package) (t : Ty) : Bool :=
  match t with
  | .basic k =>
    match k with
    | .Bool | .Int | .Int8 | .Int16 | .Int32 | .Int64 | .Uint8 | .Float32 | .Float64
    | .String | .UntypedBool | .UntypedInt | .UntypedRune | .UntypedFloat => true
    | _ => false
  | .slice (.basic .Uint8) => true
  | .pointer (.named _ (some p) _ _) => decide (p ∈ bound)
  | .named "error" none _ _ => true
  | .named _ (some p) (.iface _) _ => decide (p ∈ bound)
  | .named _ (some p) (.pointer _) _ => decide (p ∈ bound)
  | _ => false

/-- Whether a name is exported: its first character is upper case. -/
def isExported (name : String) : Bool :=
  match name.data with
  | c :: _ => c.isUpper
  | [] => false

/-- The function described by a method entry of a type. -/
def toFunc (m : String × Ty) : Func :=
  match m.2 with
  | .signature ps rs => ⟨m.1, ps.map (fun p => ⟨p.1, p.2⟩), rs.map (fun p => ⟨p.1, p.2⟩)⟩
  | _ => ⟨m.1, [], []⟩

/-- The parameters of the development, for the examples. -/
def exampleDeps (bound : List Package) : Deps where
  typeStr := fun t => exTypeString t none
  TypeString := fun t p => exTypeString t (some p)
  pkgStr := fun p =>
    match p with
    | none => "<nil>"
    | some p => "package " ++ p.name ++ " (\"" ++ p.path ++ "\")"
  quote := fun s => "\"" ++ s ++ "\""
  Sprintf := fun s => s
  cgoType := exCgoType
  isSupported := exIsSupported bound
  isSigSupported := fun o =>
    o.params.all (fun p => exIsSupported bound p.type)
      && o.results.all (fun r => exIsSupported bound r.type)
  paramName := fun params i =>
    let name := (params.getD i default).name
    if name = "" ∨ name = "_" then "p" ++ toString i else name
  pkgPrefixOf := fun p => p.name
  makeIfaceSummary := fun t =>
    match t with
    | .iface ms =>
      ⟨(ms.filter (fun m => isExported m.1)).map toFunc, ms.all (fun m => isExported m.1)⟩
    | _ => ⟨[], true⟩
  exportedFields := fun t =>
    match t with
    | .struct fs => (fs.filter (fun f => isExported f.1)).map (fun f => ⟨f.1, f.2⟩)
    | _ => []
  exportedMethodSet := fun t =>
    match t with
    | .pointer (.named _ _ _ ms) => (ms.filter (fun m => isExported m.1)).map toFunc
    | _ => []
  rangeOrder := fun l => l

/-- The predeclared type `error`. -/
def errorType : Ty :=
  .named "error" none (.iface [("Error", .signature [] [("", .basic .String)])]) []

/-- The example package `hello`. -/
def helloPkg : Package := ⟨"hello", "golang.org/x/mobile/example/bind/hello"⟩

/-- The function `Greetings(name Kind) string` of package hello, where Kind is an
alias of string. -/
def Greetings : Func := ⟨"Greetings", [⟨"name", .basic .String⟩], [⟨"", .basic .String⟩]⟩

/-- The function `GeneratePrivateKey() (string, error)` of package hello. -/
def GeneratePrivateKey : Func :=
  ⟨"GeneratePrivateKey", [], [⟨"", .basic .String⟩, ⟨"", errorType⟩]⟩

/-- The struct type of `Foo` in package hello. -/
def fooStruct : Ty := .struct [("A", .basic .Int32), ("Str", .basic .String)]

/-- The named type `Foo` of package hello. -/
def Foo : Ty := .named "Foo" (some helloPkg) fooStruct []

/-- The function `DoSomethingWithFoo(foo *Foo) *Foo` of package hello. -/
def DoSomethingWithFoo : Func :=
  ⟨"DoSomethingWithFoo", [⟨"foo", .pointer Foo⟩], [⟨"", .pointer Foo⟩]⟩

/-- A function with three results: `Triple(x int32) (int32, string, error)`. -/
def Triple : Func :=
  ⟨"Triple", [⟨"x", .basic .Int32⟩], [⟨"", .basic .Int32⟩, ⟨"", .basic .String⟩, ⟨"", errorType⟩]⟩

/-- A named type whose underlying type is a pointer: `type FooPtr *Foo`, declared
in package hello. -/
def FooPtr : Ty := .named "FooPtr" (some helloPkg) (.pointer Foo) []

/-- A package that is not bound. -/
def otherPkg : Package := ⟨"other", "example.com/other"⟩

/-- A named struct type `other.T` of the package that is not bound. -/
def otherT : Ty := .named "T" (some otherPkg) (.struct []) []

/-- A generator for a package with the functions Greetings and Triple, with text
already in its buffer. -/
def tripleGen : goGen where
  pkg := helloPkg
  pkgPrefix := "hello"
  allPkg := [helloPkg]
  structs := []
  interfaces := []
  vars := []
  funcs := [Triple, Greetings]
  err := []
  buf := [⟨0, "// earlier text\n"⟩]
  indent := 0
  imports := ["stale/import"]

/-- A generator for package hello with an empty buffer and no error. -/
def helloGen : goGen where
  pkg := helloPkg
  pkgPrefix := "hello"
  allPkg := [helloPkg]
  structs := [⟨⟨"Foo", Foo⟩, fooStruct⟩]
  interfaces := []
  vars := []
  funcs := [Greetings, GeneratePrivateKey, DoSomethingWithFoo]
  err := []
  buf := []
  indent := 0
  imports := []

/-! ## Relations between generator states -/

/-- The relation between a generator and a later state of it: the inputs are
unchanged, the indentation depth has grown by `k`, the buffer and the error list
have only been appended to (with errors satisfying `P`), and the set of imports
has only grown. -/
structure Step (P : GenErr → Prop) (k : Nat) (g g' : goGen) : Prop where
  pkg : g'.pkg = g.pkg
  pkgPrefix : g'.pkgPrefix = g.pkgPrefix
  allPkg : g'.allPkg = g.allPkg
  structs : g'.structs = g.structs
  interfaces : g'.interfaces = g.interfaces
  vars : g'.vars = g.vars
  funcs : g'.funcs = g.funcs
  indent : g'.indent = g.indent + k
  err : ∃ es, g'.err = g.err ++ es ∧ ∀ e ∈ es, P e
  buf : ∃ out, g'.buf = g.buf ++ out
  imports : ∀ p ∈ g.imports, p ∈ g'.imports

/-- The predicate that holds of every error. -/
def anyErr : GenErr → Prop := fun _ => True

/-- The text emitted between a state and a later state. -/
def emitted (g g' : goGen) : List Chunk := g'.buf.drop g.buf.length

/-- The errors recorded between a state and a later state. -/
def recorded (g g' : goGen) : List GenErr := g'.err.drop g.err.length

/-- Two generators agree on what the emitted text depends on: the package, the
package prefix, the bound packages and the indentation depth. -/
structure Sim (g x : goGen) : Prop where
  pkg : x.pkg = g.pkg
  pkgPrefix : x.pkgPrefix = g.pkgPrefix
  allPkg : x.allPkg = g.allPkg
  indent : x.indent = g.indent

/-- Two runs, from `g` to `g'` and from `x` to `x'`, have emitted the same text
and still agree on what the text depends on. -/
structure Co (g x g' x' : goGen) : Prop where
  sim : Sim g' x'
  out : ∃ out, g'.buf = g.buf ++ out ∧ x'.buf = x.buf ++ out

/-- The text returned by typeString, as a function of the package and the bound
packages of the generator. -/
def typeStringText (D : Deps) (pkg : Package) (allPkg : List Package) (t : Ty) : String :=
  (typeString D ⟨pkg, "", allPkg, [], [], [], [], [], [], 0, []⟩ t).1

/-- The format of the result-arity diagnostic of genFuncBody. -/
def arityFormat : String :=
  "functions and methods must return either zero or one values, and optionally an error"

/-- The result-arity diagnostic of genFuncBody. -/
def arityDiag : GenErr := ⟨arityFormat, []⟩

/-- The text genRead emits from the generator `g`. -/
def readOut (D : Deps) (g : goGen) (toVar fromVar : String) (t : Ty) (mode : varMode) :
    List Chunk :=
  emitted g (genRead D g toVar fromVar t mode)

/-- The text genWrite emits from the generator `g`. -/
def writeOut (D : Deps) (g : goGen) (toVar fromVar : String) (t : Ty) (mode : varMode) :
    List Chunk :=
  emitted g (genWrite D g toVar fromVar t mode)

/-- The texts printed at depth `k`, separated by `", "`. -/
def commaSep (k : Nat) (texts : List String) : List Chunk :=
  (texts.map (Chunk.mk k)).intersperse ⟨k, ", "⟩

/-- The names `pre0`, `pre1`, ... of the first `n` indices. -/
def indexed (pre : String) (n : Nat) : List String :=
  (List.range n).map (fun i => pre ++ toString i)

/-- The generator `g` at `k` more levels of indentation. -/
def deep (k : Nat) (g : goGen) : goGen := { g with indent := g.indent + k }

/-- From `g`, at `k` more levels of indentation, the generator `x` has been
reached and the text `out` has been emitted. -/
structure Em (k : Nat) (g x : goGen) (out : List Chunk) : Prop where
  step : Step anyErr k g x
  out : emitted g x = out

/-- The forward entry points of an interface: the texts genInterfaceEntry emits
for the callable methods, in order. -/
def forwardOut (D : Deps) (g : goGen) (obj : TypeName) (callable : List Func) : List Chunk :=
  (callable.map (fun m => emitted g (genInterfaceEntry D obj g m))).flatten

/-- The reverse proxy of an interface: the type `proxy<prefix>_<Name>`, its method
`Bind_proxy_refnum__` and the texts genInterfaceProxyMethod emits for the callable
methods, in order. -/
def proxyOut (D : Deps) (g : goGen) (obj : TypeName) (callable : List Func) : List Chunk :=
  [⟨g.indent, "type proxy" ++ g.pkgPrefix ++ "_" ++ obj.name ++ " _seq.Ref\n\n"⟩,
   ⟨g.indent, "func (p *proxy" ++ g.pkgPrefix ++ "_" ++ obj.name
      ++ ") Bind_proxy_refnum__() int32 \x7b return p.Bind_Num \x7d\n\n"⟩]
  ++ (callable.map (fun m => emitted g (genInterfaceProxyMethod D obj g m))).flatten

/-- The text of the Set and Get accessors of a struct field of a supported type:
the setter decodes the incoming value and assigns it, the getter reads the field
and encodes it. -/
def accessorsOut (D : Deps) (g : goGen) (obj : TypeName) (f : Var) : List Chunk :=
  [⟨g.indent, "//export proxy" ++ g.pkgPrefix ++ "_" ++ obj.name ++ "_" ++ f.name ++ "_Set\n"⟩,
   ⟨g.indent, "func proxy" ++ g.pkgPrefix ++ "_" ++ obj.name ++ "_" ++ f.name
      ++ "_Set(refnum C.int32_t, v C." ++ (D.cgoType f.type).1 ++ ") \x7b\n"⟩,
   ⟨g.indent + 1, "ref := _seq.FromRefNum(int32(refnum))\n"⟩]
  ++ readOut D (deep 1 g) "_v" "v" f.type .modeRetained
  ++ [⟨g.indent + 1, "ref.Get().(*" ++ g.pkg.name ++ "." ++ obj.name ++ ")." ++ f.name
        ++ " = _v\n"⟩,
      ⟨g.indent, "\x7d\n\n"⟩,
      ⟨g.indent, "//export proxy" ++ g.pkgPrefix ++ "_" ++ obj.name ++ "_" ++ f.name
        ++ "_Get\n"⟩,
      ⟨g.indent, "func proxy" ++ g.pkgPrefix ++ "_" ++ obj.name ++ "_" ++ f.name
        ++ "_Get(refnum C.int32_t) C." ++ (D.cgoType f.type).1 ++ " \x7b\n"⟩,
      ⟨g.indent + 1, "ref := _seq.FromRefNum(int32(refnum))\n"⟩,
      ⟨g.indent + 1, "v := ref.Get().(*" ++ g.pkg.name ++ "." ++ obj.name ++ ")." ++ f.name
        ++ "\n"⟩]
  ++ writeOut D (deep 1 g) "_v" "v" f.type .modeRetained
  ++ [⟨g.indent + 1, "return _v\n"⟩, ⟨g.indent, "\x7d\n\n"⟩]

/-- The types marshalled as reference handles: pointers to named types, and named
types whose underlying type is an interface or a pointer. -/
def isRefType (t : Ty) : Bool :=
  match t with
  | .pointer (.named _ _ _ _) => true
  | .named _ _ (.iface _) _ => true
  | .named _ _ (.pointer _) _ => true
  | _ => false

/-- The error recorded for a type of a package that is not bound. -/
def unboundErr (D : Deps) (t : Ty) (p : Package) : GenErr :=
  ⟨"type %s is defined in %s, which is not bound", [D.typeStr t, D.pkgStr (some p)]⟩

/-- A type is a named type whose underlying type is an interface: the type
assertions of genInterface succeed on it. -/
def namedIface (t : Ty) : Bool :=
  match t with
  | .named _ _ (.iface _) _ => true
  | _ => false

/-- The underlying type of a type. -/
def underlying (t : Ty) : Ty :=
  match t with
  | .named _ _ u _ => u
  | _ => t

/-- The generator after the header lines and the loops over the declarations,
when the type assertions of genInterface succeed. -/
def declsOf (D : Deps) (g : goGen) : goGen :=
  let g := g.Printf "// suppress the error if seq ends up unused\n"
  let g := g.Printf "var _ = _seq.FromRefNum\n"
  let g := g.structs.foldl (fun g s => genStruct D g s.obj s.t) g
  let g := g.interfaces.foldl (fun g i => genInterfaceBody D g i.obj (underlying i.obj.type)) g
  let g := g.vars.foldl (genVar D) g
  g.funcs.foldl (genFunc D) g

/-- The body of the generated file: the two header lines, then the text of every
struct, every interface, every variable and every function, in this order, each
as it is emitted from the generator `g`. -/
def declsOut (D : Deps) (g : goGen) : List Chunk :=
  [⟨g.indent, "// suppress the error if seq ends up unused\n"⟩,
   ⟨g.indent, "var _ = _seq.FromRefNum\n"⟩]
  ++ (g.structs.map (fun s => emitted g (genStruct D g s.obj s.t))).flatten
  ++ (g.interfaces.map (fun i =>
        emitted g (genInterfaceBody D g i.obj (underlying i.obj.type)))).flatten
  ++ (g.vars.map (fun v => emitted g (genVar D g v))).flatten
  ++ (g.funcs.map (fun f => emitted g (genFunc D g f))).flatten

/-- The preamble of the generated file: the header naming the bound package, and
the block of imports: the fixed import of seq and one line for each path of the
set of imports, in the order of `range`. -/
def preambleOut (D : Deps) (g : goGen) (imports : List String) : List Chunk :=
  [⟨g.indent, goPreamble g.pkg.name g.pkg.path⟩,
   ⟨g.indent, "import (\n"⟩,
   ⟨g.indent + 1, "_seq \"golang.org/x/mobile/bind/seq\"\n"⟩]
  ++ (D.rangeOrder imports).map (fun path => ⟨g.indent + 1, D.quote path ++ "\n"⟩)
  ++ [⟨g.indent, ")\n\n"⟩]

/-- The name of a boundary entry point by the naming convention
`<role><PackagePrefix>_<OwnerName>_<MemberName>` followed by a suffix, which is
empty, `_Get` or `_Set`. -/
def entryName (role pkgPrefix owner member suffix : String) : String :=
  role ++ pkgPrefix ++ "_" ++ owner ++ "_" ++ member ++ suffix

/-- The text of the accessors of a package variable of a supported type: the
setter decodes the incoming value and assigns it, the getter reads the variable
and encodes it. -/
def varAccessorsOut (D : Deps) (g : goGen) (o : Var) : List Chunk :=
  [⟨g.indent, "//export var_set" ++ g.pkgPrefix ++ "_" ++ o.name ++ "\n"⟩,
   ⟨g.indent, "func var_set" ++ g.pkgPrefix ++ "_" ++ o.name ++ "(v C." ++ (D.cgoType o.type).1
      ++ ") \x7b\n"⟩]
  ++ readOut D (deep 1 g) "_v" "v" o.type .modeRetained
  ++ [⟨g.indent + 1, g.pkg.name ++ "." ++ o.name ++ " = _v\n"⟩,
      ⟨g.indent, "\x7d\n"⟩,
      ⟨g.indent, "//export var_get" ++ g.pkgPrefix ++ "_" ++ o.name ++ "\n"⟩,
      ⟨g.indent, "func var_get" ++ g.pkgPrefix ++ "_" ++ o.name ++ "() C."
        ++ (D.cgoType o.type).1 ++ " \x7b\n"⟩,
      ⟨g.indent + 1, "v := " ++ (g.pkg.name ++ "." ++ o.name) ++ "\n"⟩]
  ++ writeOut D (deep 1 g) "_v" "v" o.type .modeRetained
  ++ [⟨g.indent + 1, "return _v\n"⟩, ⟨g.indent, "\x7d\n"⟩]

/-- The text of a method of the reverse proxy of an interface, for a method with
a supported signature that passes the arity rule: the header with the parameters
and the result types; the encoding of each parameter in declared order, in
Transient mode, into `_param_<name>`; one call of `C.cproxy<prefix>_<Iface>_<Method>`
with the handle `p.Bind_Num` of the proxy first and then the encoded parameters in
declared order, assigned to `res` when there are results; the decoding of each
result in declared order, in Retained mode; and the return of the decoded results
in declared order. -/
def proxyMethodOut (D : Deps) (g : goGen) (obj : TypeName) (m : Func) : List Chunk :=
  [⟨g.indent, "func (p *proxy" ++ g.pkgPrefix ++ "_" ++ obj.name ++ ") " ++ m.name ++ "("⟩]
  ++ commaSep g.indent (m.params.enum.map (fun ip =>
      "param_" ++ D.paramName m.params ip.1 ++ " "
        ++ typeStringText D g.pkg g.allPkg ip.2.type))
  ++ [⟨g.indent, ") "⟩]
  ++ (if m.results.length = 1 then
        [⟨g.indent, D.Sprintf (typeStringText D g.pkg g.allPkg
          (m.results.getD 0 default).type)⟩]
      else if m.results.length = 2 then
        [⟨g.indent, "(" ++ typeStringText D g.pkg g.allPkg
          (m.results.getD 0 default).type ++ ", error)"⟩]
      else [])
  ++ [⟨g.indent, " \x7b\n"⟩]
  ++ (m.params.enum.map (fun ip =>
      writeOut D (deep 1 g) ("_param_" ++ D.paramName m.params ip.1)
        ("param_" ++ D.paramName m.params ip.1) ip.2.type .modeTransient)).flatten
  ++ (if m.results.length > 0 then [⟨g.indent + 1, "res := "⟩] else [])
  ++ [⟨g.indent + 1, "C.cproxy" ++ g.pkgPrefix ++ "_" ++ obj.name ++ "_" ++ m.name
        ++ "(C.int32_t(p.Bind_Num)"⟩]
  ++ m.params.enum.map (fun ip =>
      ⟨g.indent + 1, ", _param_" ++ D.paramName m.params ip.1⟩)
  ++ [⟨g.indent + 1, ")\n"⟩]
  ++ (if m.results.length > 0 then
        if m.results.length = 1 then
          readOut D (deep 1 g) "_res" "res" (m.results.getD 0 default).type .modeRetained
            ++ [⟨g.indent + 1, "return _res\n"⟩]
        else
          (m.results.enum.map (fun ir =>
            readOut D (deep 1 g) ("res_" ++ toString ir.1) ("res.r" ++ toString ir.1)
              ir.2.type .modeRetained)).flatten
            ++ [⟨g.indent + 1, "return "
                  ++ String.intercalate ", " (indexed "res_" m.results.length) ++ "\n"⟩]
      else [])
  ++ [⟨g.indent, "\x7d\n\n"⟩]

/-- An example of an implementable interface, taken as declared in package hello:
`type Greeter interface { Greet(name string) (string, error) }`. -/
def Greeter : Ty :=
  .named "Greeter" (some helloPkg)
    (.iface [("Greet", .signature [("name", .basic .String)]
      [("", .basic .String), ("", errorType)])]) []

/-- The method Greet of the interface Greeter. -/
def Greet : Func := ⟨"Greet", [⟨"name", .basic .String⟩], [⟨"", .basic .String⟩, ⟨"", errorType⟩]⟩

/-- An example of a struct with a field of type `[]byte`, taken as declared in
package hello: `type Blob struct { Data []byte }`. -/
def Blob : Ty := .named "Blob" (some helloPkg) (.struct [("Data", .slice (.basic .Uint8))]) []

/-- The types that the type switches of genWrite and genRead reject by their
form: a type that is not the error type, not a basic type, not a slice of bytes,
not a pointer to a named type, and not a named type whose underlying type is an
interface or a pointer. -/
def rejectedForm (t : Ty) : Bool :=
  !isErrorType t &&
    match t with
    | .basic _ => false
    | .slice (.basic .Uint8) => false
    | .pointer (.named _ _ _ _) => false
    | .named _ _ (.iface _) _ => false
    | .named _ _ (.pointer _) _ => false
    | _ => true

/-- An example of an interface with an unexported method, which no proxy can
implement, taken as declared in package hello: `type Secret interface { hidden() }`. -/
def Secret : Ty := .named "Secret" (some helloPkg) (.iface [("hidden", .signature [] [])]) []

/-- The run from `g` to `x` keeps the set of imports free of duplicates. -/
def KeepsDistinct (g x : goGen) : Prop := g.imports.Nodup → x.imports.Nodup

/-- An example of an interface that is not implementable and has a method with
two results of which the second is not an error, taken as declared in package
hello: `type Pairer interface { Pair() (int, string); hidden() }`. -/
def Pairer : Ty :=
  .named "Pairer" (some helloPkg)
    (.iface [("Pair", .signature [] [("", .basic .Int), ("", .basic .String)]),
      ("hidden", .signature [] [])]) []

/-! ## Lemmas on the primitives -/

@[simp] theorem Printf_buf (g : goGen) (s : String) :
    (g.Printf s).buf = g.buf ++ [⟨g.indent, s⟩] := rfl
@[simp] theorem Printf_err (g : goGen) (s : String) : (g.Printf s).err = g.err := rfl
@[simp] theorem Printf_indent (g : goGen) (s : String) : (g.Printf s).indent = g.indent := rfl
@[simp] theorem Printf_imports (g : goGen) (s : String) : (g.Printf s).imports = g.imports := rfl
@[simp] theorem Printf_pkg (g : goGen) (s : String) : (g.Printf s).pkg = g.pkg := rfl
@[simp] theorem Printf_pkgPrefix (g : goGen) (s : String) :
    (g.Printf s).pkgPrefix = g.pkgPrefix := rfl
@[simp] theorem Printf_allPkg (g : goGen) (s : String) : (g.Printf s).allPkg = g.allPkg := rfl
@[simp] theorem errorf_buf (g : goGen) (f : String) (a : List String) :
    (g.errorf f a).buf = g.buf := rfl
@[simp] theorem errorf_err (g : goGen) (f : String) (a : List String) :
    (g.errorf f a).err = g.err ++ [⟨f, a⟩] := rfl
@[simp] theorem errorf_indent (g : goGen) (f : String) (a : List String) :
    (g.errorf f a).indent = g.indent := rfl
@[simp] theorem errorf_imports (g : goGen) (f : String) (a : List String) :
    (g.errorf f a).imports = g.imports := rfl
@[simp] theorem errorf_pkg (g : goGen) (f : String) (a : List String) :
    (g.errorf f a).pkg = g.pkg := rfl
@[simp] theorem errorf_pkgPrefix (g : goGen) (f : String) (a : List String) :
    (g.errorf f a).pkgPrefix = g.pkgPrefix := rfl
@[simp] theorem errorf_allPkg (g : goGen) (f : String) (a : List String) :
    (g.errorf f a).allPkg = g.allPkg := rfl
@[simp] theorem pkgName_fst (g : goGen) (p : Package) : (g.pkgName p).1 = p.name := rfl
@[simp] theorem pkgName_buf (g : goGen) (p : Package) : (g.pkgName p).2.buf = g.buf := rfl
@[simp] theorem pkgName_err (g : goGen) (p : Package) : (g.pkgName p).2.err = g.err := rfl
@[simp] theorem pkgName_indent (g : goGen) (p : Package) :
    (g.pkgName p).2.indent = g.indent := rfl
@[simp] theorem pkgName_pkg (g : goGen) (p : Package) : (g.pkgName p).2.pkg = g.pkg := rfl
@[simp] theorem pkgName_pkgPrefix (g : goGen) (p : Package) :
    (g.pkgName p).2.pkgPrefix = g.pkgPrefix := rfl
@[simp] theorem pkgName_allPkg (g : goGen) (p : Package) :
    (g.pkgName p).2.allPkg = g.allPkg := rfl
@[simp] theorem cgoType_fst (D : Deps) (g : goGen) (t : Ty) :
    (g.cgoType D t).1 = (D.cgoType t).1 := rfl
@[simp] theorem cgoType_buf (D : Deps) (g : goGen) (t : Ty) :
    (g.cgoType D t).2.buf = g.buf := rfl
@[simp] theorem cgoType_err (D : Deps) (g : goGen) (t : Ty) :
    (g.cgoType D t).2.err = g.err ++ (D.cgoType t).2 := rfl
@[simp] theorem cgoType_indent (D : Deps) (g : goGen) (t : Ty) :
    (g.cgoType D t).2.indent = g.indent := rfl
@[simp] theorem cgoType_pkgPrefix (D : Deps) (g : goGen) (t : Ty) :
    (g.cgoType D t).2.pkgPrefix = g.pkgPrefix := rfl
@[simp] theorem cgoType_pkg (D : Deps) (g : goGen) (t : Ty) :
    (g.cgoType D t).2.pkg = g.pkg := rfl
@[simp] theorem cgoType_allPkg (D : Deps) (g : goGen) (t : Ty) :
    (g.cgoType D t).2.allPkg = g.allPkg := rfl
@[simp] theorem validPkg_Printf (g : goGen) (s : String) (p : Option Package) :
    validPkg (g.Printf s) p = validPkg g p := rfl
@[simp] theorem validPkg_errorf (g : goGen) (f : String) (a : List String)
    (p : Option Package) : validPkg (g.errorf f a) p = validPkg g p := rfl

@[simp] theorem Printf_structs (g : goGen) (s : String) : (g.Printf s).structs = g.structs := rfl
@[simp] theorem Printf_interfaces (g : goGen) (s : String) :
    (g.Printf s).interfaces = g.interfaces := rfl
@[simp] theorem Printf_vars (g : goGen) (s : String) : (g.Printf s).vars = g.vars := rfl
@[simp] theorem Printf_funcs (g : goGen) (s : String) : (g.Printf s).funcs = g.funcs := rfl

theorem step_refl (P : GenErr → Prop) (g : goGen) : Step P 0 g g :=
  ⟨rfl, rfl, rfl, rfl, rfl, rfl, rfl, rfl, ⟨[], by simp⟩, ⟨[], by simp⟩, fun _ h => h⟩

theorem step_trans {P : GenErr → Prop} {j k : Nat} {a b c : goGen}
    (h₁ : Step P j a b) (h₂ : Step P k b c) : Step P (j + k) a c := by
  obtain ⟨es₁, he₁, hp₁⟩ := h₁.err
  obtain ⟨es₂, he₂, hp₂⟩ := h₂.err
  obtain ⟨o₁, hb₁⟩ := h₁.buf
  obtain ⟨o₂, hb₂⟩ := h₂.buf
  refine ⟨h₂.pkg.trans h₁.pkg, h₂.pkgPrefix.trans h₁.pkgPrefix, h₂.allPkg.trans h₁.allPkg,
    h₂.structs.trans h₁.structs, h₂.interfaces.trans h₁.interfaces, h₂.vars.trans h₁.vars,
    h₂.funcs.trans h₁.funcs, ?_, ⟨es₁ ++ es₂, ?_, ?_⟩, ⟨o₁ ++ o₂, ?_⟩, ?_⟩
  · rw [h₂.indent, h₁.indent, Nat.add_assoc]
  · rw [he₂, he₁, List.append_assoc]
  · intro e he
    rcases List.mem_append.mp he with h | h
    · exact hp₁ e h
    · exact hp₂ e h
  · rw [hb₂, hb₁, List.append_assoc]
  · intro p hp
    exact h₂.imports p (h₁.imports p hp)

theorem step_mono {P Q : GenErr → Prop} {k : Nat} {g g' : goGen} (h : Step P k g g')
    (hPQ : ∀ e, P e → Q e) : Step Q k g g' := by
  obtain ⟨es, he, hp⟩ := h.err
  exact ⟨h.pkg, h.pkgPrefix, h.allPkg, h.structs, h.interfaces, h.vars, h.funcs, h.indent,
    ⟨es, he, fun e hm => hPQ e (hp e hm)⟩, h.buf, h.imports⟩

theorem step_one_Printf (P : GenErr → Prop) (g : goGen) (s : String) :
    Step P 0 g (g.Printf s) :=
  ⟨rfl, rfl, rfl, rfl, rfl, rfl, rfl, rfl, ⟨[], by simp⟩, ⟨[⟨g.indent, s⟩], rfl⟩, fun _ h => h⟩

theorem step_one_errorf {P : GenErr → Prop} (g : goGen) (f : String) (a : List String)
    (h : P ⟨f, a⟩) : Step P 0 g (g.errorf f a) :=
  ⟨rfl, rfl, rfl, rfl, rfl, rfl, rfl, rfl, ⟨[⟨f, a⟩], rfl, by simpa using h⟩, ⟨[], by simp⟩,
    fun _ h => h⟩

theorem step_one_pkgName (P : GenErr → Prop) (g : goGen) (p : Package) :
    Step P 0 g (g.pkgName p).2 := by
  refine ⟨rfl, rfl, rfl, rfl, rfl, rfl, rfl, rfl, ⟨[], by simp⟩, ⟨[], by simp⟩, ?_⟩
  intro q hq
  show q ∈ (if p.path ∈ g.imports then g.imports else g.imports ++ [p.path])
  split
  · exact hq
  · exact List.mem_append_left _ hq

theorem step_one_cgoType {P : GenErr → Prop} (D : Deps) (g : goGen) (t : Ty)
    (h : ∀ e ∈ (D.cgoType t).2, P e) : Step P 0 g (g.cgoType D t).2 :=
  ⟨rfl, rfl, rfl, rfl, rfl, rfl, rfl, rfl, ⟨(D.cgoType t).2, rfl, h⟩, ⟨[], by simp⟩,
    fun _ h => h⟩

theorem step_Printf {P : GenErr → Prop} {k : Nat} {g x : goGen} (s : String)
    (h : Step P k g x) : Step P k g (x.Printf s) :=
  step_trans h (step_one_Printf P x s)

theorem step_errorf {P : GenErr → Prop} {k : Nat} {g x : goGen} (f : String)
    (a : List String) (hp : P ⟨f, a⟩) (h : Step P k g x) : Step P k g (x.errorf f a) :=
  step_trans h (step_one_errorf x f a hp)

theorem step_pkgName {P : GenErr → Prop} {k : Nat} {g x : goGen} (p : Package)
    (h : Step P k g x) : Step P k g (x.pkgName p).2 :=
  step_trans h (step_one_pkgName P x p)

theorem step_cgoType {P : GenErr → Prop} {k : Nat} {g x : goGen} (D : Deps) (t : Ty)
    (hp : ∀ e ∈ (D.cgoType t).2, P e) (h : Step P k g x) : Step P k g (x.cgoType D t).2 :=
  step_trans h (step_one_cgoType D x t hp)

theorem step_Indent {P : GenErr → Prop} {k : Nat} {g x : goGen}
    (h : Step P k g x) : Step P (k + 1) g x.Indent := by
  obtain ⟨es, he, hp⟩ := h.err
  exact ⟨h.pkg, h.pkgPrefix, h.allPkg, h.structs, h.interfaces, h.vars, h.funcs,
    by show x.indent + 1 = g.indent + (k + 1); rw [h.indent, Nat.add_assoc],
    ⟨es, he, hp⟩, h.buf, h.imports⟩

theorem step_Outdent {P : GenErr → Prop} {k : Nat} {g x : goGen}
    (h : Step P (k + 1) g x) : Step P k g x.Outdent := by
  obtain ⟨es, he, hp⟩ := h.err
  exact ⟨h.pkg, h.pkgPrefix, h.allPkg, h.structs, h.interfaces, h.vars, h.funcs,
    by show x.indent - 1 = g.indent + k; rw [h.indent]; omega,
    ⟨es, he, hp⟩, h.buf, h.imports⟩

theorem step_forIdx {P : GenErr → Prop} {α : Type} (body : goGen → Nat → α → goGen)
    (hbody : ∀ g i x, Step P 0 g (body g i x)) (xs : List α) :
    ∀ (i : Nat) {k : Nat} {g x : goGen}, Step P k g x → Step P k g (forIdx body i xs x) := by
  induction xs with
  | nil => intro i k g x h; exact h
  | cons a as ih =>
    intro i k g x h
    exact ih (i + 1) (step_trans h (hbody x i a))

theorem step_foldl {P : GenErr → Prop} {α : Type} (body : goGen → α → goGen)
    (hbody : ∀ g x, Step P 0 g (body g x)) (xs : List α) :
    ∀ {k : Nat} {g x : goGen}, Step P k g x → Step P k g (xs.foldl body x) := by
  induction xs with
  | nil => intro k g x h; exact h
  | cons a as ih =>
    intro k g x h
    exact ih (step_trans h (hbody x a))

theorem step_buf_eq {P : GenErr → Prop} {k : Nat} {g g' : goGen} (h : Step P k g g') :
    g'.buf = g.buf ++ emitted g g' := by
  obtain ⟨out, ho⟩ := h.buf
  simp [emitted, ho]

theorem step_err_eq {P : GenErr → Prop} {k : Nat} {g g' : goGen} (h : Step P k g g') :
    g'.err = g.err ++ recorded g g' := by
  obtain ⟨es, he, _⟩ := h.err
  simp [recorded, he]

theorem step_recorded_mem {P : GenErr → Prop} {k : Nat} {g g' : goGen} (h : Step P k g g') :
    ∀ e ∈ recorded g g', P e := by
  obtain ⟨es, he, hp⟩ := h.err
  simpa [recorded, he] using hp

theorem step_validPkg {P : GenErr → Prop} {k : Nat} {g g' : goGen} (h : Step P k g g')
    (p : Option Package) : validPkg g' p = validPkg g p := by
  cases p with
  | none => rfl
  | some q => simp [Bind.validPkg, h.allPkg]

/-! ## Frame lemmas for the marshalling methods -/

theorem step_genToRefNum {P : GenErr → Prop} {k : Nat} {g x : goGen} (toVar fromVar : String)
    (h : Step P k g x) : Step P k g (genToRefNum x toVar fromVar) := by
  unfold Bind.genToRefNum
  repeat (first | exact h | apply step_Printf)

theorem step_typeString {P : GenErr → Prop} (hP : ∀ f a, f ≠ arityFormat → P ⟨f, a⟩)
    (D : Deps) (t : Ty) {k : Nat} {g x : goGen} (h : Step P k g x) :
    Step P k g (typeString D x t).2 := by
  have named : ∀ (t : Ty) {x : goGen}, (∀ e, t ≠ .pointer e) → Step P k g x →
      Step P k g (Bind.typeString D x t).2 := by
    intro t x ht h
    unfold Bind.typeString
    repeat' split
    all_goals first
      | exact h
      | exact step_pkgName _ h
      | exact step_errorf _ _ (hP _ _ (by decide)) h
      | exact absurd rfl (ht _)
  by_cases ht : ∃ e, t = .pointer e
  · obtain ⟨e, rfl⟩ := ht
    unfold Bind.typeString
    split
    · exact named _ (by intro e he; cases he) h
    · exact step_errorf _ _ (hP _ _ (by decide)) h
  · exact named t (fun e he => ht ⟨e, he⟩) h

theorem step_genReadSwitch {P : GenErr → Prop} (hP : ∀ f a, f ≠ arityFormat → P ⟨f, a⟩)
    (D : Deps) (toVar fromVar : String) (t : Ty) (mode : varMode) {k : Nat} {g x : goGen}
    (h : Step P k g x) : Step P k g (genReadSwitch D x toVar fromVar t mode) := by
  unfold Bind.genReadSwitch
  repeat' split
  all_goals
    repeat (first
      | exact h
      | apply step_Printf
      | apply step_pkgName
      | apply step_typeString hP
      | apply step_errorf _ _ (hP _ _ (by decide))
      | split)

theorem step_genRead {P : GenErr → Prop} (hP : ∀ f a, f ≠ arityFormat → P ⟨f, a⟩)
    (D : Deps) (toVar fromVar : String) (t : Ty) (mode : varMode) {k : Nat} {g x : goGen}
    (h : Step P k g x) : Step P k g (genRead D x toVar fromVar t mode) := by
  unfold Bind.genRead
  split
  · exact step_Printf _ (step_genReadSwitch hP D _ _ _ _ h)
  · exact step_genReadSwitch hP D _ _ _ _ h

theorem step_genWriteSwitch {P : GenErr → Prop} (hP : ∀ f a, f ≠ arityFormat → P ⟨f, a⟩)
    (D : Deps) (hc : ∀ t, ∀ e ∈ (D.cgoType t).2, P e)
    (toVar fromVar : String) (t : Ty) (mode : varMode) {k : Nat} {g x : goGen}
    (h : Step P k g x) : Step P k g (genWriteSwitch D x toVar fromVar t mode) := by
  unfold Bind.genWriteSwitch
  repeat' split
  all_goals
    repeat (first
      | exact h
      | apply step_Printf
      | apply step_genToRefNum
      | apply step_cgoType _ _ (hc _)
      | apply step_errorf _ _ (hP _ _ (by decide)))

theorem step_genWrite {P : GenErr → Prop} (hP : ∀ f a, f ≠ arityFormat → P ⟨f, a⟩)
    (D : Deps) (hc : ∀ t, ∀ e ∈ (D.cgoType t).2, P e)
    (toVar fromVar : String) (t : Ty) (mode : varMode) {k : Nat} {g x : goGen}
    (h : Step P k g x) : Step P k g (genWrite D x toVar fromVar t mode) := by
  unfold Bind.genWrite
  split
  · apply step_genWriteSwitch hP D hc
    repeat apply step_Printf
    exact h
  · exact step_genWriteSwitch hP D hc _ _ _ _ h

theorem anyErr_intro (f : String) (a : List String) (_h : f ≠ arityFormat) : anyErr ⟨f, a⟩ :=
  trivial

theorem anyErr_cgo (D : Deps) (t : Ty) : ∀ e ∈ (D.cgoType t).2, anyErr e :=
  fun _ _ => trivial

/-! ## Frame lemmas for genFuncBody -/

theorem step_decodeParams {P : GenErr → Prop} (hP : ∀ f a, f ≠ arityFormat → P ⟨f, a⟩)
    (D : Deps) (params : List Var) {k : Nat} {g x : goGen} (h : Step P k g x) :
    Step P k g (decodeParams D params x) :=
  step_forIdx _ (fun g _ _ => step_genRead hP D _ _ _ _ (step_refl P g)) _ 0 h

theorem step_encodeResults {P : GenErr → Prop} (hP : ∀ f a, f ≠ arityFormat → P ⟨f, a⟩)
    (D : Deps) (hc : ∀ t, ∀ e ∈ (D.cgoType t).2, P e) (res : List Var) {k : Nat} {g x : goGen}
    (h : Step P k g x) : Step P k g (encodeResults D res x) :=
  step_forIdx _ (fun g _ _ => step_genWrite hP D hc _ _ _ _ (step_refl P g)) _ 0 h

theorem step_printIndexed {P : GenErr → Prop} (pre : String) (res : List Var) {k : Nat}
    {g x : goGen} (h : Step P k g x) : Step P k g (printIndexed pre res x) := by
  refine step_forIdx _ (fun g i _ => ?_) _ 0 h
  apply step_Printf
  split
  · exact step_one_Printf P g _
  · exact step_refl P g

theorem step_printArgs {P : GenErr → Prop} (D : Deps) (params : List Var) {k : Nat}
    {g x : goGen} (h : Step P k g x) : Step P k g (printArgs D params x) := by
  refine step_forIdx _ (fun g i _ => ?_) _ 0 h
  apply step_Printf
  split
  · exact step_one_Printf P g _
  · exact step_refl P g

theorem step_genFuncBodyCall {P : GenErr → Prop} (hP : ∀ f a, f ≠ arityFormat → P ⟨f, a⟩)
    (D : Deps) (hc : ∀ t, ∀ e ∈ (D.cgoType t).2, P e) (o : Func) (sel : String) {k : Nat}
    {g x : goGen} (h : Step P k g x) : Step P k g (genFuncBodyCall D x o sel) := by
  unfold Bind.genFuncBodyCall
  dsimp only
  repeat (first
    | apply step_Printf
    | apply step_printIndexed
    | apply step_printArgs
    | apply step_encodeResults hP D hc
    | split
    | exact h)

theorem step_genFuncBody (D : Deps) (o : Func) (sel : String) {k : Nat} {g x : goGen}
    (h : Step anyErr k g x) : Step anyErr k g (genFuncBody D x o sel) := by
  unfold Bind.genFuncBody
  dsimp only
  split
  · exact step_errorf _ _ trivial (step_decodeParams anyErr_intro D _ h)
  · exact step_genFuncBodyCall anyErr_intro D (anyErr_cgo D) o sel
      (step_decodeParams anyErr_intro D _ h)

theorem arityViolated_iff (res : List Var) :
    arityViolated res = true ↔
      (res.length > 2 ∨ (res.length = 2 ∧ isErrorType (res.getD 1 default).type = false)) := by
  simp [arityViolated]

theorem recorded_errorf (g x : goGen) (f : String) (a : List String)
    (h : ∃ es, x.err = g.err ++ es) : recorded g (x.errorf f a) = recorded g x ++ [⟨f, a⟩] := by
  obtain ⟨es, he⟩ := h
  simp [recorded, he]

/-! ## Frame lemmas for the emitters of declarations -/

theorem step_sigParams (D : Deps) (objName : String) (params : List Var) {k : Nat}
    {g x : goGen} (h : Step anyErr k g x) : Step anyErr k g (sigParams D objName params x) := by
  refine step_forIdx _ (fun g i _ => ?_) _ 0 h
  apply step_Printf
  apply step_cgoType _ _ (anyErr_cgo D _)
  split
  · exact step_one_Printf _ g _
  · exact step_refl _ g

theorem step_sigResults (D : Deps) (res : List Var) {k : Nat}
    {g x : goGen} (h : Step anyErr k g x) : Step anyErr k g (sigResults D res x) := by
  refine step_forIdx _ (fun g i _ => ?_) _ 0 h
  apply step_Printf
  apply step_cgoType _ _ (anyErr_cgo D _)
  split
  · exact step_one_Printf _ g _
  · exact step_refl _ g

theorem step_genFuncSignature (D : Deps) (o : Func) (objName : String) {k : Nat}
    {g x : goGen} (h : Step anyErr k g x) :
    Step anyErr k g (genFuncSignature D x o objName) := by
  unfold Bind.genFuncSignature
  dsimp only
  repeat (first
    | with_reducible apply step_Printf
    | with_reducible apply step_sigParams
    | with_reducible apply step_sigResults
    | split
    | with_reducible exact h)

theorem step_genFunc (D : Deps) (o : Func) {k : Nat} {g x : goGen} (h : Step anyErr k g x) :
    Step anyErr k g (genFunc D x o) := by
  unfold Bind.genFunc
  dsimp only
  split
  · exact step_Printf _ h
  · apply step_Printf
    apply step_Outdent
    apply step_genFuncBody
    apply step_pkgName
    apply step_Indent
    exact step_genFuncSignature D o "" h

theorem step_genStructField (D : Deps) (obj : TypeName) (f : Var) {k : Nat} {g x : goGen}
    (h : Step anyErr k g x) : Step anyErr k g (genStructField D obj x f) := by
  unfold Bind.genStructField
  dsimp only
  split
  · exact step_Printf _ h
  · repeat (first
      | with_reducible apply step_Printf
      | with_reducible apply step_pkgName
      | with_reducible apply step_Indent
      | with_reducible apply step_Outdent
      | with_reducible apply step_cgoType _ _ (anyErr_cgo D _)
      | with_reducible apply step_genRead anyErr_intro
      | with_reducible apply step_genWrite anyErr_intro D (anyErr_cgo D)
      | with_reducible exact h)

theorem step_genStructMethod (D : Deps) (obj : TypeName) (m : Func) {k : Nat} {g x : goGen}
    (h : Step anyErr k g x) : Step anyErr k g (genStructMethod D obj x m) := by
  unfold Bind.genStructMethod
  dsimp only
  split
  · exact step_Printf _ h
  · repeat (first
      | with_reducible apply step_Printf
      | with_reducible apply step_pkgName
      | with_reducible apply step_Indent
      | with_reducible apply step_Outdent
      | with_reducible apply step_genFuncBody
      | with_reducible apply step_genFuncSignature
      | with_reducible exact h)

theorem step_genStruct (D : Deps) (obj : TypeName) (T : Ty) {k : Nat} {g x : goGen}
    (h : Step anyErr k g x) : Step anyErr k g (genStruct D x obj T) := by
  unfold Bind.genStruct
  dsimp only
  apply step_foldl _ (fun g m => step_genStructMethod D obj m (step_refl _ g))
  exact step_foldl _ (fun g f => step_genStructField D obj f (step_refl _ g)) _ h

theorem step_genVar (D : Deps) (o : Var) {k : Nat} {g x : goGen}
    (h : Step anyErr k g x) : Step anyErr k g (genVar D x o) := by
  unfold Bind.genVar
  dsimp only
  split
  · exact step_Printf _ h
  · repeat (first
      | with_reducible apply step_Printf
      | with_reducible apply step_pkgName
      | with_reducible apply step_Indent
      | with_reducible apply step_Outdent
      | with_reducible apply step_cgoType _ _ (anyErr_cgo D _)
      | with_reducible apply step_genRead anyErr_intro
      | with_reducible apply step_genWrite anyErr_intro D (anyErr_cgo D)
      | with_reducible exact h)

theorem step_genInterfaceEntry (D : Deps) (obj : TypeName) (m : Func) {k : Nat} {g x : goGen}
    (h : Step anyErr k g x) : Step anyErr k g (genInterfaceEntry D obj x m) := by
  unfold Bind.genInterfaceEntry
  dsimp only
  split
  · exact step_Printf _ h
  · repeat (first
      | with_reducible apply step_Printf
      | with_reducible apply step_pkgName
      | with_reducible apply step_Indent
      | with_reducible apply step_Outdent
      | with_reducible apply step_genFuncBody
      | with_reducible apply step_genFuncSignature
      | with_reducible exact h)

theorem step_proxyParams (D : Deps) (params : List Var) {k : Nat}
    {g x : goGen} (h : Step anyErr k g x) : Step anyErr k g (proxyParams D params x) := by
  refine step_forIdx _ (fun g i _ => ?_) _ 0 h
  apply step_Printf
  apply step_typeString anyErr_intro
  split
  · exact step_one_Printf _ g _
  · exact step_refl _ g

theorem step_proxyEncodeParams (D : Deps) (params : List Var) {k : Nat}
    {g x : goGen} (h : Step anyErr k g x) : Step anyErr k g (proxyEncodeParams D params x) :=
  step_forIdx _ (fun g _ _ => step_genWrite anyErr_intro D (anyErr_cgo D) _ _ _ _
    (step_refl _ g)) _ 0 h

theorem step_proxyArgs (D : Deps) (params : List Var) {k : Nat}
    {g x : goGen} (h : Step anyErr k g x) : Step anyErr k g (proxyArgs D params x) :=
  step_forIdx _ (fun g _ _ => step_one_Printf _ g _) _ 0 h

theorem step_proxyDecodeResults (D : Deps) (res : List Var) {k : Nat}
    {g x : goGen} (h : Step anyErr k g x) : Step anyErr k g (proxyDecodeResults D res x) :=
  step_forIdx _ (fun g _ _ => step_genRead anyErr_intro D _ _ _ _ (step_refl _ g)) _ 0 h

theorem step_genInterfaceProxyMethod (D : Deps) (obj : TypeName) (m : Func) {k : Nat}
    {g x : goGen} (h : Step anyErr k g x) :
    Step anyErr k g (genInterfaceProxyMethod D obj x m) := by
  unfold Bind.genInterfaceProxyMethod
  dsimp only
  split
  · exact step_Printf _ h
  · split
    · exact step_errorf _ _ trivial h
    · repeat (first
        | with_reducible apply step_Printf
        | with_reducible apply step_Indent
        | with_reducible apply step_Outdent
        | with_reducible apply step_typeString anyErr_intro
        | with_reducible apply step_genRead anyErr_intro
        | with_reducible apply step_proxyParams
        | with_reducible apply step_proxyEncodeParams
        | with_reducible apply step_proxyArgs
        | with_reducible apply step_proxyDecodeResults
        | split
        | with_reducible exact h)

theorem step_genInterfaceBody (D : Deps) (obj : TypeName) (iface : Ty) {k : Nat}
    {g x : goGen} (h : Step anyErr k g x) : Step anyErr k g (genInterfaceBody D x obj iface) := by
  unfold Bind.genInterfaceBody
  dsimp only
  split
  · exact step_foldl _ (fun g m => step_genInterfaceEntry D obj m (step_refl _ g)) _ h
  · apply step_foldl _ (fun g m => step_genInterfaceProxyMethod D obj m (step_refl _ g))
    apply step_Printf
    apply step_Printf
    exact step_foldl _ (fun g m => step_genInterfaceEntry D obj m (step_refl _ g)) _ h

theorem step_genInterface (D : Deps) (obj : TypeName) {k : Nat} {g x y : goGen}
    (h : Step anyErr k g x) (hy : genInterface D x obj = some y) : Step anyErr k g y := by
  unfold Bind.genInterface at hy
  split at hy
  · cases hy
    exact step_genInterfaceBody D obj _ h
  · cases hy

theorem step_genInterfaces (D : Deps) (l : List interfaceInfo) :
    ∀ {k : Nat} {g x y : goGen}, Step anyErr k g x → genInterfaces D l x = some y →
      Step anyErr k g y := by
  induction l with
  | nil =>
    intro k g x y h hy
    simp only [Bind.genInterfaces, Option.some.injEq] at hy
    exact hy ▸ h
  | cons a as ih =>
    intro k g x y h hy
    simp only [Bind.genInterfaces] at hy
    split at hy
    · cases hy
    · rename_i z hz
      exact ih (step_genInterface D a.obj h hz) hy

theorem ne_arityDiag_intro (f : String) (a : List String) (h : f ≠ arityFormat) :
    (⟨f, a⟩ : GenErr) ≠ arityDiag := by
  intro he
  exact h (congrArg GenErr.format he)

theorem exCgoType_no_arity (t : Ty) : arityDiag ∉ (exCgoType t).2 := by
  unfold exCgoType
  repeat' split
  all_goals simp [arityDiag, arityFormat]

/-! ## C1 -/

/-- C1: genFuncBody records the result-arity diagnostic if and only if the
signature has more than two results, or exactly two results whose second is not
the error type; in particular a signature with three results is rejected; and when
the diagnostic is recorded the generator is left as it was after the decoding of
the parameters, with the diagnostic appended: neither the call of the native
function nor a return statement is emitted. The helper cgoType, which is not part
of gengo.go, is assumed not to record this diagnostic itself. -/
theorem genFuncBody_arity_diagnostic (D : Deps) (g : goGen) (o : Func) (sel : String)
    (hc : ∀ t, arityDiag ∉ (D.cgoType t).2) :
    (arityDiag ∈ recorded g (genFuncBody D g o sel) ↔
      (o.results.length > 2 ∨
        (o.results.length = 2 ∧ isErrorType (o.results.getD 1 default).type = false)))
    ∧ (o.results.length = 3 → arityDiag ∈ recorded g (genFuncBody D g o sel))
    ∧ (arityDiag ∈ recorded g (genFuncBody D g o sel) →
        genFuncBody D g o sel = (decodeParams D o.params g).errorf arityFormat []
        ∧ emitted g (genFuncBody D g o sel) = emitted g (decodeParams D o.params g)) := by
  have hd : Step (fun e => e ≠ arityDiag) 0 g (decodeParams D o.params g) :=
    step_decodeParams ne_arityDiag_intro D o.params (step_refl _ g)
  by_cases hv : arityViolated o.results = true
  · have heq : genFuncBody D g o sel = (decodeParams D o.params g).errorf arityFormat [] := by
      unfold genFuncBody
      simp only [hv, if_true]
      rfl
    have hmem : arityDiag ∈ recorded g (genFuncBody D g o sel) := by
      rw [heq, recorded_errorf _ _ _ _ ⟨_, step_err_eq hd⟩]
      simp [arityDiag]
    exact ⟨⟨fun _ => (arityViolated_iff _).1 hv, fun _ => hmem⟩, fun _ => hmem,
      fun _ => ⟨heq, by rw [heq]; rfl⟩⟩
  · have heq : genFuncBody D g o sel = genFuncBodyCall D (decodeParams D o.params g) o sel := by
      unfold genFuncBody
      simp only [hv]
      rfl
    have hs : Step (fun e => e ≠ arityDiag) 0 g (genFuncBody D g o sel) := by
      rw [heq]
      exact step_genFuncBodyCall ne_arityDiag_intro D
        (fun t e he => fun (h : e = arityDiag) => hc t (h ▸ he)) o sel hd
    have hnot : arityDiag ∉ recorded g (genFuncBody D g o sel) :=
      fun hm => step_recorded_mem hs _ hm rfl
    refine ⟨⟨fun hm => absurd hm hnot, fun hcnd => absurd ((arityViolated_iff _).2 hcnd) hv⟩,
      fun h3 => absurd ((arityViolated_iff _).2 (Or.inl (by omega))) hv,
      fun hm => absurd hm hnot⟩

/-- Witness of C1: the function Triple, with three results, is rejected. -/
theorem genFuncBody_arity_diagnostic_witness :
    arityDiag ∈ recorded helloGen (genFuncBody (exampleDeps [helloPkg]) helloGen Triple "hello") :=
  (genFuncBody_arity_diagnostic (exampleDeps [helloPkg]) helloGen Triple "hello"
    exCgoType_no_arity).2.1 rfl

/-! ## Two runs that emit the same text -/

theorem sim_refl (g : goGen) : Sim g g := ⟨rfl, rfl, rfl, rfl⟩

theorem step_sim {P : GenErr → Prop} {g x : goGen} (h : Step P 0 g x) : Sim g x :=
  ⟨h.pkg, h.pkgPrefix, h.allPkg, h.indent⟩

theorem co_refl {g x : goGen} (h : Sim g x) : Co g x g x :=
  ⟨h, [], by simp, by simp⟩

theorem co_emitted_eq {g x g' x' : goGen} (h : Co g x g' x') : emitted x x' = emitted g g' := by
  obtain ⟨out, h₁, h₂⟩ := h.out
  simp [emitted, h₁, h₂]

theorem co_Printf {g x G X : goGen} {s s' : String} (hs : s = s') (h : Co g x G X) :
    Co g x (G.Printf s) (X.Printf s') := by
  obtain ⟨out, h₁, h₂⟩ := h.out
  refine ⟨⟨h.sim.pkg, h.sim.pkgPrefix, h.sim.allPkg, h.sim.indent⟩,
    out ++ [⟨G.indent, s⟩], ?_, ?_⟩
  · simp [h₁]
  · simp [h₂, h.sim.indent, hs]

theorem co_errorf {g x G X : goGen} (f f' : String) (a a' : List String) (h : Co g x G X) :
    Co g x (G.errorf f a) (X.errorf f' a') :=
  ⟨⟨h.sim.pkg, h.sim.pkgPrefix, h.sim.allPkg, h.sim.indent⟩, h.out⟩

theorem co_pkgName {g x G X : goGen} (p p' : Package) (h : Co g x G X) :
    Co g x (G.pkgName p).2 (X.pkgName p').2 :=
  ⟨⟨h.sim.pkg, h.sim.pkgPrefix, h.sim.allPkg, h.sim.indent⟩, h.out⟩

theorem co_cgoType {g x G X : goGen} (D : Deps) (t t' : Ty) (h : Co g x G X) :
    Co g x (G.cgoType D t).2 (X.cgoType D t').2 :=
  ⟨⟨h.sim.pkg, h.sim.pkgPrefix, h.sim.allPkg, h.sim.indent⟩, h.out⟩

theorem co_Indent {g x G X : goGen} (h : Co g x G X) : Co g x G.Indent X.Indent :=
  ⟨⟨h.sim.pkg, h.sim.pkgPrefix, h.sim.allPkg,
    by show X.indent + 1 = G.indent + 1; rw [h.sim.indent]⟩, h.out⟩

theorem co_Outdent {g x G X : goGen} (h : Co g x G X) : Co g x G.Outdent X.Outdent :=
  ⟨⟨h.sim.pkg, h.sim.pkgPrefix, h.sim.allPkg,
    by show X.indent - 1 = G.indent - 1; rw [h.sim.indent]⟩, h.out⟩

theorem co_forIdx {α : Type} {g x : goGen} (body : goGen → Nat → α → goGen)
    (hbody : ∀ G X i a, Co g x G X → Co g x (body G i a) (body X i a)) (xs : List α) :
    ∀ (i : Nat) {G X : goGen}, Co g x G X → Co g x (forIdx body i xs G) (forIdx body i xs X) := by
  induction xs with
  | nil => intro i G X h; exact h
  | cons a as ih =>
    intro i G X h
    exact ih (i + 1) (hbody G X i a h)

theorem co_foldl {α : Type} {g x : goGen} (body : goGen → α → goGen)
    (hbody : ∀ G X a, Co g x G X → Co g x (body G a) (body X a)) (xs : List α) :
    ∀ {G X : goGen}, Co g x G X → Co g x (xs.foldl body G) (xs.foldl body X) := by
  induction xs with
  | nil => intro G X h; exact h
  | cons a as ih =>
    intro G X h
    exact ih (hbody G X a h)

theorem sim_validPkg {g x : goGen} (h : Sim g x) (p : Option Package) :
    validPkg x p = validPkg g p := by
  cases p with
  | none => rfl
  | some q => simp [Bind.validPkg, h.allPkg]

theorem co_genToRefNum {g x G X : goGen} (toVar fromVar : String) (h : Co g x G X) :
    Co g x (genToRefNum G toVar fromVar) (genToRefNum X toVar fromVar) := by
  unfold Bind.genToRefNum
  exact co_Printf rfl (co_Printf rfl (co_Printf rfl (co_Printf rfl h)))

theorem typeString_fst_eq (D : Deps) (G : goGen) (t : Ty) :
    (typeString D G t).1 = typeStringText D G.pkg G.allPkg t := by
  have named : ∀ (n : String) (p : Option Package) (u : Ty) (ms : List (String × Ty)),
      (typeString D G (.named n p u ms)).1 = typeStringText D G.pkg G.allPkg (.named n p u ms) := by
    intro n p u ms
    cases p with
    | none => simp [typeStringText, Bind.typeString]
    | some q =>
      by_cases hv : q ∈ G.allPkg <;> cases u <;> simp [typeStringText, Bind.typeString, validPkg, hv]
  cases t with
  | named n p u ms => exact named n p u ms
  | pointer e =>
    cases e with
    | named n p u ms =>
      have := named n p u ms
      simp only [typeStringText] at this
      simp [typeStringText, Bind.typeString, this]
    | _ => simp [typeStringText, Bind.typeString]
  | _ => simp [typeStringText, Bind.typeString]

theorem co_typeString {g x G X : goGen} (D : Deps) (t : Ty) (h : Co g x G X) :
    Co g x (typeString D G t).2 (typeString D X t).2 := by
  have hv := sim_validPkg h.sim
  have named : ∀ (n : String) (p : Option Package) (u : Ty) (ms : List (String × Ty)),
      Co g x (Bind.typeString D G (.named n p u ms)).2
        (Bind.typeString D X (.named n p u ms)).2 := by
    intro n p u ms
    cases p with
    | none => simpa [Bind.typeString] using h
    | some q =>
      by_cases hq : validPkg G (some q) = true
      · cases u <;> simp only [Bind.typeString, hv, hq] <;>
          first
          | exact co_pkgName _ _ h
          | exact co_errorf _ _ _ _ h
      · simp only [Bind.typeString, hv, hq]
        exact co_errorf _ _ _ _ h
  cases t with
  | named n p u ms => exact named n p u ms
  | pointer e =>
    cases e with
    | named n p u ms => simpa [Bind.typeString] using named n p u ms
    | _ => simpa [Bind.typeString] using co_errorf _ _ _ _ h
  | _ => simpa [Bind.typeString] using h

theorem co_genReadSwitch {g x G X : goGen} (D : Deps) (toVar fromVar : String) (t : Ty)
    (mode : varMode) (h : Co g x G X) :
    Co g x (genReadSwitch D G toVar fromVar t mode) (genReadSwitch D X toVar fromVar t mode) := by
  have hv := sim_validPkg h.sim
  have e1 := h.sim.pkg
  have e3 := h.sim.allPkg
  have main : ∀ (n : String) (q : Package) (u : Ty) (ms : List (String × Ty)) (b : Bool),
      validPkg G (some q) = true →
      Co g x
        (let ts := Bind.typeString D G (.named n (some q) u ms)
         let g := ts.2.Printf ("var " ++ toVar ++ " " ++ ts.1 ++ "\n")
         let g := g.Printf (toVar ++ "_ref := _seq.FromRefNum(int32(" ++ fromVar ++ "))\n")
         let g := g.Printf ("if " ++ toVar ++ "_ref != nil \x7b\n")
         let g := g.Printf ("\tif " ++ toVar ++ "_ref.Bind_Num < 0 \x7b // go object \n")
         let n' := g.pkgName q
         let g := n'.2.Printf ("  \t " ++ toVar ++ " = " ++ toVar ++ "_ref.Get().(" ++ n'.1 ++ "."
           ++ n ++ ")\n")
         let g :=
           if b then
             let g := g.Printf "\t\x7d else \x7b // foreign object \n"
             g.Printf ("\t   " ++ toVar ++ " = (*proxy" ++ D.pkgPrefixOf q ++ "_" ++ n ++ ")("
               ++ toVar ++ "_ref)\n")
           else g
         let g := g.Printf "\t\x7d\n"
         g.Printf "\x7d\n")
        (let ts := Bind.typeString D X (.named n (some q) u ms)
         let g := ts.2.Printf ("var " ++ toVar ++ " " ++ ts.1 ++ "\n")
         let g := g.Printf (toVar ++ "_ref := _seq.FromRefNum(int32(" ++ fromVar ++ "))\n")
         let g := g.Printf ("if " ++ toVar ++ "_ref != nil \x7b\n")
         let g := g.Printf ("\tif " ++ toVar ++ "_ref.Bind_Num < 0 \x7b // go object \n")
         let n' := g.pkgName q
         let g := n'.2.Printf ("  \t " ++ toVar ++ " = " ++ toVar ++ "_ref.Get().(" ++ n'.1 ++ "."
           ++ n ++ ")\n")
         let g :=
           if b then
             let g := g.Printf "\t\x7d else \x7b // foreign object \n"
             g.Printf ("\t   " ++ toVar ++ " = (*proxy" ++ D.pkgPrefixOf q ++ "_" ++ n ++ ")("
               ++ toVar ++ "_ref)\n")
           else g
         let g := g.Printf "\t\x7d\n"
         g.Printf "\x7d\n") := by
    intro n q u ms b _
    have hts : (Bind.typeString D X (.named n (some q) u ms)).1
        = (Bind.typeString D G (.named n (some q) u ms)).1 := by
      rw [typeString_fst_eq, typeString_fst_eq, e1, e3]
    dsimp only
    cases b
    · simp only [Bool.false_eq_true, if_false, hts]
      exact co_Printf rfl (co_Printf rfl (co_Printf rfl (co_pkgName _ _ (co_Printf rfl
        (co_Printf rfl (co_Printf rfl (co_Printf rfl (co_typeString D _ h))))))))
    · simp only [if_true, hts]
      exact co_Printf rfl (co_Printf rfl (co_Printf rfl (co_Printf rfl (co_Printf rfl
        (co_pkgName _ _ (co_Printf rfl
        (co_Printf rfl (co_Printf rfl (co_Printf rfl (co_typeString D _ h))))))))))
  cases t with
  | basic k => cases k <;> exact co_Printf rfl h
  | slice e =>
    cases e with
    | basic k => cases k <;> first | exact co_Printf rfl h | exact co_errorf _ _ _ _ h
    | _ => exact co_errorf _ _ _ _ h
  | pointer u =>
    cases u with
    | named n p um ms =>
      cases p with
      | none => exact co_errorf _ _ _ _ h
      | some q =>
        by_cases hq : validPkg G (some q) = true
        · simp only [Bind.genReadSwitch, hv, hq, Bool.not_true, Bool.false_eq_true, if_false]
          exact co_Printf rfl (co_pkgName _ _ (co_Printf rfl (co_Printf rfl h)))
        · simp only [Bind.genReadSwitch, hv, hq, Bool.not_false, if_true]
          exact co_errorf _ _ _ _ h
    | _ => exact co_errorf _ _ _ _ h
  | named n p u ms =>
    cases p with
    | none => cases u <;> exact co_errorf _ _ _ _ h
    | some q =>
      by_cases hq : validPkg G (some q) = true
      · cases u with
        | iface ims =>
          simp only [Bind.genReadSwitch, hv, hq, Bool.not_true, Bool.false_eq_true, if_false]
          exact main n q _ ms _ hq
        | pointer pe =>
          simp only [Bind.genReadSwitch, hv, hq, Bool.not_true, Bool.false_eq_true, if_false]
          exact main n q _ ms true hq
        | _ => exact co_errorf _ _ _ _ h
      · cases u <;> simp only [Bind.genReadSwitch, hv, hq, Bool.not_false, if_true] <;>
          exact co_errorf _ _ _ _ h
  | _ => exact co_errorf _ _ _ _ h

theorem co_genRead {g x G X : goGen} (D : Deps) (toVar fromVar : String) (t : Ty)
    (mode : varMode) (h : Co g x G X) :
    Co g x (genRead D G toVar fromVar t mode) (genRead D X toVar fromVar t mode) := by
  unfold Bind.genRead
  split
  · exact co_Printf rfl (co_genReadSwitch D _ _ _ _ h)
  · exact co_genReadSwitch D _ _ _ _ h

theorem co_genWriteSwitch {g x G X : goGen} (D : Deps) (toVar fromVar : String) (t : Ty)
    (mode : varMode) (h : Co g x G X) :
    Co g x (genWriteSwitch D G toVar fromVar t mode)
      (genWriteSwitch D X toVar fromVar t mode) := by
  have hr := co_genToRefNum toVar fromVar h
  cases t with
  | basic k =>
    cases k <;> simp only [Bind.genWriteSwitch, cgoType_fst] <;>
      first
      | with_reducible exact co_Printf rfl h
      | with_reducible exact co_Printf rfl (co_cgoType D _ _ h)
      | with_reducible exact co_Printf rfl (co_Printf rfl (co_cgoType D _ _ h))
  | slice e =>
    cases e with
    | basic k =>
      cases k <;> simp only [Bind.genWriteSwitch, cgoType_fst] <;>
        first
        | with_reducible exact co_Printf rfl h
        | with_reducible exact co_errorf _ _ _ _ h
    | _ =>
      simp only [Bind.genWriteSwitch, cgoType_fst]
      with_reducible exact co_errorf _ _ _ _ h
  | pointer u =>
    cases u <;> simp only [Bind.genWriteSwitch, cgoType_fst] <;>
      first
      | with_reducible exact hr
      | with_reducible exact co_errorf _ _ _ _ h
  | named n p u ms =>
    cases u <;> simp only [Bind.genWriteSwitch, cgoType_fst] <;>
      first
      | with_reducible exact hr
      | with_reducible exact co_errorf _ _ _ _ h
  | _ =>
    simp only [Bind.genWriteSwitch, cgoType_fst]
    with_reducible exact co_errorf _ _ _ _ h

theorem co_genWrite {g x G X : goGen} (D : Deps) (toVar fromVar : String) (t : Ty)
    (mode : varMode) (h : Co g x G X) :
    Co g x (genWrite D G toVar fromVar t mode) (genWrite D X toVar fromVar t mode) := by
  unfold Bind.genWrite
  split
  · exact co_genWriteSwitch D _ _ _ _ (co_Printf rfl (co_Printf rfl (co_Printf rfl
      (co_Printf rfl (co_Printf rfl (co_Printf rfl h))))))
  · exact co_genWriteSwitch D _ _ _ _ h

/-! ## The same text from agreeing generators: the loops and the declarations -/

@[simp] theorem Indent_pkg (g : goGen) : g.Indent.pkg = g.pkg := rfl
@[simp] theorem Indent_pkgPrefix (g : goGen) : g.Indent.pkgPrefix = g.pkgPrefix := rfl
@[simp] theorem Outdent_pkg (g : goGen) : g.Outdent.pkg = g.pkg := rfl
@[simp] theorem Outdent_pkgPrefix (g : goGen) : g.Outdent.pkgPrefix = g.pkgPrefix := rfl
@[simp] theorem Indent_buf (g : goGen) : g.Indent.buf = g.buf := rfl
@[simp] theorem Outdent_buf (g : goGen) : g.Outdent.buf = g.buf := rfl
@[simp] theorem Indent_err (g : goGen) : g.Indent.err = g.err := rfl
@[simp] theorem Outdent_err (g : goGen) : g.Outdent.err = g.err := rfl
@[simp] theorem Indent_indent (g : goGen) : g.Indent.indent = g.indent + 1 := rfl
@[simp] theorem Outdent_indent (g : goGen) : g.Outdent.indent = g.indent - 1 := rfl

@[simp] theorem genRead_pkg (D : Deps) (g : goGen) (a b : String) (t : Ty) (m : varMode) :
    (genRead D g a b t m).pkg = g.pkg :=
  (step_genRead anyErr_intro D a b t m (step_refl _ g)).pkg
@[simp] theorem genRead_pkgPrefix (D : Deps) (g : goGen) (a b : String) (t : Ty)
    (m : varMode) : (genRead D g a b t m).pkgPrefix = g.pkgPrefix :=
  (step_genRead anyErr_intro D a b t m (step_refl _ g)).pkgPrefix
@[simp] theorem genRead_indent (D : Deps) (g : goGen) (a b : String) (t : Ty)
    (m : varMode) : (genRead D g a b t m).indent = g.indent :=
  (step_genRead anyErr_intro D a b t m (step_refl _ g)).indent
@[simp] theorem genWrite_pkg (D : Deps) (g : goGen) (a b : String) (t : Ty) (m : varMode) :
    (genWrite D g a b t m).pkg = g.pkg :=
  (step_genWrite anyErr_intro D (anyErr_cgo D) a b t m (step_refl _ g)).pkg
@[simp] theorem genWrite_pkgPrefix (D : Deps) (g : goGen) (a b : String) (t : Ty)
    (m : varMode) : (genWrite D g a b t m).pkgPrefix = g.pkgPrefix :=
  (step_genWrite anyErr_intro D (anyErr_cgo D) a b t m (step_refl _ g)).pkgPrefix
@[simp] theorem genWrite_indent (D : Deps) (g : goGen) (a b : String) (t : Ty)
    (m : varMode) : (genWrite D g a b t m).indent = g.indent :=
  (step_genWrite anyErr_intro D (anyErr_cgo D) a b t m (step_refl _ g)).indent
@[simp] theorem typeString_pkgPrefix (D : Deps) (g : goGen) (t : Ty) :
    (typeString D g t).2.pkgPrefix = g.pkgPrefix :=
  (step_typeString anyErr_intro D t (step_refl _ g)).pkgPrefix
@[simp] theorem typeString_pkg (D : Deps) (g : goGen) (t : Ty) :
    (typeString D g t).2.pkg = g.pkg :=
  (step_typeString anyErr_intro D t (step_refl _ g)).pkg
@[simp] theorem typeString_allPkg (D : Deps) (g : goGen) (t : Ty) :
    (typeString D g t).2.allPkg = g.allPkg :=
  (step_typeString anyErr_intro D t (step_refl _ g)).allPkg
@[simp] theorem typeString_indent (D : Deps) (g : goGen) (t : Ty) :
    (typeString D g t).2.indent = g.indent :=
  (step_typeString anyErr_intro D t (step_refl _ g)).indent
@[simp] theorem genFuncSignature_pkg (D : Deps) (g : goGen) (o : Func) (n : String) :
    (genFuncSignature D g o n).pkg = g.pkg :=
  (step_genFuncSignature D o n (step_refl _ g)).pkg
@[simp] theorem genFuncSignature_indent (D : Deps) (g : goGen) (o : Func) (n : String) :
    (genFuncSignature D g o n).indent = g.indent :=
  (step_genFuncSignature D o n (step_refl _ g)).indent
@[simp] theorem proxyParams_pkg (D : Deps) (g : goGen) (ps : List Var) :
    (proxyParams D ps g).pkg = g.pkg := (step_proxyParams D ps (step_refl _ g)).pkg
@[simp] theorem proxyParams_allPkg (D : Deps) (g : goGen) (ps : List Var) :
    (proxyParams D ps g).allPkg = g.allPkg := (step_proxyParams D ps (step_refl _ g)).allPkg
@[simp] theorem proxyParams_pkgPrefix (D : Deps) (g : goGen) (ps : List Var) :
    (proxyParams D ps g).pkgPrefix = g.pkgPrefix :=
  (step_proxyParams D ps (step_refl _ g)).pkgPrefix
@[simp] theorem proxyEncodeParams_pkgPrefix (D : Deps) (g : goGen) (ps : List Var) :
    (proxyEncodeParams D ps g).pkgPrefix = g.pkgPrefix :=
  (step_proxyEncodeParams D ps (step_refl _ g)).pkgPrefix

theorem co_decodeParams {g x G X : goGen} (D : Deps) (params : List Var) (h : Co g x G X) :
    Co g x (decodeParams D params G) (decodeParams D params X) := by
  refine co_forIdx _ (fun G X i a h => ?_) _ 0 h
  exact co_genRead D _ _ _ _ h

theorem co_encodeResults {g x G X : goGen} (D : Deps) (res : List Var) (h : Co g x G X) :
    Co g x (encodeResults D res G) (encodeResults D res X) := by
  refine co_forIdx _ (fun G X i a h => ?_) _ 0 h
  exact co_genWrite D _ _ _ _ h

theorem co_proxyEncodeParams {g x G X : goGen} (D : Deps) (params : List Var)
    (h : Co g x G X) : Co g x (proxyEncodeParams D params G) (proxyEncodeParams D params X) := by
  refine co_forIdx _ (fun G X i a h => ?_) _ 0 h
  exact co_genWrite D _ _ _ _ h

theorem co_proxyDecodeResults {g x G X : goGen} (D : Deps) (res : List Var)
    (h : Co g x G X) : Co g x (proxyDecodeResults D res G) (proxyDecodeResults D res X) := by
  refine co_forIdx _ (fun G X i a h => ?_) _ 0 h
  exact co_genRead D _ _ _ _ h

theorem co_proxyArgs {g x G X : goGen} (D : Deps) (params : List Var)
    (h : Co g x G X) : Co g x (proxyArgs D params G) (proxyArgs D params X) := by
  refine co_forIdx _ (fun G X i a h => ?_) _ 0 h
  exact co_Printf rfl h

theorem co_printIndexed {g x G X : goGen} (pre : String) (res : List Var) (h : Co g x G X) :
    Co g x (printIndexed pre res G) (printIndexed pre res X) := by
  refine co_forIdx _ (fun G X i _ h => ?_) _ 0 h
  by_cases hi : i > 0
  · simp only [hi, if_true]
    exact co_Printf rfl (co_Printf rfl h)
  · simp only [hi, if_false]
    exact co_Printf rfl h

theorem co_printArgs {g x G X : goGen} (D : Deps) (params : List Var) (h : Co g x G X) :
    Co g x (printArgs D params G) (printArgs D params X) := by
  refine co_forIdx _ (fun G X i _ h => ?_) _ 0 h
  by_cases hi : i > 0
  · simp only [hi, if_true]
    exact co_Printf rfl (co_Printf rfl h)
  · simp only [hi, if_false]
    exact co_Printf rfl h

theorem co_sigParams {g x G X : goGen} (D : Deps) (objName : String) (params : List Var)
    (h : Co g x G X) : Co g x (sigParams D objName params G) (sigParams D objName params X) := by
  refine co_forIdx _ (fun G X i _ h => ?_) _ 0 h
  by_cases hi : objName ≠ "" ∨ i > 0
  · simp only [hi, if_true, cgoType_fst]
    exact co_Printf rfl (co_cgoType D _ _ (co_Printf rfl h))
  · simp only [hi, if_false, cgoType_fst]
    exact co_Printf rfl (co_cgoType D _ _ h)

theorem co_sigResults {g x G X : goGen} (D : Deps) (res : List Var)
    (h : Co g x G X) : Co g x (sigResults D res G) (sigResults D res X) := by
  refine co_forIdx _ (fun G X i _ h => ?_) _ 0 h
  by_cases hi : i > 0
  · simp only [hi, if_true, cgoType_fst]
    exact co_Printf rfl (co_cgoType D _ _ (co_Printf rfl h))
  · simp only [hi, if_false, cgoType_fst]
    exact co_Printf rfl (co_cgoType D _ _ h)

theorem co_proxyParams {g x G X : goGen} (D : Deps) (params : List Var)
    (h : Co g x G X) : Co g x (proxyParams D params G) (proxyParams D params X) := by
  refine co_forIdx _ (fun G X i _ h => ?_) _ 0 h
  have e1 := h.sim.pkg
  have e3 := h.sim.allPkg
  by_cases hi : i > 0
  · simp only [hi, if_true, typeString_fst_eq, Printf_pkg, Printf_allPkg, e1, e3]
    exact co_Printf rfl (co_typeString D _ (co_Printf rfl h))
  · simp only [hi, if_false, typeString_fst_eq, e1, e3]
    exact co_Printf rfl (co_typeString D _ h)

theorem co_genFuncBodyCall {g x G X : goGen} (D : Deps) (o : Func) (sel : String)
    (h : Co g x G X) : Co g x (genFuncBodyCall D G o sel) (genFuncBodyCall D X o sel) := by
  unfold Bind.genFuncBodyCall
  by_cases hr : o.results.length > 0
  · simp only [hr, if_true]
    exact co_Printf rfl (co_printIndexed _ _ (co_Printf rfl (co_encodeResults D _
      (co_Printf rfl (co_printArgs D _ (co_Printf rfl (co_Printf rfl
        (co_printIndexed _ _ h))))))))
  · simp only [hr, if_false]
    exact co_encodeResults D _ (co_Printf rfl (co_printArgs D _ (co_Printf rfl h)))

theorem co_genFuncBody {g x G X : goGen} (D : Deps) (o : Func) (sel : String)
    (h : Co g x G X) : Co g x (genFuncBody D G o sel) (genFuncBody D X o sel) := by
  unfold Bind.genFuncBody
  by_cases hv : arityViolated o.results = true
  · simp only [hv, if_true]
    exact co_errorf _ _ _ _ (co_decodeParams D _ h)
  · simp only [hv]
    exact co_genFuncBodyCall D o sel (co_decodeParams D _ h)

theorem co_genFuncSignature {g x G X : goGen} (D : Deps) (o : Func) (objName : String)
    (h : Co g x G X) :
    Co g x (genFuncSignature D G o objName) (genFuncSignature D X o objName) := by
  have e2 := h.sim.pkgPrefix
  unfold Bind.genFuncSignature
  by_cases hn : objName ≠ "" <;> by_cases hr : o.results.length > 0 <;>
    simp only [hr, if_true, if_false, Printf_pkgPrefix, e2] <;>
    (first | simp only [if_pos hn] | simp only [if_neg hn]) <;>
    repeat (first
      | with_reducible apply co_Printf rfl
      | with_reducible apply co_sigParams
      | with_reducible apply co_sigResults
      | with_reducible exact h)

theorem co_genFunc {g x G X : goGen} (D : Deps) (o : Func) (h : Co g x G X) :
    Co g x (genFunc D G o) (genFunc D X o) := by
  have e1 := h.sim.pkg
  unfold Bind.genFunc
  by_cases hs : D.isSigSupported o = true
  · simp only [hs, Bool.not_true, Bool.false_eq_true, if_false, pkgName_fst, Indent_pkg,
      genFuncSignature_pkg, e1]
    exact co_Printf rfl (co_Outdent (co_genFuncBody D o _ (co_pkgName _ _
      (co_Indent (co_genFuncSignature D o "" h)))))
  · simp only [hs, Bool.not_false, if_true]
    exact co_Printf rfl h

theorem co_genStructField {g x G X : goGen} (D : Deps) (obj : TypeName) (f : Var)
    (h : Co g x G X) : Co g x (genStructField D obj G f) (genStructField D obj X f) := by
  have e1 := h.sim.pkg
  have e2 := h.sim.pkgPrefix
  unfold Bind.genStructField
  by_cases hs : D.isSupported f.type = true
  · simp only [hs, Bool.not_true, Bool.false_eq_true, if_false, pkgName_fst, cgoType_fst,
      Printf_pkgPrefix, Printf_pkg, cgoType_pkgPrefix, cgoType_pkg, Indent_pkg,
      Indent_pkgPrefix, Outdent_pkg, Outdent_pkgPrefix, genRead_pkg, genRead_pkgPrefix,
      pkgName_pkg, pkgName_pkgPrefix, e1, e2]
    repeat (first
      | with_reducible apply co_Printf rfl
      | with_reducible apply co_pkgName
      | with_reducible apply co_cgoType
      | with_reducible apply co_Indent
      | with_reducible apply co_Outdent
      | with_reducible apply co_genRead
      | with_reducible apply co_genWrite
      | with_reducible exact h)
  · simp only [hs, Bool.not_false, if_true]
    exact co_Printf rfl h

theorem co_genStructMethod {g x G X : goGen} (D : Deps) (obj : TypeName) (m : Func)
    (h : Co g x G X) : Co g x (genStructMethod D obj G m) (genStructMethod D obj X m) := by
  have e1 := h.sim.pkg
  unfold Bind.genStructMethod
  by_cases hs : D.isSigSupported m = true
  · simp only [hs, Bool.not_true, Bool.false_eq_true, if_false, pkgName_fst, Printf_pkg,
      Indent_pkg, genFuncSignature_pkg, e1]
    repeat (first
      | with_reducible apply co_Printf rfl
      | with_reducible apply co_pkgName
      | with_reducible apply co_Indent
      | with_reducible apply co_Outdent
      | with_reducible apply co_genFuncBody
      | with_reducible apply co_genFuncSignature
      | with_reducible exact h)
  · simp only [hs, Bool.not_false, if_true]
    exact co_Printf rfl h

theorem co_genStruct {g x G X : goGen} (D : Deps) (obj : TypeName) (T : Ty)
    (h : Co g x G X) : Co g x (genStruct D G obj T) (genStruct D X obj T) := by
  unfold Bind.genStruct
  exact co_foldl _ (fun _ _ m h => co_genStructMethod D obj m h) _
    (co_foldl _ (fun _ _ f h => co_genStructField D obj f h) _ h)

theorem co_genVar {g x G X : goGen} (D : Deps) (o : Var) (h : Co g x G X) :
    Co g x (genVar D G o) (genVar D X o) := by
  have e1 := h.sim.pkg
  have e2 := h.sim.pkgPrefix
  unfold Bind.genVar
  by_cases hs : D.isSupported o.type = true
  · simp only [hs, Bool.not_true, Bool.false_eq_true, if_false, pkgName_fst, cgoType_fst,
      Printf_pkgPrefix, Printf_pkg, cgoType_pkgPrefix, cgoType_pkg, Indent_pkg,
      Indent_pkgPrefix, Outdent_pkg, Outdent_pkgPrefix, genRead_pkg, genRead_pkgPrefix,
      pkgName_pkg, pkgName_pkgPrefix, e1, e2]
    repeat (first
      | with_reducible apply co_Printf rfl
      | with_reducible apply co_pkgName
      | with_reducible apply co_cgoType
      | with_reducible apply co_Indent
      | with_reducible apply co_Outdent
      | with_reducible apply co_genRead
      | with_reducible apply co_genWrite
      | with_reducible exact h)
  · simp only [hs, Bool.not_false, if_true]
    exact co_Printf rfl h

theorem co_genInterfaceEntry {g x G X : goGen} (D : Deps) (obj : TypeName) (m : Func)
    (h : Co g x G X) : Co g x (genInterfaceEntry D obj G m) (genInterfaceEntry D obj X m) := by
  have e1 := h.sim.pkg
  unfold Bind.genInterfaceEntry
  by_cases hs : D.isSigSupported m = true
  · simp only [hs, Bool.not_true, Bool.false_eq_true, if_false, pkgName_fst, Printf_pkg,
      Indent_pkg, genFuncSignature_pkg, e1]
    repeat (first
      | with_reducible apply co_Printf rfl
      | with_reducible apply co_pkgName
      | with_reducible apply co_Indent
      | with_reducible apply co_Outdent
      | with_reducible apply co_genFuncBody
      | with_reducible apply co_genFuncSignature
      | with_reducible exact h)
  · simp only [hs, Bool.not_false, if_true]
    exact co_Printf rfl h

theorem co_genInterfaceProxyMethod {g x G X : goGen} (D : Deps) (obj : TypeName) (m : Func)
    (h : Co g x G X) :
    Co g x (genInterfaceProxyMethod D obj G m) (genInterfaceProxyMethod D obj X m) := by
  have e1 := h.sim.pkg
  have e2 := h.sim.pkgPrefix
  have e3 := h.sim.allPkg
  unfold Bind.genInterfaceProxyMethod
  by_cases hs : D.isSigSupported m = true
  · by_cases hv : arityViolated m.results = true
    · simp only [hs, hv, Bool.not_true, Bool.false_eq_true, if_false, if_true]
      exact co_errorf _ _ _ _ h
    · simp only [hs, hv, Bool.not_true, Bool.false_eq_true, if_false]
      split_ifs <;>
        simp only [typeString_fst_eq, Printf_pkg, Printf_allPkg, Printf_pkgPrefix,
          proxyParams_pkg, proxyParams_allPkg, proxyParams_pkgPrefix,
          proxyEncodeParams_pkgPrefix, typeString_pkgPrefix, Indent_pkgPrefix, e1, e2, e3] <;>
        repeat (first
          | with_reducible apply co_Printf rfl
          | with_reducible apply co_Indent
          | with_reducible apply co_Outdent
          | with_reducible apply co_typeString
          | with_reducible apply co_genRead
          | with_reducible apply co_proxyParams
          | with_reducible apply co_proxyEncodeParams
          | with_reducible apply co_proxyArgs
          | with_reducible apply co_proxyDecodeResults
          | with_reducible exact h)
  · simp only [hs, Bool.not_false, if_true]
    exact co_Printf rfl h

theorem co_genInterfaceBody {g x G X : goGen} (D : Deps) (obj : TypeName) (iface : Ty)
    (h : Co g x G X) :
    Co g x (genInterfaceBody D G obj iface) (genInterfaceBody D X obj iface) := by
  have hf := co_foldl (Bind.genInterfaceEntry D obj)
    (fun _ _ m h => co_genInterfaceEntry D obj m h) (D.makeIfaceSummary iface).callable h
  have e2 := hf.sim.pkgPrefix
  unfold Bind.genInterfaceBody
  by_cases hi : (D.makeIfaceSummary iface).implementable = true
  · simp only [hi, Bool.not_true, Bool.false_eq_true, if_false, Printf_pkgPrefix, e2]
    exact co_foldl _ (fun _ _ m h => co_genInterfaceProxyMethod D obj m h) _
      (co_Printf rfl (co_Printf rfl hf))
  · simp only [hi, Bool.not_false, if_true]
    exact hf

/-! ## The text emitted by a sequence of steps -/

theorem emitted_self (g : goGen) : emitted g g = [] := by
  simp [emitted]

theorem emitted_trans {P : GenErr → Prop} {j k : Nat} {a b c : goGen}
    (h₁ : Step P j a b) (h₂ : Step P k b c) : emitted a c = emitted a b ++ emitted b c := by
  obtain ⟨o₁, hb₁⟩ := h₁.buf
  obtain ⟨o₂, hb₂⟩ := h₂.buf
  simp [emitted, hb₁, hb₂]

theorem emitted_Printf (g : goGen) (s : String) : emitted g (g.Printf s) = [⟨g.indent, s⟩] := by
  simp [emitted]

theorem recorded_trans {P : GenErr → Prop} {j k : Nat} {a b c : goGen}
    (h₁ : Step P j a b) (h₂ : Step P k b c) : recorded a c = recorded a b ++ recorded b c := by
  obtain ⟨o₁, hb₁, _⟩ := h₁.err
  obtain ⟨o₂, hb₂, _⟩ := h₂.err
  simp [recorded, hb₁, hb₂]

/-- The text emitted by a loop over a list is the concatenation, in the order of
the list, of the texts its body emits for each element from the initial
generator. -/
theorem foldl_emitted {α : Type} (body : goGen → α → goGen)
    (hstep : ∀ x a, Step anyErr 0 x (body x a))
    (hco : ∀ g x a, Sim g x → emitted x (body x a) = emitted g (body g a))
    (g : goGen) (xs : List α) :
    ∀ x, Step anyErr 0 g x →
      emitted x (xs.foldl body x) = (xs.map (fun a => emitted g (body g a))).flatten := by
  induction xs with
  | nil => intro x _; simp [emitted_self]
  | cons a as ih =>
    intro x hx
    have h1 := hstep x a
    have h2 : Step anyErr 0 (body x a) (as.foldl body (body x a)) :=
      step_foldl body (fun g y => hstep g y) as (step_refl _ _)
    have h3 : Step anyErr 0 g (body x a) := step_trans hx h1
    simp only [List.foldl_cons, List.map_cons, List.flatten_cons]
    rw [emitted_trans h1 h2, ih _ h3, hco g x a (step_sim hx)]

/-- The text emitted by an index loop is the concatenation, in the order of the
tuple, of the texts its body emits for each index and element from the initial
generator. -/
theorem forIdx_emitted {α : Type} (body : goGen → Nat → α → goGen)
    (hstep : ∀ x i a, Step anyErr 0 x (body x i a))
    (hco : ∀ g x i a, Sim g x → emitted x (body x i a) = emitted g (body g i a))
    (g : goGen) (xs : List α) :
    ∀ i x, Step anyErr 0 g x →
      emitted x (forIdx body i xs x)
        = ((xs.enumFrom i).map (fun ia => emitted g (body g ia.1 ia.2))).flatten := by
  induction xs with
  | nil => intro i x _; simp [forIdx, emitted_self]
  | cons a as ih =>
    intro i x hx
    have h1 := hstep x i a
    have h2 : Step anyErr 0 (body x i a) (forIdx body (i + 1) as (body x i a)) :=
      step_forIdx body hstep as (i + 1) (step_refl _ _)
    have h3 : Step anyErr 0 g (body x i a) := step_trans hx h1
    simp only [forIdx, List.enumFrom_cons, List.map_cons, List.flatten_cons]
    rw [emitted_trans h1 h2, ih _ _ h3, hco g x i a (step_sim hx)]

/-! ## The text of the comma-separated loops -/

theorem intersperse_cons_flatten {β : Type} (sep : β) :
    ∀ (l : List β) (a : β),
      (a :: l).intersperse sep = a :: (l.map (fun b => [sep, b])).flatten := by
  intro l
  induction l with
  | nil => intro a; rfl
  | cons b r ih =>
    intro a
    rw [List.intersperse_cons₂, ih b]
    rfl

theorem flatten_sep_pos {β : Type} (sep : β) (c : Nat → β) (n : Nat) :
    ∀ i, 0 < i →
      ((List.range' i n).map (fun j => (if j > 0 then [sep] else []) ++ [c j])).flatten
        = (((List.range' i n).map c).map (fun b => [sep, b])).flatten := by
  induction n with
  | zero => intro i _; simp
  | succ m ih =>
    intro i hi
    rw [List.range'_succ]
    simp only [List.map_cons, List.flatten_cons]
    rw [ih (i + 1) (Nat.succ_pos i)]
    simp [hi]

theorem flatten_sep_zero {β : Type} (sep : β) (c : Nat → β) (n : Nat) :
    ((List.range' 0 n).map (fun j => (if j > 0 then [sep] else []) ++ [c j])).flatten
      = ((List.range n).map c).intersperse sep := by
  cases n with
  | zero => simp
  | succ m =>
    rw [List.range_eq_range', List.range'_succ]
    simp only [List.map_cons, List.flatten_cons]
    rw [intersperse_cons_flatten, flatten_sep_pos sep c m 1 (Nat.succ_pos 0)]
    simp

/-- The text of a loop that prints `f i` for each index, with a comma before
every element but the first. -/
theorem sepLoop_emitted {α : Type} (f : Nat → String) (xs : List α) (g : goGen) :
    emitted g (forIdx (fun g i (_ : α) =>
        let g := if i > 0 then g.Printf ", " else g
        g.Printf (f i)) 0 xs g)
      = commaSep g.indent ((List.range xs.length).map f) := by
  have hstep : ∀ x i (a : α), Step anyErr 0 x
      ((fun g i (_ : α) =>
        let g := if i > 0 then g.Printf ", " else g
        g.Printf (f i)) x i a) := by
    intro x i a
    dsimp only
    apply step_Printf
    split
    · exact step_one_Printf _ x _
    · exact step_refl _ x
  have hout : ∀ x i (a : α), emitted x
      ((fun g i (_ : α) =>
        let g := if i > 0 then g.Printf ", " else g
        g.Printf (f i)) x i a)
      = (if i > 0 then [⟨x.indent, ", "⟩] else []) ++ [⟨x.indent, f i⟩] := by
    intro x i a
    dsimp only
    split <;> simp [emitted]
  rw [forIdx_emitted _ hstep (fun g x i a hs => by rw [hout x i a, hout g i a, hs.indent]) g xs 0 g
    (step_refl _ g)]
  have e : (xs.enumFrom 0).map (fun ia => emitted g
      ((fun g i (_ : α) =>
        let g := if i > 0 then g.Printf ", " else g
        g.Printf (f i)) g ia.1 ia.2))
      = (List.range' 0 xs.length).map
        (fun j => (if j > 0 then [⟨g.indent, ", "⟩] else []) ++ [(⟨g.indent, f j⟩ : Chunk)]) := by
    rw [← List.enumFrom_map_fst 0 xs, List.map_map]
    apply List.map_congr_left
    intro ia _
    exact hout g ia.1 ia.2
  rw [e, flatten_sep_zero]
  simp [commaSep, List.map_map, Function.comp_def]

theorem printIndexed_emitted (pre : String) (res : List Var) (g : goGen) :
    emitted g (printIndexed pre res g) = commaSep g.indent (indexed pre res.length) :=
  sepLoop_emitted (fun i => pre ++ toString i) res g

theorem printArgs_emitted (D : Deps) (params : List Var) (g : goGen) :
    emitted g (printArgs D params g)
      = commaSep g.indent
        ((List.range params.length).map (fun i => "_param_" ++ D.paramName params i)) :=
  sepLoop_emitted (fun i => "_param_" ++ D.paramName params i) params g

/-! ## Building the emitted text step by step -/

theorem em_refl (g : goGen) : Em 0 g g [] := ⟨step_refl _ g, emitted_self g⟩

theorem em_sim {k : Nat} {g x : goGen} {out : List Chunk} (h : Em k g x out) :
    Sim (deep k g) x :=
  ⟨h.step.pkg, h.step.pkgPrefix, h.step.allPkg, h.step.indent⟩

theorem em_Printf {k : Nat} {g x : goGen} {out : List Chunk} {s s' : String} (hs : s = s')
    (h : Em k g x out) : Em k g (x.Printf s) (out ++ [⟨g.indent + k, s'⟩]) := by
  refine ⟨step_Printf _ h.step, ?_⟩
  rw [emitted_trans h.step (step_one_Printf anyErr x s), h.out, emitted_Printf, h.step.indent, hs]

theorem em_same {k : Nat} {g x y : goGen} {out : List Chunk} (hy : Step anyErr 0 x y)
    (hb : y.buf = x.buf) (h : Em k g x out) : Em k g y out := by
  refine ⟨by simpa using step_trans h.step hy, ?_⟩
  rw [← h.out]
  simp [emitted, hb]

theorem em_errorf {k : Nat} {g x : goGen} {out : List Chunk} (f : String) (a : List String)
    (h : Em k g x out) : Em k g (x.errorf f a) out :=
  em_same (step_one_errorf x f a trivial) rfl h

theorem em_pkgName {k : Nat} {g x : goGen} {out : List Chunk} (p : Package)
    (h : Em k g x out) : Em k g (x.pkgName p).2 out :=
  em_same (step_one_pkgName _ x p) rfl h

theorem em_cgoType {k : Nat} {g x : goGen} {out : List Chunk} (D : Deps) (t : Ty)
    (h : Em k g x out) : Em k g (x.cgoType D t).2 out :=
  em_same (step_one_cgoType D x t (anyErr_cgo D t)) rfl h

theorem em_Indent {k : Nat} {g x : goGen} {out : List Chunk} (h : Em k g x out) :
    Em (k + 1) g x.Indent out :=
  ⟨step_Indent h.step, by rw [← h.out]; rfl⟩

theorem em_Outdent {k : Nat} {g x : goGen} {out : List Chunk} (h : Em (k + 1) g x out) :
    Em k g x.Outdent out :=
  ⟨step_Outdent h.step, by rw [← h.out]; rfl⟩

theorem em_op {k : Nat} {g x : goGen} {out : List Chunk} (op : goGen → goGen)
    (hop : ∀ y, Step anyErr 0 y (op y))
    (hco : ∀ r y, Co r y r y → Co r y (op r) (op y)) (h : Em k g x out) :
    Em k g (op x) (out ++ emitted (deep k g) (op (deep k g))) := by
  refine ⟨by simpa using step_trans h.step (hop x), ?_⟩
  rw [emitted_trans h.step (hop x), h.out, co_emitted_eq (hco (deep k g) x (co_refl (em_sim h)))]

theorem em_genRead {k : Nat} {g x : goGen} {out : List Chunk} (D : Deps) (a b : String)
    (t : Ty) (m : varMode) (h : Em k g x out) :
    Em k g (genRead D x a b t m) (out ++ readOut D (deep k g) a b t m) :=
  em_op (fun y => Bind.genRead D y a b t m)
    (fun y => step_genRead anyErr_intro D a b t m (step_refl _ y))
    (fun _ _ hc => co_genRead D a b t m hc) h

theorem em_genWrite {k : Nat} {g x : goGen} {out : List Chunk} (D : Deps) (a b : String)
    (t : Ty) (m : varMode) (h : Em k g x out) :
    Em k g (genWrite D x a b t m) (out ++ writeOut D (deep k g) a b t m) :=
  em_op (fun y => Bind.genWrite D y a b t m)
    (fun y => step_genWrite anyErr_intro D (anyErr_cgo D) a b t m (step_refl _ y))
    (fun _ _ hc => co_genWrite D a b t m hc) h

theorem em_printIndexed {k : Nat} {g x : goGen} {out : List Chunk} (pre : String)
    (res : List Var) (h : Em k g x out) :
    Em k g (printIndexed pre res x) (out ++ commaSep (g.indent + k) (indexed pre res.length)) := by
  have := em_op (fun y => Bind.printIndexed pre res y)
    (fun y => step_printIndexed pre res (step_refl _ y))
    (fun _ _ hc => co_printIndexed pre res hc) h
  rwa [printIndexed_emitted] at this

theorem em_printArgs {k : Nat} {g x : goGen} {out : List Chunk} (D : Deps)
    (params : List Var) (h : Em k g x out) :
    Em k g (printArgs D params x) (out ++ commaSep (g.indent + k)
      ((List.range params.length).map (fun i => "_param_" ++ D.paramName params i))) := by
  have := em_op (fun y => Bind.printArgs D params y)
    (fun y => step_printArgs D params (step_refl _ y))
    (fun _ _ hc => co_printArgs D params hc) h
  rwa [printArgs_emitted] at this

theorem underscore_param (n : String) : "_" ++ ("param_" ++ n) = "_param_" ++ n := by
  rw [← String.append_assoc]
  rfl

theorem underscore_res (n : String) : "_" ++ ("res_" ++ n) = "_res_" ++ n := by
  rw [← String.append_assoc]
  rfl

theorem decodeParams_emitted (D : Deps) (params : List Var) (g : goGen) :
    emitted g (decodeParams D params g)
      = (params.enum.map (fun ip =>
          readOut D g ("_param_" ++ D.paramName params ip.1)
            ("param_" ++ D.paramName params ip.1) ip.2.type .modeTransient)).flatten := by
  unfold decodeParams
  dsimp only
  rw [forIdx_emitted
    (fun g i (p : Var) => genRead D g ("_" ++ ("param_" ++ D.paramName params i))
      ("param_" ++ D.paramName params i) p.type .modeTransient)
    (fun x i p => step_genRead anyErr_intro D _ _ _ _ (step_refl _ x))
    (fun g x i p hs => co_emitted_eq (co_genRead D _ _ _ _ (co_refl hs))) g params 0 g
    (step_refl _ g)]
  simp only [underscore_param, readOut, List.enum]

theorem encodeResults_emitted (D : Deps) (res : List Var) (g : goGen) :
    emitted g (encodeResults D res g)
      = (res.enum.map (fun ir =>
          writeOut D g ("_res_" ++ toString ir.1) ("res_" ++ toString ir.1) ir.2.type
            .modeRetained)).flatten := by
  unfold encodeResults
  dsimp only
  rw [forIdx_emitted
    (fun g i (r : Var) => genWrite D g ("_" ++ ("res_" ++ toString i))
      ("res_" ++ toString i) r.type .modeRetained)
    (fun x i p => step_genWrite anyErr_intro D (anyErr_cgo D) _ _ _ _ (step_refl _ x))
    (fun g x i p hs => co_emitted_eq (co_genWrite D _ _ _ _ (co_refl hs))) g res 0 g
    (step_refl _ g)]
  simp only [underscore_res, writeOut, List.enum]

theorem em_decodeParams {k : Nat} {g x : goGen} {out : List Chunk} (D : Deps)
    (params : List Var) (h : Em k g x out) :
    Em k g (decodeParams D params x) (out ++ (params.enum.map (fun ip =>
      readOut D (deep k g) ("_param_" ++ D.paramName params ip.1)
        ("param_" ++ D.paramName params ip.1) ip.2.type .modeTransient)).flatten) := by
  have := em_op (fun y => Bind.decodeParams D params y)
    (fun y => step_decodeParams anyErr_intro D params (step_refl _ y))
    (fun _ _ hc => co_decodeParams D params hc) h
  rwa [decodeParams_emitted] at this

theorem em_encodeResults {k : Nat} {g x : goGen} {out : List Chunk} (D : Deps)
    (res : List Var) (h : Em k g x out) :
    Em k g (encodeResults D res x) (out ++ (res.enum.map (fun ir =>
      writeOut D (deep k g) ("_res_" ++ toString ir.1) ("res_" ++ toString ir.1) ir.2.type
        .modeRetained)).flatten) := by
  have := em_op (fun y => Bind.encodeResults D res y)
    (fun y => step_encodeResults anyErr_intro D (anyErr_cgo D) res (step_refl _ y))
    (fun _ _ hc => co_encodeResults D res hc) h
  rwa [encodeResults_emitted] at this

@[simp] theorem deep_zero (g : goGen) : deep 0 g = g := rfl

@[simp] theorem deep_indent (k : Nat) (g : goGen) : (deep k g).indent = g.indent + k := rfl

theorem genFuncBody_of_arity_ok (D : Deps) (g : goGen) (o : Func) (sel : String)
    (h : arityViolated o.results = false) :
    genFuncBody D g o sel = genFuncBodyCall D (decodeParams D o.params g) o sel := by
  unfold genFuncBody
  simp only [h]
  rfl

/-! ## C2 -/

/-- C2: for a signature that passes the arity rule, genFuncBody emits, in this
order: the decoding of each parameter in declared order, in Transient mode, into
`_param_<name>`; when there are results, the names `res_<i>` and `:=`; one call
`<selector>.<Name>(` with the decoded parameters in declared order and `)`; the
encoding of each result in declared order, in Retained mode, into `_res_<i>`; and,
when there is at least one result, `return` followed by the names `_res_<i>`. -/
theorem genFuncBody_emits_in_order (D : Deps) (g : goGen) (o : Func) (sel : String)
    (h : arityViolated o.results = false) :
    emitted g (genFuncBody D g o sel)
      = (o.params.enum.map (fun ip =>
            readOut D g ("_param_" ++ D.paramName o.params ip.1)
              ("param_" ++ D.paramName o.params ip.1) ip.2.type .modeTransient)).flatten
        ++ (if o.results.length > 0 then
              commaSep g.indent (indexed "res_" o.results.length) ++ [⟨g.indent, " := "⟩]
            else [])
        ++ [⟨g.indent, sel ++ "." ++ o.name ++ "("⟩]
        ++ commaSep g.indent
            ((List.range o.params.length).map (fun i => "_param_" ++ D.paramName o.params i))
        ++ [⟨g.indent, ")\n"⟩]
        ++ (o.results.enum.map (fun ir =>
            writeOut D g ("_res_" ++ toString ir.1) ("res_" ++ toString ir.1) ir.2.type
              .modeRetained)).flatten
        ++ (if o.results.length > 0 then
              [⟨g.indent, "return "⟩] ++ commaSep g.indent (indexed "_res_" o.results.length)
                ++ [⟨g.indent, "\n"⟩]
            else []) := by
  rw [genFuncBody_of_arity_ok D g o sel h]
  have e0 := em_decodeParams D o.params (em_refl g)
  unfold genFuncBodyCall
  by_cases hr : o.results.length > 0
  · simp only [hr, if_true]
    have e := em_Printf (rfl : "\n" = "\n") (em_printIndexed "_res_" o.results
      (em_Printf (rfl : "return " = "return ") (em_encodeResults D o.results
      (em_Printf (rfl : ")\n" = ")\n") (em_printArgs D o.params
      (em_Printf (rfl : sel ++ "." ++ o.name ++ "(" = sel ++ "." ++ o.name ++ "(")
      (em_Printf (rfl : " := " = " := ") (em_printIndexed "res_" o.results e0))))))))
    rw [e.out]
    simp
  · simp only [hr, if_false]
    have e := em_encodeResults D o.results
      (em_Printf (rfl : ")\n" = ")\n") (em_printArgs D o.params
      (em_Printf (rfl : sel ++ "." ++ o.name ++ "(" = sel ++ "." ++ o.name ++ "(") e0)))
    rw [e.out]
    simp

/-- Witness of C2: for `Greetings(name string) string` the text is the decoding of
the parameter by decodeString, the call, the encoding of the result by
encodeString, and the return. -/
theorem genFuncBody_emits_in_order_witness :
    (emitted helloGen (genFuncBody (exampleDeps [helloPkg]) helloGen Greetings "hello")).map
        (fun c => c.text)
      = ["_param_name := decodeString(param_name)\n",
         "res_0", " := ", "hello.Greetings(", "_param_name", ")\n",
         "_res_0 := encodeString(res_0)\n",
         "return ", "_res_0", "\n"] := by
  rw [genFuncBody_emits_in_order (exampleDeps [helloPkg]) helloGen Greetings "hello" rfl]
  decide

theorem em_foldl {α : Type} {k : Nat} {g x : goGen} {out : List Chunk}
    (body : goGen → α → goGen) (hstep : ∀ y a, Step anyErr 0 y (body y a))
    (hco : ∀ (r y G X : goGen) (a : α), Co r y G X → Co r y (body G a) (body X a))
    (xs : List α) (h : Em k g x out) :
    Em k g (xs.foldl body x)
      (out ++ (xs.map (fun a => emitted (deep k g) (body (deep k g) a))).flatten) := by
  have := em_op (fun y => xs.foldl body y)
    (fun y => step_foldl body hstep xs (step_refl _ y))
    (fun r y hc => co_foldl body (fun G X a hh => hco r y G X a hh) xs hc) h
  rwa [foldl_emitted body hstep
    (fun r y a hs => co_emitted_eq (hco r y r y a (co_refl hs))) (deep k g) xs (deep k g)
    (step_refl _ _)] at this

theorem em_genFuncSignature {k : Nat} {g x : goGen} {out : List Chunk} (D : Deps) (o : Func)
    (objName : String) (h : Em k g x out) :
    Em k g (genFuncSignature D x o objName)
      (out ++ emitted (deep k g) (genFuncSignature D (deep k g) o objName)) :=
  em_op (fun y => Bind.genFuncSignature D y o objName)
    (fun y => step_genFuncSignature D o objName (step_refl _ y))
    (fun _ _ hc => co_genFuncSignature D o objName hc) h

theorem em_genFuncBody {k : Nat} {g x : goGen} {out : List Chunk} (D : Deps) (o : Func)
    (sel : String) (h : Em k g x out) :
    Em k g (genFuncBody D x o sel)
      (out ++ emitted (deep k g) (genFuncBody D (deep k g) o sel)) :=
  em_op (fun y => Bind.genFuncBody D y o sel)
    (fun y => step_genFuncBody D o sel (step_refl _ y))
    (fun _ _ hc => co_genFuncBody D o sel hc) h

/-- The text of a supported entry point of an interface method: the signature,
the lookup of the receiver, the body, and the closing brace. -/
theorem genInterfaceEntry_emitted (D : Deps) (obj : TypeName) (g : goGen) (m : Func)
    (hs : D.isSigSupported m = true) :
    emitted g (genInterfaceEntry D obj g m)
      = emitted g (genFuncSignature D g m obj.name)
        ++ [⟨g.indent + 1, "ref := _seq.FromRefNum(int32(refnum))\n"⟩,
            ⟨g.indent + 1, "v := ref.Get().(" ++ g.pkg.name ++ "." ++ obj.name ++ ")\n"⟩]
        ++ emitted (deep 1 g) (genFuncBody D (deep 1 g) m "v")
        ++ [⟨g.indent, "\x7d\n\n"⟩] := by
  unfold genInterfaceEntry
  simp only [hs, Bool.not_true, Bool.false_eq_true, if_false, pkgName_fst, Printf_pkg,
    Indent_pkg, genFuncSignature_pkg]
  have e := em_Printf (rfl : "\x7d\n\n" = "\x7d\n\n") (em_Outdent (em_genFuncBody D m "v"
    (em_Printf (rfl : "v := ref.Get().(" ++ g.pkg.name ++ "." ++ obj.name ++ ")\n" = _)
    (em_pkgName g.pkg
    (em_Printf (rfl : "ref := _seq.FromRefNum(int32(refnum))\n" = _)
    (em_Indent (em_genFuncSignature D m obj.name (em_refl g))))))))
  rw [e.out]
  simp

theorem genInterfaceEntry_skipped (D : Deps) (obj : TypeName) (g : goGen) (m : Func)
    (hs : D.isSigSupported m = false) :
    genInterfaceEntry D obj g m
      = g.Printf ("// skipped method " ++ obj.name ++ "." ++ m.name
          ++ " with unsupported parameter or return types\n\n") := by
  unfold genInterfaceEntry
  simp [hs]

/-- The first two lines emitted by genFuncSignature: the export line and the
start of the definition of the function of the same name. -/
theorem genFuncSignature_head (D : Deps) (g : goGen) (o : Func) (objName : String) :
    ∃ rest, emitted g (genFuncSignature D g o objName)
      = ⟨g.indent, "//export proxy" ++ g.pkgPrefix ++ "_" ++ objName ++ "_" ++ o.name ++ "\n"⟩
        :: ⟨g.indent, "func proxy" ++ g.pkgPrefix ++ "_" ++ objName ++ "_" ++ o.name ++ "("⟩
        :: rest := by
  have e2 := em_Printf
    (rfl : "func proxy" ++ g.pkgPrefix ++ "_" ++ objName ++ "_" ++ o.name ++ "(" = _)
    (em_Printf
      (rfl : "//export proxy" ++ g.pkgPrefix ++ "_" ++ objName ++ "_" ++ o.name ++ "\n" = _)
      (em_refl g))
  have hrest : Step anyErr 0
      ((g.Printf ("//export proxy" ++ g.pkgPrefix ++ "_" ++ objName ++ "_" ++ o.name ++ "\n")).Printf
        ("func proxy" ++ g.pkgPrefix ++ "_" ++ objName ++ "_" ++ o.name ++ "("))
      (genFuncSignature D g o objName) := by
    unfold genFuncSignature
    simp only [Printf_pkgPrefix]
    repeat (first
      | with_reducible exact step_refl _ _
      | with_reducible apply step_Printf
      | with_reducible apply step_sigParams
      | with_reducible apply step_sigResults
      | split)
  refine ⟨emitted ((g.Printf
      ("//export proxy" ++ g.pkgPrefix ++ "_" ++ objName ++ "_" ++ o.name ++ "\n")).Printf
      ("func proxy" ++ g.pkgPrefix ++ "_" ++ objName ++ "_" ++ o.name ++ "("))
    (genFuncSignature D g o objName), ?_⟩
  rw [emitted_trans e2.step hrest, e2.out]
  simp

theorem genInterfaceBody_emitted (D : Deps) (g : goGen) (obj : TypeName) (iface : Ty) :
    emitted g (genInterfaceBody D g obj iface)
      = forwardOut D g obj (D.makeIfaceSummary iface).callable
        ++ (if (D.makeIfaceSummary iface).implementable = true then
              proxyOut D g obj (D.makeIfaceSummary iface).callable
            else []) := by
  have ef := em_foldl (genInterfaceEntry D obj)
    (fun y m => step_genInterfaceEntry D obj m (step_refl _ y))
    (fun _ _ _ _ m hc => co_genInterfaceEntry D obj m hc)
    (D.makeIfaceSummary iface).callable (em_refl g)
  have hp : ((D.makeIfaceSummary iface).callable.foldl (genInterfaceEntry D obj) g).pkgPrefix
      = g.pkgPrefix := ef.step.pkgPrefix
  unfold genInterfaceBody
  by_cases hi : (D.makeIfaceSummary iface).implementable = true
  · simp only [hi, Bool.not_true, Bool.false_eq_true, if_false, if_true, Printf_pkgPrefix, hp]
    have e := em_foldl (genInterfaceProxyMethod D obj)
      (fun y m => step_genInterfaceProxyMethod D obj m (step_refl _ y))
      (fun _ _ _ _ m hc => co_genInterfaceProxyMethod D obj m hc)
      (D.makeIfaceSummary iface).callable
      (em_Printf (rfl : "func (p *proxy" ++ g.pkgPrefix ++ "_" ++ obj.name
          ++ ") Bind_proxy_refnum__() int32 \x7b return p.Bind_Num \x7d\n\n" = _)
        (em_Printf (rfl : "type proxy" ++ g.pkgPrefix ++ "_" ++ obj.name ++ " _seq.Ref\n\n" = _)
          ef))
    rw [e.out]
    simp [forwardOut, proxyOut]
  · simp only [hi, Bool.not_false, if_true, if_false]
    rw [ef.out]
    simp [forwardOut]

/-- Every error recorded by a loop over a list was recorded by its body for one
of the elements. -/
theorem foldl_recorded_mem {α : Type} (body : goGen → α → goGen)
    (hstep : ∀ y a, Step anyErr 0 y (body y a)) (g : goGen) :
    ∀ (xs : List α) (x : goGen), Step anyErr 0 g x →
      ∀ e ∈ recorded x (xs.foldl body x),
        ∃ y a, a ∈ xs ∧ Step anyErr 0 g y ∧ e ∈ recorded y (body y a) := by
  intro xs
  induction xs with
  | nil =>
    intro x _ e he
    simp [recorded] at he
  | cons a as ih =>
    intro x hx e he
    rw [List.foldl_cons,
      recorded_trans (hstep x a) (step_foldl body hstep as (step_refl _ (body x a))),
      List.mem_append] at he
    rcases he with he | he
    · exact ⟨x, a, List.mem_cons_self _ _, hx, he⟩
    · obtain ⟨y, b, hb, hy, hey⟩ := ih (body x a) (step_trans hx (hstep x a)) e he
      exact ⟨y, b, List.mem_cons_of_mem _ hb, hy, hey⟩

/-! ## C3 -/

/-- C3 as stated fails for the interface Pairer, which is not implementable: the
forward entry point of its method `Pair() (int, string)` goes through
genFuncBody, which records the result-arity diagnostic, so an error is recorded
although no reverse proxy is emitted. -/
theorem genInterface_records_arity_error :
    ((exampleDeps [helloPkg]).makeIfaceSummary (underlying Pairer)).implementable = false
    ∧ (genInterface (exampleDeps [helloPkg]) helloGen ⟨"Pairer", Pairer⟩).map
        (fun g' => recorded helloGen g') = some [arityDiag] := by
  decide

/-- C3, amended: for an interface (an object whose type is a named interface type)
genInterface succeeds and emits the forward entry points of the callable methods,
whether the interface is implementable or not, followed by the reverse proxy (the
type `proxy<prefix>_<Name>`, its method `Bind_proxy_refnum__` and the proxy
methods) exactly when the summary is implementable. Every callable method with a
supported signature gets an entry point, which starts with its export line. The
text is the forward entry points alone if and only if the interface is not
implementable, and then the generator is left as the loop over the entry points
left it: no error is recorded for the missing proxy, and every error recorded was
recorded by the forward entry point of a callable method with a supported
signature. A method with an unsupported signature records no error; a method with
a supported signature whose results break the arity rule records the arity
diagnostic. -/
theorem genInterface_forward_and_proxy (D : Deps) (g : goGen) (name n : String)
    (p : Option Package) (ms mm : List (String × Ty)) :
    ∃ g', genInterface D g ⟨name, .named n p (.iface ms) mm⟩ = some g'
      ∧ emitted g g'
          = forwardOut D g ⟨name, .named n p (.iface ms) mm⟩
              (D.makeIfaceSummary (.iface ms)).callable
            ++ (if (D.makeIfaceSummary (.iface ms)).implementable = true then
                  proxyOut D g ⟨name, .named n p (.iface ms) mm⟩
                    (D.makeIfaceSummary (.iface ms)).callable
                else [])
      ∧ (∀ m ∈ (D.makeIfaceSummary (.iface ms)).callable, D.isSigSupported m = true →
          ∃ rest, emitted g (genInterfaceEntry D ⟨name, .named n p (.iface ms) mm⟩ g m)
            = ⟨g.indent, "//export proxy" ++ g.pkgPrefix ++ "_" ++ name ++ "_" ++ m.name ++ "\n"⟩
              :: ⟨g.indent, "func proxy" ++ g.pkgPrefix ++ "_" ++ name ++ "_" ++ m.name ++ "("⟩
              :: rest)
      ∧ (emitted g g'
            = forwardOut D g ⟨name, .named n p (.iface ms) mm⟩
                (D.makeIfaceSummary (.iface ms)).callable
          ↔ (D.makeIfaceSummary (.iface ms)).implementable = false)
      ∧ ((D.makeIfaceSummary (.iface ms)).implementable = false →
          g' = (D.makeIfaceSummary (.iface ms)).callable.foldl
            (genInterfaceEntry D ⟨name, .named n p (.iface ms) mm⟩) g
          ∧ recorded g g'
            = recorded g ((D.makeIfaceSummary (.iface ms)).callable.foldl
                (genInterfaceEntry D ⟨name, .named n p (.iface ms) mm⟩) g)
          ∧ ∀ e ∈ recorded g g', ∃ x m, m ∈ (D.makeIfaceSummary (.iface ms)).callable
              ∧ D.isSigSupported m = true
              ∧ Step anyErr 0 g x
              ∧ e ∈ recorded x (genInterfaceEntry D ⟨name, .named n p (.iface ms) mm⟩ x m))
      ∧ (∀ (x : goGen) (m : Func), D.isSigSupported m = false →
          recorded x (genInterfaceEntry D ⟨name, .named n p (.iface ms) mm⟩ x m) = [])
      ∧ (∀ (x : goGen) (m : Func), D.isSigSupported m = true →
          arityViolated m.results = true →
          arityDiag
            ∈ recorded x (genInterfaceEntry D ⟨name, .named n p (.iface ms) mm⟩ x m)) := by
  refine ⟨genInterfaceBody D g ⟨name, .named n p (.iface ms) mm⟩ (.iface ms), rfl,
    genInterfaceBody_emitted D g _ _, ?_, ?_, ?_, ?_, ?_⟩
  · intro m _ hs
    obtain ⟨rest, hrest⟩ := genFuncSignature_head D g m name
    refine ⟨rest ++ ([⟨g.indent + 1, "ref := _seq.FromRefNum(int32(refnum))\n"⟩,
      ⟨g.indent + 1, "v := ref.Get().(" ++ g.pkg.name ++ "." ++ name ++ ")\n"⟩]
      ++ emitted (deep 1 g) (genFuncBody D (deep 1 g) m "v") ++ [⟨g.indent, "\x7d\n\n"⟩]), ?_⟩
    rw [genInterfaceEntry_emitted D _ g m hs, hrest]
    simp
  · rw [genInterfaceBody_emitted]
    by_cases hi : (D.makeIfaceSummary (.iface ms)).implementable = true
    · simp [hi, proxyOut]
    · simp [hi]
  · intro hi
    have hg : genInterfaceBody D g ⟨name, .named n p (.iface ms) mm⟩ (.iface ms)
        = (D.makeIfaceSummary (.iface ms)).callable.foldl
            (genInterfaceEntry D ⟨name, .named n p (.iface ms) mm⟩) g := by
      unfold genInterfaceBody
      simp [hi]
    refine ⟨hg, by rw [hg], ?_⟩
    rw [hg]
    intro e he
    obtain ⟨x, m, hm, hx, hex⟩ := foldl_recorded_mem
      (genInterfaceEntry D ⟨name, .named n p (.iface ms) mm⟩)
      (fun y a => step_genInterfaceEntry D _ a (step_refl _ y)) g _ g (step_refl _ g) e he
    refine ⟨x, m, hm, ?_, hx, hex⟩
    by_contra hs
    rw [Bool.not_eq_true] at hs
    rw [genInterfaceEntry_skipped D _ x m hs] at hex
    simp [recorded] at hex
  · intro x m hs
    rw [genInterfaceEntry_skipped D _ x m hs]
    simp [recorded]
  · intro x m hs hv
    have hd : Step anyErr 1 x (decodeParams D m.params
        (((((genFuncSignature D x m name).Indent).Printf
          "ref := _seq.FromRefNum(int32(refnum))\n").pkgName
            (((genFuncSignature D x m name).Indent).Printf
              "ref := _seq.FromRefNum(int32(refnum))\n").pkg).2.Printf
          ("v := ref.Get().(" ++ x.pkg.name ++ "." ++ name ++ ")\n"))) :=
      step_decodeParams anyErr_intro D _ (step_Printf _ (step_pkgName _ (step_Printf _
        (step_Indent (step_genFuncSignature D m name (step_refl _ x))))))
    obtain ⟨es, hes, _⟩ := hd.err
    simp only [Printf_pkg, Indent_pkg, genFuncSignature_pkg] at hes
    unfold genInterfaceEntry
    simp only [hs, Bool.not_true, Bool.false_eq_true, if_false, pkgName_fst, Printf_pkg,
      Indent_pkg, genFuncSignature_pkg, genFuncBody, hv, if_true]
    simp [recorded, hes, arityDiag, arityFormat]

theorem genStructField_skipped (D : Deps) (obj : TypeName) (x : goGen) (f : Var)
    (hs : D.isSupported f.type = false) :
    genStructField D obj x f
      = x.Printf ("// skipped field " ++ obj.name ++ "." ++ f.name
          ++ " with unsupported type: " ++ goTypeName f.type ++ "\n\n") := by
  unfold genStructField
  simp [hs]

theorem genStructField_emitted (D : Deps) (obj : TypeName) (g : goGen) (f : Var)
    (hs : D.isSupported f.type = true) :
    emitted g (genStructField D obj g f) = accessorsOut D g obj f := by
  unfold genStructField
  simp only [hs, Bool.not_true, Bool.false_eq_true, if_false, pkgName_fst, cgoType_fst,
    Printf_pkgPrefix, Printf_pkg, cgoType_pkgPrefix, cgoType_pkg, Indent_pkg,
    Indent_pkgPrefix, Outdent_pkg, Outdent_pkgPrefix, genRead_pkg, genRead_pkgPrefix,
    pkgName_pkg, pkgName_pkgPrefix]
  have e := em_Printf (rfl : "\x7d\n\n" = _) (em_Outdent
    (em_Printf (rfl : "return _v\n" = _)
    (em_genWrite D "_v" "v" f.type .modeRetained
    (em_Printf (rfl : "v := ref.Get().(*" ++ g.pkg.name ++ "." ++ obj.name ++ ")." ++ f.name
        ++ "\n" = _)
    (em_pkgName g.pkg
    (em_Printf (rfl : "ref := _seq.FromRefNum(int32(refnum))\n" = _)
    (em_Indent
    (em_Printf (rfl : "func proxy" ++ g.pkgPrefix ++ "_" ++ obj.name ++ "_" ++ f.name
        ++ "_Get(refnum C.int32_t) C." ++ (D.cgoType f.type).1 ++ " \x7b\n" = _)
    (em_cgoType D f.type
    (em_Printf (rfl : "//export proxy" ++ g.pkgPrefix ++ "_" ++ obj.name ++ "_" ++ f.name
        ++ "_Get\n" = _)
    (em_Printf (rfl : "\x7d\n\n" = _) (em_Outdent
    (em_Printf (rfl : "ref.Get().(*" ++ g.pkg.name ++ "." ++ obj.name ++ ")." ++ f.name
        ++ " = _v\n" = _)
    (em_pkgName g.pkg
    (em_genRead D "_v" "v" f.type .modeRetained
    (em_Printf (rfl : "ref := _seq.FromRefNum(int32(refnum))\n" = _)
    (em_Indent
    (em_Printf (rfl : "func proxy" ++ g.pkgPrefix ++ "_" ++ obj.name ++ "_" ++ f.name
        ++ "_Set(refnum C.int32_t, v C." ++ (D.cgoType f.type).1 ++ ") \x7b\n" = _)
    (em_cgoType D f.type
    (em_Printf (rfl : "//export proxy" ++ g.pkgPrefix ++ "_" ++ obj.name ++ "_" ++ f.name
        ++ "_Set\n" = _)
    (em_refl g)))))))))))))))))))))
  rw [e.out]
  simp [accessorsOut]

theorem genStructMethod_skipped (D : Deps) (obj : TypeName) (x : goGen) (m : Func)
    (hs : D.isSigSupported m = false) :
    genStructMethod D obj x m
      = x.Printf ("// skipped method " ++ obj.name ++ "." ++ m.name
          ++ " with unsupported parameter or return types\n\n") := by
  unfold genStructMethod
  simp [hs]

/-- The text of a supported entry point of a struct method: the signature, the
lookup of the receiver, the body, and the closing brace. -/
theorem genStructMethod_emitted (D : Deps) (obj : TypeName) (g : goGen) (m : Func)
    (hs : D.isSigSupported m = true) :
    emitted g (genStructMethod D obj g m)
      = emitted g (genFuncSignature D g m obj.name)
        ++ [⟨g.indent + 1, "ref := _seq.FromRefNum(int32(refnum))\n"⟩,
            ⟨g.indent + 1, "v := ref.Get().(*" ++ g.pkg.name ++ "." ++ obj.name ++ ")\n"⟩]
        ++ emitted (deep 1 g) (genFuncBody D (deep 1 g) m "v")
        ++ [⟨g.indent, "\x7d\n\n"⟩] := by
  unfold genStructMethod
  simp only [hs, Bool.not_true, Bool.false_eq_true, if_false, pkgName_fst, Printf_pkg,
    Indent_pkg, genFuncSignature_pkg]
  have e := em_Printf (rfl : "\x7d\n\n" = "\x7d\n\n") (em_Outdent (em_genFuncBody D m "v"
    (em_Printf (rfl : "v := ref.Get().(*" ++ g.pkg.name ++ "." ++ obj.name ++ ")\n" = _)
    (em_pkgName g.pkg
    (em_Printf (rfl : "ref := _seq.FromRefNum(int32(refnum))\n" = _)
    (em_Indent (em_genFuncSignature D m obj.name (em_refl g))))))))
  rw [e.out]
  simp

theorem genStruct_emitted (D : Deps) (g : goGen) (obj : TypeName) (T : Ty) :
    emitted g (genStruct D g obj T)
      = ((D.exportedFields T).map (fun f => emitted g (genStructField D obj g f))).flatten
        ++ ((D.exportedMethodSet (.pointer obj.type)).map
            (fun m => emitted g (genStructMethod D obj g m))).flatten := by
  unfold genStruct
  have e := em_foldl (genStructMethod D obj)
    (fun y m => step_genStructMethod D obj m (step_refl _ y))
    (fun _ _ _ _ m hc => co_genStructMethod D obj m hc)
    (D.exportedMethodSet (.pointer obj.type))
    (em_foldl (genStructField D obj)
      (fun y f => step_genStructField D obj f (step_refl _ y))
      (fun _ _ _ _ f hc => co_genStructField D obj f hc)
      (D.exportedFields T) (em_refl g))
  rw [e.out]
  simp

/-! ## C4 -/

/-- C4: genStruct emits, in the order of the input, the text of each exported
field and then of each exported method. For a field of an unsupported type
genStructField only prints one `// skipped field` annotation: it emits no accessor
and records no error. For a field of a supported type it emits the Set and the Get
accessor, and for a method with a supported signature an entry point, which starts
with its export line. -/
theorem genStruct_fields_and_methods (D : Deps) (g : goGen) (obj : TypeName) (T : Ty) :
    emitted g (genStruct D g obj T)
      = ((D.exportedFields T).map (fun f => emitted g (genStructField D obj g f))).flatten
        ++ ((D.exportedMethodSet (.pointer obj.type)).map
            (fun m => emitted g (genStructMethod D obj g m))).flatten
    ∧ (∀ (x : goGen) (f : Var), D.isSupported f.type = false →
        genStructField D obj x f
          = x.Printf ("// skipped field " ++ obj.name ++ "." ++ f.name
              ++ " with unsupported type: " ++ goTypeName f.type ++ "\n\n")
        ∧ emitted x (genStructField D obj x f)
            = [⟨x.indent, "// skipped field " ++ obj.name ++ "." ++ f.name
                ++ " with unsupported type: " ++ goTypeName f.type ++ "\n\n"⟩]
        ∧ recorded x (genStructField D obj x f) = [])
    ∧ (∀ f : Var, D.isSupported f.type = true →
        emitted g (genStructField D obj g f) = accessorsOut D g obj f)
    ∧ (∀ m : Func, D.isSigSupported m = true →
        ∃ rest, emitted g (genStructMethod D obj g m)
          = ⟨g.indent, "//export proxy" ++ g.pkgPrefix ++ "_" ++ obj.name ++ "_" ++ m.name
              ++ "\n"⟩
            :: ⟨g.indent, "func proxy" ++ g.pkgPrefix ++ "_" ++ obj.name ++ "_" ++ m.name
              ++ "("⟩
            :: rest) := by
  refine ⟨genStruct_emitted D g obj T, ?_, fun f hs => genStructField_emitted D obj g f hs, ?_⟩
  · intro x f hs
    rw [genStructField_skipped D obj x f hs]
    exact ⟨rfl, emitted_Printf x _, by simp [recorded]⟩
  · intro m hs
    obtain ⟨rest, hrest⟩ := genFuncSignature_head D g m obj.name
    refine ⟨rest ++ ([⟨g.indent + 1, "ref := _seq.FromRefNum(int32(refnum))\n"⟩,
      ⟨g.indent + 1, "v := ref.Get().(*" ++ g.pkg.name ++ "." ++ obj.name ++ ")\n"⟩]
      ++ emitted (deep 1 g) (genFuncBody D (deep 1 g) m "v") ++ [⟨g.indent, "\x7d\n\n"⟩]), ?_⟩
    rw [genStructMethod_emitted D obj g m hs, hrest]
    simp

/-! ## C5 -/

theorem genToRefNum_emitted (g : goGen) (toVar fromVar : String) :
    emitted g (genToRefNum g toVar fromVar)
      = [⟨g.indent, "var " ++ toVar ++ " C.int32_t = _seq.NullRefNum\n"⟩,
         ⟨g.indent, "if " ++ fromVar ++ " != nil \x7b\n"⟩,
         ⟨g.indent, "\t" ++ toVar ++ " = C.int32_t(_seq.ToRefNum(" ++ fromVar ++ "))\n"⟩,
         ⟨g.indent, "\x7d\n"⟩] := by
  simp [genToRefNum, emitted]

theorem genWrite_refType (D : Deps) (g : goGen) (toVar fromVar : String) (t : Ty)
    (mode : varMode) (hr : isRefType t = true) (he : isErrorType t = false) :
    genWrite D g toVar fromVar t mode = genToRefNum g toVar fromVar := by
  unfold genWrite
  simp only [he, Bool.false_eq_true, if_false]
  cases t with
  | pointer e => cases e <;> simp_all [isRefType, genWriteSwitch]
  | named n p u ms => cases u <;> simp_all [isRefType, genWriteSwitch]
  | _ => simp [isRefType] at hr

/-- C5: for a pointer to a named type, and for a named type whose underlying type
is an interface or a pointer (the predeclared error type apart, which genWrite
encodes as a string), genWrite is genToRefNum: the target is declared with the
value NullRefNum and is assigned ToRefNum of the value only inside the test that
the value is not nil, so a nil value is encoded as the null handle. No error is
recorded. -/
theorem genWrite_nil_is_null_handle (D : Deps) (g : goGen) (toVar fromVar : String) (t : Ty)
    (mode : varMode) (hr : isRefType t = true) (he : isErrorType t = false) :
    writeOut D g toVar fromVar t mode
      = [⟨g.indent, "var " ++ toVar ++ " C.int32_t = _seq.NullRefNum\n"⟩,
         ⟨g.indent, "if " ++ fromVar ++ " != nil \x7b\n"⟩,
         ⟨g.indent, "\t" ++ toVar ++ " = C.int32_t(_seq.ToRefNum(" ++ fromVar ++ "))\n"⟩,
         ⟨g.indent, "\x7d\n"⟩]
    ∧ recorded g (genWrite D g toVar fromVar t mode) = [] := by
  unfold writeOut
  rw [genWrite_refType D g toVar fromVar t mode hr he]
  exact ⟨genToRefNum_emitted g toVar fromVar, by simp [genToRefNum, recorded]⟩

/-- Witness of C5: the encoding of a value of type `*hello.Foo`. -/
theorem genWrite_nil_is_null_handle_witness :
    writeOut (exampleDeps [helloPkg]) helloGen "_v" "v" (.pointer Foo) .modeRetained
      = [⟨0, "var _v C.int32_t = _seq.NullRefNum\n"⟩,
         ⟨0, "if v != nil \x7b\n"⟩,
         ⟨0, "\t_v = C.int32_t(_seq.ToRefNum(v))\n"⟩,
         ⟨0, "\x7d\n"⟩]
    ∧ recorded helloGen
        (genWrite (exampleDeps [helloPkg]) helloGen "_v" "v" (.pointer Foo) .modeRetained) = [] :=
  genWrite_nil_is_null_handle (exampleDeps [helloPkg]) helloGen "_v" "v" (.pointer Foo)
    .modeRetained rfl rfl

/-! ## C6 -/

/-- The decoding of a pointer to a named type of a bound package: the reference is
looked up and `Get` is called on it at once, with no test that it is not nil. -/
theorem genRead_pointer_bound (D : Deps) (g : goGen) (toVar fromVar n : String) (p : Package)
    (u : Ty) (ms : List (String × Ty)) (mode : varMode) (hv : validPkg g (some p) = true) :
    readOut D g toVar fromVar (.pointer (.named n (some p) u ms)) mode
      = [⟨g.indent, "// Must be a Go object\n"⟩,
         ⟨g.indent, toVar ++ "_ref := _seq.FromRefNum(int32(" ++ fromVar ++ "))\n"⟩,
         ⟨g.indent, toVar ++ " := " ++ toVar ++ "_ref.Get().(*" ++ p.name ++ "." ++ n ++ ")\n"⟩] := by
  simp [readOut, genRead, isErrorType, genReadSwitch, hv, emitted]

/-- C6, at the failing input: for the type `*hello.Foo` of the bound package hello,
genRead emits the lookup of the reference followed by an unconditional call of
`Get` on it, and no test that the reference is not nil. -/
theorem genRead_pointer_without_nil_check :
    (readOut (exampleDeps [helloPkg]) helloGen "_v" "v" (.pointer Foo) .modeRetained).map
        (fun c => c.text)
      = ["// Must be a Go object\n",
         "_v_ref := _seq.FromRefNum(int32(v))\n",
         "_v := _v_ref.Get().(*hello.Foo)\n"] := by
  decide

/-! ## C7 -/

theorem isErrorType_of_pkg (n : String) (p : Package) (u : Ty) (ms : List (String × Ty)) :
    isErrorType (.named n (some p) u ms) = false := by
  unfold isErrorType
  split
  · rename_i h
    cases h
  · rfl

/-- C7 as stated fails for genWrite: for the type `*other.T`, whose package is not
bound, genWrite records no error at all and emits the conversion to a handle. -/
theorem genWrite_unbound_records_nothing :
    validPkg helloGen (some otherPkg) = false
    ∧ recorded helloGen
        (genWrite (exampleDeps [helloPkg]) helloGen "_v" "v" (.pointer otherT) .modeRetained) = []
    ∧ (writeOut (exampleDeps [helloPkg]) helloGen "_v" "v" (.pointer otherT) .modeRetained).map
        (fun c => c.text)
      = ["var _v C.int32_t = _seq.NullRefNum\n", "if v != nil \x7b\n",
         "\t_v = C.int32_t(_seq.ToRefNum(v))\n", "\x7d\n"] := by
  decide

/-- C7, amended: for a named type of a package that is not bound, taken behind a
pointer or, when its underlying type is an interface or a pointer, by itself,
genRead only records the error `type ... is defined in ..., which is not bound` and
emits nothing; typeString records the same error and returns the placeholder
`TODO` (`*TODO` for the pointer) in place of the name of the type; genWrite records
no error and emits the conversion to a handle, which names only the variables. -/
theorem unbound_type_errors (D : Deps) (g : goGen) (toVar fromVar n : String) (p : Package)
    (u : Ty) (ms : List (String × Ty)) (mode : varMode)
    (hv : validPkg g (some p) = false) :
    genRead D g toVar fromVar (.pointer (.named n (some p) u ms)) mode
        = g.errorf "type %s is defined in %s, which is not bound"
            [D.typeStr (.named n (some p) u ms), D.pkgStr (some p)]
    ∧ (isRefType (.named n (some p) u ms) = true →
        genRead D g toVar fromVar (.named n (some p) u ms) mode
          = g.errorf "type %s is defined in %s, which is not bound"
              [D.typeStr (.named n (some p) u ms), D.pkgStr (some p)])
    ∧ typeString D g (.named n (some p) u ms)
        = ("TODO", g.errorf "type %s is defined in %s, which is not bound"
            [D.typeStr (.named n (some p) u ms), D.pkgStr (some p)])
    ∧ typeString D g (.pointer (.named n (some p) u ms))
        = ("*TODO", g.errorf "type %s is defined in %s, which is not bound"
            [D.typeStr (.named n (some p) u ms), D.pkgStr (some p)])
    ∧ genWrite D g toVar fromVar (.pointer (.named n (some p) u ms)) mode
        = genToRefNum g toVar fromVar
    ∧ (isRefType (.named n (some p) u ms) = true →
        genWrite D g toVar fromVar (.named n (some p) u ms) mode
          = genToRefNum g toVar fromVar) := by
  have hts : typeString D g (.named n (some p) u ms)
      = ("TODO", g.errorf "type %s is defined in %s, which is not bound"
          [D.typeStr (.named n (some p) u ms), D.pkgStr (some p)]) := by
    simp [typeString, hv]
  refine ⟨?_, ?_, hts, ?_, ?_, ?_⟩
  · simp [genRead, isErrorType, genReadSwitch, hv]
  · intro hr
    cases u <;> simp_all [isRefType, genRead, isErrorType, genReadSwitch]
  · have : typeString D g (.pointer (.named n (some p) u ms))
        = ("*" ++ (typeString D g (.named n (some p) u ms)).1,
            (typeString D g (.named n (some p) u ms)).2) := by
      simp [typeString]
    rw [this, hts]
    rfl
  · exact genWrite_refType D g toVar fromVar _ mode rfl rfl
  · intro hr
    exact genWrite_refType D g toVar fromVar _ mode hr (isErrorType_of_pkg n p u ms)

/-- Witness of the amended C7: the type `other.T` of a package that is not bound. -/
theorem unbound_type_errors_witness :
    genRead (exampleDeps [helloPkg]) helloGen "_v" "v" (.pointer otherT) .modeRetained
      = helloGen.errorf "type %s is defined in %s, which is not bound"
          [(exampleDeps [helloPkg]).typeStr otherT, (exampleDeps [helloPkg]).pkgStr (some otherPkg)] :=
  (unbound_type_errors (exampleDeps [helloPkg]) helloGen "_v" "v" "T" otherPkg (.struct []) []
    .modeRetained (by decide)).1

/-! ## C8 -/

/-- C8, at the failing input: `type FooPtr *Foo` is a named type of the bound
package hello whose underlying type is a pointer, and genRead records a generation
error for it, which comes from typeString. -/
theorem genRead_named_pointer_records_error :
    validPkg helloGen (some helloPkg) = true
    ∧ isRefType FooPtr = true
    ∧ recorded helloGen
        (genRead (exampleDeps [helloPkg]) helloGen "_v" "v" FooPtr .modeRetained)
      = [⟨"unsupported named type %s / %T",
          ["golang.org/x/mobile/example/bind/hello.FooPtr", "*types.Named"]⟩]
    ∧ recorded helloGen (typeString (exampleDeps [helloPkg]) helloGen FooPtr).2
      = [⟨"unsupported named type %s / %T",
          ["golang.org/x/mobile/example/bind/hello.FooPtr", "*types.Named"]⟩] := by
  decide

/-! ## The method gen -/

theorem foldl_Printf_eq {α : Type} (f : α → String) (l : List α) :
    ∀ x : goGen, l.foldl (fun g a => g.Printf (f a)) x
      = { x with buf := x.buf ++ l.map (fun a => ⟨x.indent, f a⟩) } := by
  induction l with
  | nil => intro x; simp
  | cons a as ih =>
    intro x
    rw [List.foldl_cons, ih]
    simp [goGen.Printf]

theorem genPreamble_eq (D : Deps) (x : goGen) :
    genPreamble D x = { x with buf := x.buf ++ preambleOut D x x.imports } := by
  unfold genPreamble
  simp only [foldl_Printf_eq]
  simp [goGen.Printf, goGen.Indent, goGen.Outdent, preambleOut]

theorem genInterface_of_namedIface (D : Deps) (g : goGen) (obj : TypeName)
    (h : namedIface obj.type = true) :
    genInterface D g obj = some (genInterfaceBody D g obj (underlying obj.type)) := by
  unfold genInterface
  split
  · rename_i he
    simp [he, underlying]
  · rename_i hne
    exfalso
    unfold namedIface at h
    split at h
    · rename_i he
      exact hne _ _ _ _ he
    · cases h

theorem genInterfaces_of_namedIface (D : Deps) (l : List interfaceInfo)
    (h : ∀ i ∈ l, namedIface i.obj.type = true) :
    ∀ g, genInterfaces D l g
      = some (l.foldl (fun g i => genInterfaceBody D g i.obj (underlying i.obj.type)) g) := by
  induction l with
  | nil => intro g; rfl
  | cons a as ih =>
    intro g
    simp only [genInterfaces, List.foldl_cons]
    rw [genInterface_of_namedIface D g a.obj (h a (List.mem_cons_self _ _))]
    exact ih (fun i hi => h i (List.mem_cons_of_mem _ hi)) _

theorem genDecls_of_namedIface (D : Deps) (g : goGen)
    (h : ∀ i ∈ g.interfaces, namedIface i.obj.type = true) :
    genDecls D g = some (declsOf D g) := by
  have hs : Step anyErr 0 g
      (g.structs.foldl (fun g s => genStruct D g s.obj s.t)
        ((g.Printf "// suppress the error if seq ends up unused\n").Printf
          "var _ = _seq.FromRefNum\n")) :=
    step_foldl (fun g (s : structInfo) => genStruct D g s.obj s.t)
      (fun y s => step_genStruct D s.obj s.t (step_refl _ y)) g.structs
      (step_Printf _ (step_Printf _ (step_refl _ g)))
  unfold genDecls declsOf
  simp only [Printf_structs]
  rw [genInterfaces_of_namedIface D _ (by rw [hs.interfaces]; exact h)]

theorem declsOf_Em (D : Deps) (g : goGen) : Em 0 g (declsOf D g) (declsOut D g) := by
  have e1 := em_foldl (fun g (s : structInfo) => genStruct D g s.obj s.t)
    (fun y s => step_genStruct D s.obj s.t (step_refl _ y))
    (fun _ _ _ _ s hc => co_genStruct D s.obj s.t hc) g.structs
    (em_Printf (rfl : "var _ = _seq.FromRefNum\n" = _)
      (em_Printf (rfl : "// suppress the error if seq ends up unused\n" = _) (em_refl g)))
  have e2 := em_foldl
    (fun g (i : interfaceInfo) => genInterfaceBody D g i.obj (underlying i.obj.type))
    (fun y i => step_genInterfaceBody D i.obj _ (step_refl _ y))
    (fun _ _ _ _ i hc => co_genInterfaceBody D i.obj _ hc) g.interfaces e1
  have e3 := em_foldl (genVar D)
    (fun y v => step_genVar D v (step_refl _ y))
    (fun _ _ _ _ v hc => co_genVar D v hc) g.vars e2
  have e4 := em_foldl (genFunc D)
    (fun y f => step_genFunc D f (step_refl _ y))
    (fun _ _ _ _ f hc => co_genFunc D f hc) g.funcs e3
  have h1 := e1.step.interfaces
  have h2 := e2.step.vars
  have h3 := e3.step.funcs
  unfold declsOf
  simp only [Printf_structs, h1, h2, h3]
  refine ⟨e4.step, ?_⟩
  rw [e4.out]
  simp [declsOut]

/-- The text of a declaration does not depend on the buffer, the errors and the
imports of the generator it is emitted from. -/
theorem declsOut_congr (D : Deps) (g : goGen) (b : List Chunk) (e : List GenErr)
    (i : List String) :
    declsOut D { g with buf := b, err := e, imports := i } = declsOut D g := by
  have hsim : Sim g { g with buf := b, err := e, imports := i } := ⟨rfl, rfl, rfl, rfl⟩
  unfold declsOut
  congr 1
  · congr 1
    · congr 1
      · congr 2
        apply List.map_congr_left
        intro s _
        exact co_emitted_eq (co_genStruct D s.obj s.t (co_refl hsim))
      · congr 1
        apply List.map_congr_left
        intro s _
        exact co_emitted_eq (co_genInterfaceBody D s.obj _ (co_refl hsim))
    · congr 1
      apply List.map_congr_left
      intro s _
      exact co_emitted_eq (co_genVar D s (co_refl hsim))
  · congr 1
    apply List.map_congr_left
    intro s _
    exact co_emitted_eq (co_genFunc D s (co_refl hsim))

/-- What gen does when the type assertions of genInterface succeed: the final
generator is the generator after the declarations, started from an empty buffer
and an empty set of imports, with the buffer replaced by the prior content, the
preamble and the body. -/
theorem gen_eq (D : Deps) (g : goGen)
    (h : ∀ i ∈ g.interfaces, namedIface i.obj.type = true) :
    gen D g
      = some ({ declsOf D { g with imports := [], buf := [] } with
            buf := g.buf
              ++ preambleOut D g (declsOf D { g with imports := [], buf := [] }).imports
              ++ declsOut D g },
          if (declsOf D { g with imports := [], buf := [] }).err = [] then none
          else some (declsOf D { g with imports := [], buf := [] }).err) := by
  have em := declsOf_Em D { g with imports := [], buf := [] }
  have hb : (declsOf D { g with imports := [], buf := [] }).buf = declsOut D g := by
    have := em.out
    simp only [emitted, List.length_nil, List.drop_zero] at this
    rw [this]
    exact declsOut_congr D g [] g.err []
  have hpk : (declsOf D { g with imports := [], buf := [] }).pkg = g.pkg := em.step.pkg
  have hin : (declsOf D { g with imports := [], buf := [] }).indent = g.indent := em.step.indent
  unfold gen
  simp only [genDecls_of_namedIface D { g with imports := [], buf := [] } h, genPreamble_eq]
  by_cases he : (declsOf D { g with imports := [], buf := [] }).err = []
  · simp [he, hb, preambleOut, hpk, hin]
  · have : (declsOf D { g with imports := [], buf := [] }).err.length > 0 :=
      List.length_pos.mpr he
    simp [he, this, hb, preambleOut, hpk, hin]

/-! ## C9 -/

/-- C9: when the interface objects are named interface types, gen succeeds and
leaves in the buffer its prior content, followed by the preamble, followed by the
body generated for the declarations. The body is what the declarations emit into
an empty buffer, and the import block of the preamble lists the set of imports as
it is after the body was emitted, starting from the empty set: the preamble comes
first in the buffer although it is generated last. -/
theorem gen_buffer_layout (D : Deps) (g : goGen)
    (h : ∀ i ∈ g.interfaces, namedIface i.obj.type = true) :
    ∃ g' ret, gen D g = some (g', ret)
      ∧ g'.buf = g.buf ++ preambleOut D g g'.imports ++ declsOut D g
      ∧ genDecls D { g with imports := [], buf := [] }
          = some (declsOf D { g with imports := [], buf := [] })
      ∧ (declsOf D { g with imports := [], buf := [] }).buf = declsOut D g
      ∧ g'.imports = (declsOf D { g with imports := [], buf := [] }).imports := by
  have em := declsOf_Em D { g with imports := [], buf := [] }
  have hb : (declsOf D { g with imports := [], buf := [] }).buf = declsOut D g := by
    have := em.out
    simp only [emitted, List.length_nil, List.drop_zero] at this
    rw [this]
    exact declsOut_congr D g [] g.err []
  exact ⟨_, _, gen_eq D g h, rfl, genDecls_of_namedIface D _ h, hb, rfl⟩

/-- Witness of C9: a generator with text already in its buffer. -/
theorem gen_buffer_layout_witness :
    ∃ g' ret, gen (exampleDeps [helloPkg]) tripleGen = some (g', ret)
      ∧ g'.buf = tripleGen.buf ++ preambleOut (exampleDeps [helloPkg]) tripleGen g'.imports
          ++ declsOut (exampleDeps [helloPkg]) tripleGen
      ∧ genDecls (exampleDeps [helloPkg]) { tripleGen with imports := [], buf := [] }
          = some (declsOf (exampleDeps [helloPkg]) { tripleGen with imports := [], buf := [] })
      ∧ (declsOf (exampleDeps [helloPkg]) { tripleGen with imports := [], buf := [] }).buf
          = declsOut (exampleDeps [helloPkg]) tripleGen
      ∧ g'.imports
          = (declsOf (exampleDeps [helloPkg]) { tripleGen with imports := [], buf := [] }).imports :=
  gen_buffer_layout (exampleDeps [helloPkg]) tripleGen (fun _ hi => nomatch hi)

/-! ## C10 -/

/-- C10: when the interface objects are named interface types, gen succeeds; the
pass only appends to the aggregated error list; gen returns that list when it is
not empty and nil otherwise, so that, from a generator with no error, it returns a
failure if and only if an error was recorded during the pass. In both cases the
buffer receives the preamble and the whole body: the text of every struct,
interface, variable and function, each as it is emitted on its own, whatever
errors the other declarations recorded. -/
theorem gen_reports_errors (D : Deps) (g : goGen)
    (h : ∀ i ∈ g.interfaces, namedIface i.obj.type = true) :
    ∃ g' ret, gen D g = some (g', ret)
      ∧ g'.err = g.err ++ recorded g g'
      ∧ ret = (if g'.err = [] then none else some g'.err)
      ∧ (ret ≠ none ↔ g'.err ≠ [])
      ∧ (g.err = [] → (ret ≠ none ↔ recorded g g' ≠ []))
      ∧ g'.buf = g.buf ++ preambleOut D g g'.imports ++ declsOut D g := by
  have em := (declsOf_Em D { g with imports := [], buf := [] }).step
  obtain ⟨es, he, _⟩ := em.err
  have he' : (declsOf D { g with imports := [], buf := [] }).err = g.err ++ es := he
  refine ⟨_, _, gen_eq D g h, ?_, rfl, ?_, ?_, rfl⟩
  · simp [recorded, he']
  · by_cases hn : (declsOf D { g with imports := [], buf := [] }).err = [] <;> simp [hn]
  · intro hg
    have hr : recorded g { declsOf D { g with imports := [], buf := [] } with
        buf := g.buf
          ++ preambleOut D g (declsOf D { g with imports := [], buf := [] }).imports
          ++ declsOut D g } = es := by
      simp [recorded, he']
    rw [hr]
    have hes : (declsOf D { g with imports := [], buf := [] }).err = es := by
      rw [he', hg, List.nil_append]
    by_cases hn : es = [] <;> simp [hes, hn]

/-- Witness of C10: the function Triple records the arity diagnostic, gen returns
a failure, and the function Greetings is still emitted. -/
theorem gen_reports_errors_witness :
    (∃ g' ret, gen (exampleDeps [helloPkg]) tripleGen = some (g', ret)
      ∧ g'.err = tripleGen.err ++ recorded tripleGen g'
      ∧ ret = (if g'.err = [] then none else some g'.err)
      ∧ (ret ≠ none ↔ g'.err ≠ [])
      ∧ (tripleGen.err = [] → (ret ≠ none ↔ recorded tripleGen g' ≠ []))
      ∧ g'.buf = tripleGen.buf ++ preambleOut (exampleDeps [helloPkg]) tripleGen g'.imports
          ++ declsOut (exampleDeps [helloPkg]) tripleGen)
    ∧ (gen (exampleDeps [helloPkg]) tripleGen).map (fun r => r.2) = some (some [arityDiag])
    ∧ (⟨1, "hello.Greetings("⟩ : Chunk) ∈ declsOut (exampleDeps [helloPkg]) tripleGen :=
  ⟨gen_reports_errors (exampleDeps [helloPkg]) tripleGen (fun _ hi => nomatch hi),
    by decide, by decide⟩

/-! ## C11 -/

theorem genVar_emitted (D : Deps) (g : goGen) (o : Var) (hs : D.isSupported o.type = true) :
    emitted g (genVar D g o) = varAccessorsOut D g o := by
  unfold genVar
  simp only [hs, Bool.not_true, Bool.false_eq_true, if_false, pkgName_fst, cgoType_fst,
    Printf_pkgPrefix, Printf_pkg, cgoType_pkgPrefix, cgoType_pkg, Indent_pkg,
    Indent_pkgPrefix, Outdent_pkg, Outdent_pkgPrefix, genRead_pkg, genRead_pkgPrefix,
    pkgName_pkg, pkgName_pkgPrefix]
  have e := em_Printf (rfl : "\x7d\n" = _) (em_Outdent
    (em_Printf (rfl : "return _v\n" = _)
    (em_genWrite D "_v" "v" o.type .modeRetained
    (em_Printf (rfl : "v := " ++ (g.pkg.name ++ "." ++ o.name) ++ "\n" = _)
    (em_Indent
    (em_Printf (rfl : "func var_get" ++ g.pkgPrefix ++ "_" ++ o.name ++ "() C."
        ++ (D.cgoType o.type).1 ++ " \x7b\n" = _)
    (em_cgoType D o.type
    (em_Printf (rfl : "//export var_get" ++ g.pkgPrefix ++ "_" ++ o.name ++ "\n" = _)
    (em_Printf (rfl : "\x7d\n" = _) (em_Outdent
    (em_Printf (rfl : (g.pkg.name ++ "." ++ o.name) ++ " = _v\n" = _)
    (em_genRead D "_v" "v" o.type .modeRetained
    (em_Indent
    (em_Printf (rfl : "func var_set" ++ g.pkgPrefix ++ "_" ++ o.name ++ "(v C."
        ++ (D.cgoType o.type).1 ++ ") \x7b\n" = _)
    (em_cgoType D o.type
    (em_Printf (rfl : "//export var_set" ++ g.pkgPrefix ++ "_" ++ o.name ++ "\n" = _)
    (em_pkgName g.pkg (em_refl g))))))))))))))))))
  rw [e.out]
  simp [varAccessorsOut]

theorem genFunc_emitted (D : Deps) (g : goGen) (o : Func)
    (hs : D.isSigSupported o = true) :
    emitted g (genFunc D g o)
      = emitted g (genFuncSignature D g o "")
        ++ emitted (deep 1 g) (genFuncBody D (deep 1 g) o g.pkg.name)
        ++ [⟨g.indent, "\x7d\n\n"⟩] := by
  unfold genFunc
  simp only [hs, Bool.not_true, Bool.false_eq_true, if_false, pkgName_fst, Printf_pkg,
    Indent_pkg, genFuncSignature_pkg]
  have e := em_Printf (rfl : "\x7d\n\n" = "\x7d\n\n") (em_Outdent
    (em_genFuncBody D o g.pkg.name
    (em_pkgName g.pkg
    (em_Indent (em_genFuncSignature D o "" (em_refl g))))))
  rw [e.out]
  simp

theorem entryName_data (role pre owner member sfx : String) :
    (entryName role pre owner member sfx).data
      = role.data ++ pre.data ++ ['_'] ++ owner.data ++ ['_'] ++ member.data ++ sfx.data := by
  simp [entryName, String.data_append]

theorem entryName_suffix (role pre owner member sfx : String) :
    sfx.data <:+ (entryName role pre owner member sfx).data := by
  rw [entryName_data]
  exact List.suffix_append _ _

theorem export_entryName (pre owner member sfx rest : String) :
    "//export proxy" ++ pre ++ "_" ++ owner ++ "_" ++ member ++ sfx ++ rest
      = "//export " ++ entryName "proxy" pre owner member sfx ++ rest := by
  simp only [entryName, String.append_assoc]
  rfl

theorem func_entryName (pre owner member sfx rest : String) :
    "func proxy" ++ pre ++ "_" ++ owner ++ "_" ++ member ++ sfx ++ rest
      = "func " ++ entryName "proxy" pre owner member sfx ++ rest := by
  simp only [entryName, String.append_assoc]
  rfl

/-- C11 as stated fails for genVar: the accessors of the variable `V` of package
hello are exported as `var_sethello_V` and `var_gethello_V`. For no role and no
owner are these the names of the convention with the suffix `_Set` or `_Get`: the
two accessors differ in the role, not in a trailing suffix. -/
theorem genVar_accessors_without_suffix :
    (emitted helloGen (genVar (exampleDeps [helloPkg]) helloGen ⟨"V", .basic .Int32⟩)).map
        (fun c => c.text)
      = ["//export var_sethello_V\n", "func var_sethello_V(v C.int32_t) \x7b\n",
         "_v := int32(v)\n", "hello.V = _v\n", "\x7d\n",
         "//export var_gethello_V\n", "func var_gethello_V() C.int32_t \x7b\n",
         "v := hello.V\n", "_v := C.int32_t(v)\n", "return _v\n", "\x7d\n"]
    ∧ ∀ role owner : String,
        entryName role "hello" owner "V" "_Set" ≠ "var_sethello_V"
        ∧ entryName role "hello" owner "V" "_Get" ≠ "var_gethello_V" := by
  refine ⟨by decide, fun role owner => ⟨fun h => ?_, fun h => ?_⟩⟩
  · have := entryName_suffix role "hello" owner "V" "_Set"
    rw [h] at this
    revert this
    decide
  · have := entryName_suffix role "hello" owner "V" "_Get"
    rw [h] at this
    revert this
    decide

/-- C11, amended: the entry points emitted through genFuncSignature (by genFunc,
with an empty owner, and for the methods of a struct and of an interface, with the
name of the type as owner) are named `proxy<prefix>_<Owner>_<Member>`; the
accessors of a struct field are named `proxy<prefix>_<Owner>_<Field>_Set` and
`proxy<prefix>_<Owner>_<Field>_Get`; the accessors of a package variable are named
`var_set<prefix>_<Name>` and `var_get<prefix>_<Name>`, with no owner and no suffix.
In every case the export line names the function defined on the next line. -/
theorem entry_point_names (D : Deps) (g : goGen) :
    (∀ o : Func, D.isSigSupported o = true →
      ∃ rest, emitted g (genFunc D g o)
        = ⟨g.indent, "//export " ++ entryName "proxy" g.pkgPrefix "" o.name "" ++ "\n"⟩
          :: ⟨g.indent, "func " ++ entryName "proxy" g.pkgPrefix "" o.name "" ++ "("⟩ :: rest)
    ∧ (∀ (obj : TypeName) (m : Func), D.isSigSupported m = true →
      ∃ rest, emitted g (genStructMethod D obj g m)
        = ⟨g.indent, "//export " ++ entryName "proxy" g.pkgPrefix obj.name m.name "" ++ "\n"⟩
          :: ⟨g.indent, "func " ++ entryName "proxy" g.pkgPrefix obj.name m.name "" ++ "("⟩
          :: rest)
    ∧ (∀ (obj : TypeName) (m : Func), D.isSigSupported m = true →
      ∃ rest, emitted g (genInterfaceEntry D obj g m)
        = ⟨g.indent, "//export " ++ entryName "proxy" g.pkgPrefix obj.name m.name "" ++ "\n"⟩
          :: ⟨g.indent, "func " ++ entryName "proxy" g.pkgPrefix obj.name m.name "" ++ "("⟩
          :: rest)
    ∧ (∀ (obj : TypeName) (f : Var), D.isSupported f.type = true →
      ∃ mid rest, emitted g (genStructField D obj g f)
        = [⟨g.indent,
              "//export " ++ entryName "proxy" g.pkgPrefix obj.name f.name "_Set" ++ "\n"⟩,
            ⟨g.indent, "func " ++ entryName "proxy" g.pkgPrefix obj.name f.name "_Set"
              ++ "(refnum C.int32_t, v C." ++ (D.cgoType f.type).1 ++ ") \x7b\n"⟩]
          ++ mid
          ++ [⟨g.indent,
                "//export " ++ entryName "proxy" g.pkgPrefix obj.name f.name "_Get" ++ "\n"⟩,
              ⟨g.indent, "func " ++ entryName "proxy" g.pkgPrefix obj.name f.name "_Get"
                ++ "(refnum C.int32_t) C." ++ (D.cgoType f.type).1 ++ " \x7b\n"⟩]
          ++ rest)
    ∧ (∀ o : Var, D.isSupported o.type = true →
      ∃ mid rest, emitted g (genVar D g o)
        = [⟨g.indent, "//export " ++ ("var_set" ++ g.pkgPrefix ++ "_" ++ o.name) ++ "\n"⟩,
            ⟨g.indent, "func " ++ ("var_set" ++ g.pkgPrefix ++ "_" ++ o.name)
              ++ "(v C." ++ (D.cgoType o.type).1 ++ ") \x7b\n"⟩]
          ++ mid
          ++ [⟨g.indent, "//export " ++ ("var_get" ++ g.pkgPrefix ++ "_" ++ o.name) ++ "\n"⟩,
              ⟨g.indent, "func " ++ ("var_get" ++ g.pkgPrefix ++ "_" ++ o.name)
                ++ "() C." ++ (D.cgoType o.type).1 ++ " \x7b\n"⟩]
          ++ rest) := by
  have hsig : ∀ (o : Func) (objName : String),
      ∃ rest, emitted g (genFuncSignature D g o objName)
        = ⟨g.indent, "//export " ++ entryName "proxy" g.pkgPrefix objName o.name "" ++ "\n"⟩
          :: ⟨g.indent, "func " ++ entryName "proxy" g.pkgPrefix objName o.name "" ++ "("⟩
          :: rest := by
    intro o objName
    obtain ⟨rest, hr⟩ := genFuncSignature_head D g o objName
    refine ⟨rest, ?_⟩
    rw [hr, ← export_entryName, ← func_entryName]
    simp
  refine ⟨?_, ?_, ?_, ?_, ?_⟩
  · intro o hs
    obtain ⟨rest, hr⟩ := hsig o ""
    rw [genFunc_emitted D g o hs, hr]
    simp only [List.cons_append, List.append_assoc]
    exact ⟨_, rfl⟩
  · intro obj m hs
    obtain ⟨rest, hr⟩ := hsig m obj.name
    rw [genStructMethod_emitted D obj g m hs, hr]
    simp only [List.cons_append, List.append_assoc]
    exact ⟨_, rfl⟩
  · intro obj m hs
    obtain ⟨rest, hr⟩ := hsig m obj.name
    rw [genInterfaceEntry_emitted D obj g m hs, hr]
    simp only [List.cons_append, List.append_assoc]
    exact ⟨_, rfl⟩
  · intro obj f hs
    have h1 : "//export " ++ entryName "proxy" g.pkgPrefix obj.name f.name "_Set" ++ "\n"
        = "//export proxy" ++ g.pkgPrefix ++ "_" ++ obj.name ++ "_" ++ f.name ++ "_Set\n" := by
      apply String.ext
      simp [entryName, String.data_append]
    have h2 : "func " ++ entryName "proxy" g.pkgPrefix obj.name f.name "_Set"
          ++ "(refnum C.int32_t, v C." ++ (D.cgoType f.type).1 ++ ") \x7b\n"
        = "func proxy" ++ g.pkgPrefix ++ "_" ++ obj.name ++ "_" ++ f.name
          ++ "_Set(refnum C.int32_t, v C." ++ (D.cgoType f.type).1 ++ ") \x7b\n" := by
      apply String.ext
      simp [entryName, String.data_append]
    have h3 : "//export " ++ entryName "proxy" g.pkgPrefix obj.name f.name "_Get" ++ "\n"
        = "//export proxy" ++ g.pkgPrefix ++ "_" ++ obj.name ++ "_" ++ f.name ++ "_Get\n" := by
      apply String.ext
      simp [entryName, String.data_append]
    have h4 : "func " ++ entryName "proxy" g.pkgPrefix obj.name f.name "_Get"
          ++ "(refnum C.int32_t) C." ++ (D.cgoType f.type).1 ++ " \x7b\n"
        = "func proxy" ++ g.pkgPrefix ++ "_" ++ obj.name ++ "_" ++ f.name
          ++ "_Get(refnum C.int32_t) C." ++ (D.cgoType f.type).1 ++ " \x7b\n" := by
      apply String.ext
      simp [entryName, String.data_append]
    rw [genStructField_emitted D obj g f hs, h1, h2, h3, h4]
    exact ⟨⟨g.indent + 1, "ref := _seq.FromRefNum(int32(refnum))\n"⟩
        :: (readOut D (deep 1 g) "_v" "v" f.type .modeRetained
          ++ [⟨g.indent + 1, "ref.Get().(*" ++ g.pkg.name ++ "." ++ obj.name ++ ")." ++ f.name
                ++ " = _v\n"⟩,
              ⟨g.indent, "\x7d\n\n"⟩]),
      [⟨g.indent + 1, "ref := _seq.FromRefNum(int32(refnum))\n"⟩,
        ⟨g.indent + 1, "v := ref.Get().(*" ++ g.pkg.name ++ "." ++ obj.name ++ ")." ++ f.name
          ++ "\n"⟩]
        ++ writeOut D (deep 1 g) "_v" "v" f.type .modeRetained
        ++ [⟨g.indent + 1, "return _v\n"⟩, ⟨g.indent, "\x7d\n\n"⟩],
      by simp [accessorsOut]⟩
  · intro o hs
    have h1 : "//export " ++ ("var_set" ++ g.pkgPrefix ++ "_" ++ o.name) ++ "\n"
        = "//export var_set" ++ g.pkgPrefix ++ "_" ++ o.name ++ "\n" := by
      apply String.ext
      simp [String.data_append]
    have h2 : "func " ++ ("var_set" ++ g.pkgPrefix ++ "_" ++ o.name)
          ++ "(v C." ++ (D.cgoType o.type).1 ++ ") \x7b\n"
        = "func var_set" ++ g.pkgPrefix ++ "_" ++ o.name ++ "(v C." ++ (D.cgoType o.type).1
          ++ ") \x7b\n" := by
      apply String.ext
      simp [String.data_append]
    have h3 : "//export " ++ ("var_get" ++ g.pkgPrefix ++ "_" ++ o.name) ++ "\n"
        = "//export var_get" ++ g.pkgPrefix ++ "_" ++ o.name ++ "\n" := by
      apply String.ext
      simp [String.data_append]
    have h4 : "func " ++ ("var_get" ++ g.pkgPrefix ++ "_" ++ o.name)
          ++ "() C." ++ (D.cgoType o.type).1 ++ " \x7b\n"
        = "func var_get" ++ g.pkgPrefix ++ "_" ++ o.name ++ "() C." ++ (D.cgoType o.type).1
          ++ " \x7b\n" := by
      apply String.ext
      simp [String.data_append]
    rw [genVar_emitted D g o hs, h1, h2, h3, h4]
    exact ⟨readOut D (deep 1 g) "_v" "v" o.type .modeRetained
          ++ [⟨g.indent + 1, g.pkg.name ++ "." ++ o.name ++ " = _v\n"⟩, ⟨g.indent, "\x7d\n"⟩],
      [⟨g.indent + 1, "v := " ++ (g.pkg.name ++ "." ++ o.name) ++ "\n"⟩]
        ++ writeOut D (deep 1 g) "_v" "v" o.type .modeRetained
        ++ [⟨g.indent + 1, "return _v\n"⟩, ⟨g.indent, "\x7d\n"⟩],
      by simp [varAccessorsOut]⟩

/-- Witness of the amended C11: the entry point of the function Greetings. -/
theorem entry_point_names_witness :
    ∃ rest, emitted helloGen (genFunc (exampleDeps [helloPkg]) helloGen Greetings)
      = ⟨0, "//export proxyhello__Greetings\n"⟩ :: ⟨0, "func proxyhello__Greetings("⟩ :: rest :=
  (entry_point_names (exampleDeps [helloPkg]) helloGen).1 Greetings (by decide)

/-! ## C12 -/

theorem flatten_sepOf_pos {α β : Type} (sep : β) (c : Nat → α → β) :
    ∀ (xs : List α) (i : Nat), 0 < i →
      ((xs.enumFrom i).map (fun ia => (if ia.1 > 0 then [sep] else []) ++ [c ia.1 ia.2])).flatten
        = (((xs.enumFrom i).map (fun ia => c ia.1 ia.2)).map (fun b => [sep, b])).flatten := by
  intro xs
  induction xs with
  | nil => intro i _; rfl
  | cons a as ih =>
    intro i hi
    simp only [List.enumFrom_cons, List.map_cons, List.flatten_cons, ih (i + 1) (Nat.succ_pos i)]
    simp [hi]

theorem flatten_sepOf_zero {α β : Type} (sep : β) (c : Nat → α → β) (xs : List α) :
    ((xs.enumFrom 0).map (fun ia => (if ia.1 > 0 then [sep] else []) ++ [c ia.1 ia.2])).flatten
      = ((xs.enumFrom 0).map (fun ia => c ia.1 ia.2)).intersperse sep := by
  cases xs with
  | nil => rfl
  | cons a as =>
    simp only [List.enumFrom_cons, List.map_cons, List.flatten_cons, intersperse_cons_flatten,
      flatten_sepOf_pos sep c as (0 + 1) (Nat.succ_pos 0)]
    simp

/-- The text of a loop that prints one text for each element, with `", "` before
every element but the first. -/
theorem sepLoopOf_emitted {α : Type} (body : goGen → Nat → α → goGen)
    (f : goGen → Nat → α → String)
    (hstep : ∀ x i a, Step anyErr 0 x (body x i a))
    (hout : ∀ x i a, emitted x (body x i a)
      = (if i > 0 then [⟨x.indent, ", "⟩] else []) ++ [⟨x.indent, f x i a⟩])
    (hf : ∀ g x i a, Sim g x → f x i a = f g i a) (xs : List α) (g : goGen) :
    emitted g (forIdx body 0 xs g)
      = commaSep g.indent (xs.enum.map (fun ia => f g ia.1 ia.2)) := by
  rw [forIdx_emitted body hstep
    (fun g x i a hs => by rw [hout x i a, hout g i a, hs.indent, hf g x i a hs]) g xs 0 g
    (step_refl _ g)]
  have e : (xs.enumFrom 0).map (fun ia => emitted g (body g ia.1 ia.2))
      = (xs.enumFrom 0).map (fun ia => (if ia.1 > 0 then [⟨g.indent, ", "⟩] else [])
          ++ [(⟨g.indent, f g ia.1 ia.2⟩ : Chunk)]) := by
    apply List.map_congr_left
    intro ia _
    exact hout g ia.1 ia.2
  rw [e, flatten_sepOf_zero (⟨g.indent, ", "⟩ : Chunk) (fun i a => ⟨g.indent, f g i a⟩)]
  simp [commaSep, List.enum, List.map_map, Function.comp_def]

theorem typeString_buf (D : Deps) (g : goGen) (t : Ty) : (typeString D g t).2.buf = g.buf := by
  have named : ∀ (n : String) (p : Option Package) (u : Ty) (ms : List (String × Ty)),
      (typeString D g (.named n p u ms)).2.buf = g.buf := by
    intro n p u ms
    cases p with
    | none => simp [Bind.typeString]
    | some q =>
      by_cases hv : q ∈ g.allPkg <;> cases u <;> simp [Bind.typeString, validPkg, hv]
  cases t with
  | named n p u ms => exact named n p u ms
  | pointer e =>
    cases e with
    | named n p u ms => simpa [Bind.typeString] using named n p u ms
    | _ => simp [Bind.typeString]
  | _ => simp [Bind.typeString]

theorem em_typeString {k : Nat} {g x : goGen} {out : List Chunk} (D : Deps) (t : Ty)
    (h : Em k g x out) : Em k g (typeString D x t).2 out :=
  em_same (step_typeString anyErr_intro D t (step_refl _ x)) (typeString_buf D x t) h

theorem em_ite {k : Nat} {g x y : goGen} {o₁ o₂ : List Chunk} (c : Prop) [Decidable c]
    (h₁ : Em k g x o₁) (h₂ : Em k g y o₂) :
    Em k g (if c then x else y) (if c then o₁ else o₂) := by
  split <;> assumption

theorem proxyParams_emitted (D : Deps) (params : List Var) (g : goGen) :
    emitted g (proxyParams D params g)
      = commaSep g.indent (params.enum.map (fun ip =>
          "param_" ++ D.paramName params ip.1 ++ " "
            ++ typeStringText D g.pkg g.allPkg ip.2.type)) := by
  unfold proxyParams
  refine sepLoopOf_emitted _
    (fun g i (p : Var) => "param_" ++ D.paramName params i ++ " "
      ++ typeStringText D g.pkg g.allPkg p.type) ?_ ?_ ?_ params g
  · intro x i a
    dsimp only
    apply step_Printf
    apply step_typeString anyErr_intro
    split
    · exact step_one_Printf _ x _
    · exact step_refl _ x
  · intro x i a
    dsimp only
    split <;> simp [emitted, typeString_buf, typeString_fst_eq]
  · intro g x i a hs
    dsimp only
    rw [hs.pkg, hs.allPkg]

theorem flatten_map_single {α β : Type} (f : α → β) (l : List α) :
    (l.map (fun a => [f a])).flatten = l.map f := by
  induction l with
  | nil => rfl
  | cons a as ih => simp [ih]

theorem proxyArgs_emitted (D : Deps) (params : List Var) (g : goGen) :
    emitted g (proxyArgs D params g)
      = params.enum.map (fun ip => ⟨g.indent, ", _param_" ++ D.paramName params ip.1⟩) := by
  unfold proxyArgs
  rw [forIdx_emitted
    (fun g i (_ : Var) => g.Printf (", _param_" ++ D.paramName params i))
    (fun x i p => step_one_Printf _ x _)
    (fun g x i p hs => by rw [emitted_Printf, emitted_Printf, hs.indent]) g params 0 g
    (step_refl _ g)]
  simp only [emitted_Printf, List.enum]
  exact flatten_map_single
    (fun ia : Nat × Var => (⟨g.indent, ", _param_" ++ D.paramName params ia.1⟩ : Chunk)) _

theorem proxyEncodeParams_emitted (D : Deps) (params : List Var) (g : goGen) :
    emitted g (proxyEncodeParams D params g)
      = (params.enum.map (fun ip =>
          writeOut D g ("_param_" ++ D.paramName params ip.1)
            ("param_" ++ D.paramName params ip.1) ip.2.type .modeTransient)).flatten := by
  unfold proxyEncodeParams
  dsimp only
  rw [forIdx_emitted
    (fun g i (p : Var) => genWrite D g ("_" ++ ("param_" ++ D.paramName params i))
      ("param_" ++ D.paramName params i) p.type .modeTransient)
    (fun x i p => step_genWrite anyErr_intro D (anyErr_cgo D) _ _ _ _ (step_refl _ x))
    (fun g x i p hs => co_emitted_eq (co_genWrite D _ _ _ _ (co_refl hs))) g params 0 g
    (step_refl _ g)]
  simp only [underscore_param, writeOut, List.enum]

theorem proxyDecodeResults_emitted (D : Deps) (res : List Var) (g : goGen) :
    emitted g (proxyDecodeResults D res g)
      = (res.enum.map (fun ir =>
          readOut D g ("res_" ++ toString ir.1) ("res.r" ++ toString ir.1) ir.2.type
            .modeRetained)).flatten := by
  unfold proxyDecodeResults
  rw [forIdx_emitted
    (fun g i (r : Var) => genRead D g ("res_" ++ toString i) ("res.r" ++ toString i) r.type
      .modeRetained)
    (fun x i p => step_genRead anyErr_intro D _ _ _ _ (step_refl _ x))
    (fun g x i p hs => co_emitted_eq (co_genRead D _ _ _ _ (co_refl hs))) g res 0 g
    (step_refl _ g)]
  simp only [readOut, List.enum]

theorem em_proxyParams {k : Nat} {g x : goGen} {out : List Chunk} (D : Deps)
    (params : List Var) (h : Em k g x out) :
    Em k g (proxyParams D params x) (out ++ commaSep (g.indent + k) (params.enum.map (fun ip =>
      "param_" ++ D.paramName params ip.1 ++ " "
        ++ typeStringText D g.pkg g.allPkg ip.2.type))) := by
  have := em_op (fun y => Bind.proxyParams D params y)
    (fun y => step_proxyParams D params (step_refl _ y))
    (fun _ _ hc => co_proxyParams D params hc) h
  rwa [proxyParams_emitted] at this

theorem em_proxyArgs {k : Nat} {g x : goGen} {out : List Chunk} (D : Deps)
    (params : List Var) (h : Em k g x out) :
    Em k g (proxyArgs D params x) (out ++ params.enum.map (fun ip =>
      ⟨g.indent + k, ", _param_" ++ D.paramName params ip.1⟩)) := by
  have := em_op (fun y => Bind.proxyArgs D params y)
    (fun y => step_proxyArgs D params (step_refl _ y))
    (fun _ _ hc => co_proxyArgs D params hc) h
  rwa [proxyArgs_emitted] at this

theorem em_proxyEncodeParams {k : Nat} {g x : goGen} {out : List Chunk} (D : Deps)
    (params : List Var) (h : Em k g x out) :
    Em k g (proxyEncodeParams D params x) (out ++ (params.enum.map (fun ip =>
      writeOut D (deep k g) ("_param_" ++ D.paramName params ip.1)
        ("param_" ++ D.paramName params ip.1) ip.2.type .modeTransient)).flatten) := by
  have := em_op (fun y => Bind.proxyEncodeParams D params y)
    (fun y => step_proxyEncodeParams D params (step_refl _ y))
    (fun _ _ hc => co_proxyEncodeParams D params hc) h
  rwa [proxyEncodeParams_emitted] at this

theorem em_proxyDecodeResults {k : Nat} {g x : goGen} {out : List Chunk} (D : Deps)
    (res : List Var) (h : Em k g x out) :
    Em k g (proxyDecodeResults D res x) (out ++ (res.enum.map (fun ir =>
      readOut D (deep k g) ("res_" ++ toString ir.1) ("res.r" ++ toString ir.1) ir.2.type
        .modeRetained)).flatten) := by
  have := em_op (fun y => Bind.proxyDecodeResults D res y)
    (fun y => step_proxyDecodeResults D res (step_refl _ y))
    (fun _ _ hc => co_proxyDecodeResults D res hc) h
  rwa [proxyDecodeResults_emitted] at this

theorem genInterfaceProxyMethod_emitted (D : Deps) (obj : TypeName) (g : goGen)
    (m : Func) (hs : D.isSigSupported m = true) (hv : arityViolated m.results = false) :
    emitted g (genInterfaceProxyMethod D obj g m) = proxyMethodOut D g obj m := by
  have e1 := em_Printf (rfl : ") " = _) (em_proxyParams D m.params
    (em_Printf (rfl : "func (p *proxy" ++ g.pkgPrefix ++ "_" ++ obj.name ++ ") " ++ m.name
      ++ "(" = _) (em_refl g)))
  have e2 := em_Indent (em_Printf (rfl : " \x7b\n" = _)
    (em_ite (m.results.length = 1)
      (em_Printf (rfl : D.Sprintf (typeStringText D g.pkg g.allPkg
          (m.results.getD 0 default).type) = _)
        (em_typeString D (m.results.getD 0 default).type e1))
      (em_ite (m.results.length = 2)
        (em_Printf (rfl : "(" ++ typeStringText D g.pkg g.allPkg
            (m.results.getD 0 default).type ++ ", error)" = _)
          (em_typeString D (m.results.getD 0 default).type e1))
        e1)))
  have e3 := em_Printf (rfl : ")\n" = _) (em_proxyArgs D m.params
    (em_Printf (rfl : "C.cproxy" ++ g.pkgPrefix ++ "_" ++ obj.name ++ "_" ++ m.name
        ++ "(C.int32_t(p.Bind_Num)" = _)
      (em_ite (m.results.length > 0)
        (em_Printf (rfl : "res := " = _) (em_proxyEncodeParams D m.params e2))
        (em_proxyEncodeParams D m.params e2))))
  have e4 := em_Printf (rfl : "\x7d\n\n" = _) (em_Outdent
    (em_ite (m.results.length > 0)
      (em_ite (m.results.length = 1)
        (em_Printf (rfl : "return " ++ "_res" ++ "\n" = _)
          (em_genRead D "_res" "res" (m.results.getD 0 default).type .modeRetained e3))
        (em_Printf (rfl : "return " ++ String.intercalate ", "
            ((List.range m.results.length).map (fun i => "res_" ++ toString i)) ++ "\n" = _)
          (em_proxyDecodeResults D m.results e3)))
      e3))
  unfold genInterfaceProxyMethod
  simp only [hs, hv, Bool.not_true, Bool.false_eq_true, if_false,
    typeString_fst_eq, Printf_pkg, Printf_allPkg, Printf_pkgPrefix,
    proxyParams_pkg, proxyParams_allPkg, proxyParams_pkgPrefix,
    proxyEncodeParams_pkgPrefix, typeString_pkgPrefix, Indent_pkgPrefix,
    apply_ite goGen.pkgPrefix, ite_self]
  rw [e4.out]
  unfold proxyMethodOut
  split_ifs <;> first | omega | simp [indexed]

/-- C12: for an implementable interface and a callable method of it with a
supported signature that passes the arity rule, genInterface emits the method of
the reverse proxy: its text, as genInterfaceProxyMethod emits it, is a segment of
the text of genInterface, and it is the header, then the encoding of each
parameter in declared order in Transient mode, then exactly one call of
`C.cproxy<prefix>_<Iface>_<Method>` with `p.Bind_Num` first and the encoded
parameters in declared order, then the decoding of each result in Retained mode,
then the return of the decoded results in declared order. -/
theorem genInterface_reverse_proxy_method (D : Deps) (g : goGen) (name n : String)
    (p : Option Package) (ms mm : List (String × Ty)) (m : Func)
    (hi : (D.makeIfaceSummary (.iface ms)).implementable = true)
    (hm : m ∈ (D.makeIfaceSummary (.iface ms)).callable)
    (hs : D.isSigSupported m = true) (hv : arityViolated m.results = false) :
    ∃ g', genInterface D g ⟨name, .named n p (.iface ms) mm⟩ = some g'
      ∧ emitted g (genInterfaceProxyMethod D ⟨name, .named n p (.iface ms) mm⟩ g m)
          = proxyMethodOut D g ⟨name, .named n p (.iface ms) mm⟩ m
      ∧ proxyMethodOut D g ⟨name, .named n p (.iface ms) mm⟩ m <:+: emitted g g' := by
  refine ⟨genInterfaceBody D g ⟨name, .named n p (.iface ms) mm⟩ (.iface ms), rfl,
    genInterfaceProxyMethod_emitted D _ g m hs hv, ?_⟩
  rw [genInterfaceBody_emitted, if_pos hi, ← genInterfaceProxyMethod_emitted D _ g m hs hv]
  refine List.IsInfix.trans ?_ (List.suffix_append _ _).isInfix
  unfold proxyOut
  refine List.IsInfix.trans ?_ (List.suffix_append _ _).isInfix
  exact List.infix_of_mem_flatten (List.mem_map_of_mem _ hm)

/-- Witness of C12: the method Greet of the interface Greeter of package hello. -/
theorem genInterface_reverse_proxy_method_witness :
    (proxyMethodOut (exampleDeps [helloPkg]) helloGen ⟨"Greeter", Greeter⟩ Greet).map
        (fun c => c.text)
      = ["func (p *proxyhello_Greeter) Greet(", "param_name string", ") ", "(string, error)",
         " \x7b\n", "_param_name := encodeString(param_name)\n", "res := ",
         "C.cproxyhello_Greeter_Greet(C.int32_t(p.Bind_Num)", ", _param_name", ")\n",
         "res_0 := decodeString(res.r0)\n", "res_1_str := decodeString(res.r1)\n",
         "res_1 := toError(res_1_str)\n", "return res_0, res_1\n", "\x7d\n\n"]
    ∧ ∃ g', genInterface (exampleDeps [helloPkg]) helloGen ⟨"Greeter", Greeter⟩ = some g'
      ∧ emitted helloGen
          (genInterfaceProxyMethod (exampleDeps [helloPkg]) ⟨"Greeter", Greeter⟩ helloGen Greet)
          = proxyMethodOut (exampleDeps [helloPkg]) helloGen ⟨"Greeter", Greeter⟩ Greet
      ∧ proxyMethodOut (exampleDeps [helloPkg]) helloGen ⟨"Greeter", Greeter⟩ Greet
          <:+: emitted helloGen g' :=
  ⟨by decide,
    genInterface_reverse_proxy_method (exampleDeps [helloPkg]) helloGen "Greeter" "Greeter"
      (some helloPkg) _ [] Greet (by decide) (List.mem_singleton.mpr rfl) (by decide)
      (by decide)⟩

/-! ## C13 -/

theorem readOut_byteSlice (D : Deps) (g : goGen) (toVar fromVar : String) (mode : varMode) :
    readOut D g toVar fromVar (.slice (.basic .Uint8)) mode
      = [⟨g.indent, toVar ++ " := toSlice(" ++ fromVar ++ ", "
          ++ boolStr (decide (mode = .modeRetained)) ++ ")\n"⟩] := by
  simp [readOut, genRead, isErrorType, genReadSwitch, emitted]

theorem writeOut_byteSlice (D : Deps) (g : goGen) (toVar fromVar : String) (mode : varMode) :
    writeOut D g toVar fromVar (.slice (.basic .Uint8)) mode
      = [⟨g.indent, toVar ++ " := fromSlice(" ++ fromVar ++ ", "
          ++ boolStr (decide (mode = .modeRetained)) ++ ")\n"⟩] := by
  simp [writeOut, genWrite, isErrorType, genWriteSwitch, emitted]

/-- C13: for a struct field and for a package variable of a supported type,
exactly one setter and one getter are emitted; the setter decodes the incoming
value `v` into `_v` in Retained mode and assigns it, the getter reads the member
into `v`, encodes it into `_v` in Retained mode and returns it. For a member of
type `[]byte` the setter decodes with `toSlice(v, true)` and the getter encodes
with `fromSlice(v, true)`. -/
theorem accessors_use_retained_mode (D : Deps) (g : goGen) :
    (∀ (obj : TypeName) (f : Var), D.isSupported f.type = true →
      emitted g (genStructField D obj g f)
        = [⟨g.indent, "//export proxy" ++ g.pkgPrefix ++ "_" ++ obj.name ++ "_" ++ f.name
              ++ "_Set\n"⟩,
            ⟨g.indent, "func proxy" ++ g.pkgPrefix ++ "_" ++ obj.name ++ "_" ++ f.name
              ++ "_Set(refnum C.int32_t, v C." ++ (D.cgoType f.type).1 ++ ") \x7b\n"⟩,
            ⟨g.indent + 1, "ref := _seq.FromRefNum(int32(refnum))\n"⟩]
          ++ readOut D (deep 1 g) "_v" "v" f.type .modeRetained
          ++ [⟨g.indent + 1, "ref.Get().(*" ++ g.pkg.name ++ "." ++ obj.name ++ ")." ++ f.name
                ++ " = _v\n"⟩,
              ⟨g.indent, "\x7d\n\n"⟩,
              ⟨g.indent, "//export proxy" ++ g.pkgPrefix ++ "_" ++ obj.name ++ "_" ++ f.name
                ++ "_Get\n"⟩,
              ⟨g.indent, "func proxy" ++ g.pkgPrefix ++ "_" ++ obj.name ++ "_" ++ f.name
                ++ "_Get(refnum C.int32_t) C." ++ (D.cgoType f.type).1 ++ " \x7b\n"⟩,
              ⟨g.indent + 1, "ref := _seq.FromRefNum(int32(refnum))\n"⟩,
              ⟨g.indent + 1, "v := ref.Get().(*" ++ g.pkg.name ++ "." ++ obj.name ++ ")."
                ++ f.name ++ "\n"⟩]
          ++ writeOut D (deep 1 g) "_v" "v" f.type .modeRetained
          ++ [⟨g.indent + 1, "return _v\n"⟩, ⟨g.indent, "\x7d\n\n"⟩])
    ∧ (∀ o : Var, D.isSupported o.type = true →
      emitted g (genVar D g o)
        = [⟨g.indent, "//export var_set" ++ g.pkgPrefix ++ "_" ++ o.name ++ "\n"⟩,
            ⟨g.indent, "func var_set" ++ g.pkgPrefix ++ "_" ++ o.name ++ "(v C."
              ++ (D.cgoType o.type).1 ++ ") \x7b\n"⟩]
          ++ readOut D (deep 1 g) "_v" "v" o.type .modeRetained
          ++ [⟨g.indent + 1, g.pkg.name ++ "." ++ o.name ++ " = _v\n"⟩,
              ⟨g.indent, "\x7d\n"⟩,
              ⟨g.indent, "//export var_get" ++ g.pkgPrefix ++ "_" ++ o.name ++ "\n"⟩,
              ⟨g.indent, "func var_get" ++ g.pkgPrefix ++ "_" ++ o.name ++ "() C."
                ++ (D.cgoType o.type).1 ++ " \x7b\n"⟩,
              ⟨g.indent + 1, "v := " ++ (g.pkg.name ++ "." ++ o.name) ++ "\n"⟩]
          ++ writeOut D (deep 1 g) "_v" "v" o.type .modeRetained
          ++ [⟨g.indent + 1, "return _v\n"⟩, ⟨g.indent, "\x7d\n"⟩])
    ∧ (∀ x : goGen,
        readOut D x "_v" "v" (.slice (.basic .Uint8)) .modeRetained
          = [⟨x.indent, "_v := toSlice(v, true)\n"⟩]
        ∧ writeOut D x "_v" "v" (.slice (.basic .Uint8)) .modeRetained
          = [⟨x.indent, "_v := fromSlice(v, true)\n"⟩]) := by
  refine ⟨fun obj f hs => ?_, fun o hs => ?_, fun x => ⟨?_, ?_⟩⟩
  · rw [genStructField_emitted D obj g f hs]
    rfl
  · rw [genVar_emitted D g o hs]
    rfl
  · rw [readOut_byteSlice]
    rfl
  · rw [writeOut_byteSlice]
    rfl

/-- Witness of C13: the field `Data []byte` of the struct Blob of package hello. -/
theorem accessors_use_retained_mode_witness :
    (emitted helloGen (genStructField (exampleDeps [helloPkg]) ⟨"Blob", Blob⟩ helloGen
        ⟨"Data", .slice (.basic .Uint8)⟩)).map (fun c => c.text)
      = ["//export proxyhello_Blob_Data_Set\n",
         "func proxyhello_Blob_Data_Set(refnum C.int32_t, v C.nbyteslice) \x7b\n",
         "ref := _seq.FromRefNum(int32(refnum))\n",
         "_v := toSlice(v, true)\n",
         "ref.Get().(*hello.Blob).Data = _v\n",
         "\x7d\n\n",
         "//export proxyhello_Blob_Data_Get\n",
         "func proxyhello_Blob_Data_Get(refnum C.int32_t) C.nbyteslice \x7b\n",
         "ref := _seq.FromRefNum(int32(refnum))\n",
         "v := ref.Get().(*hello.Blob).Data\n",
         "_v := fromSlice(v, true)\n",
         "return _v\n",
         "\x7d\n\n"] := by
  rw [(accessors_use_retained_mode (exampleDeps [helloPkg]) helloGen).1 ⟨"Blob", Blob⟩
    ⟨"Data", .slice (.basic .Uint8)⟩ (by decide)]
  decide

/-! ## C14 -/

/-- C14: for the error type, genWrite declares the intermediate string
`<toVar>_str`, sets it to `""` when the error is nil and to its `Error()` message
otherwise, and then does what genWrite does for the type `string` from that
intermediate, in the same mode; genRead does what genRead does for the type
`string` into `<toVar>_str`, in the same mode, and then emits one conversion
`toError`. Neither records an error. -/
theorem error_marshalled_as_string (D : Deps) (g : goGen) (toVar fromVar : String) (t : Ty)
    (mode : varMode) (h : isErrorType t = true) :
    genWrite D g toVar fromVar t mode
        = genWrite D
            ((((((g.Printf ("var " ++ toVar ++ "_str string\n")).Printf
              ("if " ++ fromVar ++ " == nil \x7b\n")).Printf
              ("    " ++ toVar ++ "_str = \"\"\n")).Printf
              "\x7d else \x7b\n").Printf
              ("    " ++ toVar ++ "_str = " ++ fromVar ++ ".Error()\n")).Printf
              "\x7d\n")
            toVar (toVar ++ "_str") stringType mode
    ∧ writeOut D g toVar fromVar t mode
        = [⟨g.indent, "var " ++ toVar ++ "_str string\n"⟩,
            ⟨g.indent, "if " ++ fromVar ++ " == nil \x7b\n"⟩,
            ⟨g.indent, "    " ++ toVar ++ "_str = \"\"\n"⟩,
            ⟨g.indent, "\x7d else \x7b\n"⟩,
            ⟨g.indent, "    " ++ toVar ++ "_str = " ++ fromVar ++ ".Error()\n"⟩,
            ⟨g.indent, "\x7d\n"⟩]
          ++ writeOut D g toVar (toVar ++ "_str") stringType mode
    ∧ writeOut D g toVar (toVar ++ "_str") stringType mode
        = [⟨g.indent, toVar ++ " := encodeString(" ++ (toVar ++ "_str") ++ ")\n"⟩]
    ∧ genRead D g toVar fromVar t mode
        = (genRead D g (toVar ++ "_str") fromVar stringType mode).Printf
            (toVar ++ " := toError(" ++ toVar ++ "_str)\n")
    ∧ readOut D g toVar fromVar t mode
        = readOut D g (toVar ++ "_str") fromVar stringType mode
          ++ [⟨g.indent, toVar ++ " := toError(" ++ toVar ++ "_str)\n"⟩]
    ∧ readOut D g (toVar ++ "_str") fromVar stringType mode
        = [⟨g.indent, toVar ++ "_str" ++ " := decodeString(" ++ fromVar ++ ")\n"⟩]
    ∧ recorded g (genWrite D g toVar fromVar t mode) = []
    ∧ recorded g (genRead D g toVar fromVar t mode) = [] := by
  have hs : isErrorType (Ty.basic BasicKind.String) = false := rfl
  refine ⟨?_, ?_, ?_, ?_, ?_, ?_, ?_, ?_⟩
  · simp [genWrite, h, hs, stringType]
  · simp [writeOut, genWrite, h, hs, genWriteSwitch, stringType, emitted]
  · simp [writeOut, genWrite, hs, genWriteSwitch, stringType, emitted]
  · simp [genRead, h, hs, stringType]
  · simp [readOut, genRead, h, hs, genReadSwitch, stringType, emitted]
  · simp [readOut, genRead, hs, genReadSwitch, stringType, emitted]
  · simp [recorded, genWrite, h, genWriteSwitch, stringType]
  · simp [recorded, genRead, h, genReadSwitch, stringType]

/-- Witness of C14: the predeclared type `error`, as a result encoded into `_res_1`
and as a result decoded into `res_1`. -/
theorem error_marshalled_as_string_witness :
    (writeOut (exampleDeps [helloPkg]) helloGen "_res_1" "res_1" errorType .modeRetained).map
        (fun c => c.text)
      = ["var _res_1_str string\n", "if res_1 == nil \x7b\n", "    _res_1_str = \"\"\n",
         "\x7d else \x7b\n", "    _res_1_str = res_1.Error()\n", "\x7d\n",
         "_res_1 := encodeString(_res_1_str)\n"]
    ∧ (readOut (exampleDeps [helloPkg]) helloGen "res_1" "res.r1" errorType .modeRetained).map
        (fun c => c.text)
      = ["res_1_str := decodeString(res.r1)\n", "res_1 := toError(res_1_str)\n"] := by
  have h := error_marshalled_as_string (exampleDeps [helloPkg]) helloGen "_res_1" "res_1"
    errorType .modeRetained rfl
  have h' := error_marshalled_as_string (exampleDeps [helloPkg]) helloGen "res_1" "res.r1"
    errorType .modeRetained rfl
  refine ⟨?_, ?_⟩
  · rw [h.2.1, h.2.2.1]
    decide
  · rw [h'.2.2.2.2.1, h'.2.2.2.2.2.1]
    decide

/-! ## C16 -/

theorem genWriteSwitch_rejected (D : Deps) (g : goGen) (toVar fromVar : String) (t : Ty)
    (mode : varMode) (h : rejectedForm t = true) :
    ∃ f a, genWriteSwitch D g toVar fromVar t mode = g.errorf f a := by
  cases t with
  | basic k => simp [rejectedForm] at h
  | slice e =>
    cases e with
    | basic k => cases k <;> first | (simp [rejectedForm] at h; done) | exact ⟨_, _, rfl⟩
    | _ => exact ⟨_, _, rfl⟩
  | pointer e =>
    cases e with
    | named n p u ms => simp [rejectedForm] at h
    | _ => exact ⟨_, _, rfl⟩
  | named n p u ms =>
    cases u with
    | iface _ => simp [rejectedForm] at h
    | pointer _ => simp [rejectedForm] at h
    | _ => exact ⟨_, _, rfl⟩
  | _ => exact ⟨_, _, rfl⟩

theorem genReadSwitch_rejected (D : Deps) (g : goGen) (toVar fromVar : String) (t : Ty)
    (mode : varMode) (h : rejectedForm t = true) :
    ∃ f a, genReadSwitch D g toVar fromVar t mode = g.errorf f a := by
  cases t with
  | basic k => simp [rejectedForm] at h
  | slice e =>
    cases e with
    | basic k => cases k <;> first | (simp [rejectedForm] at h; done) | exact ⟨_, _, rfl⟩
    | _ => exact ⟨_, _, rfl⟩
  | pointer e =>
    cases e with
    | named n p u ms => simp [rejectedForm] at h
    | _ => exact ⟨_, _, rfl⟩
  | named n p u ms =>
    cases u with
    | iface _ => simp [rejectedForm] at h
    | pointer _ => simp [rejectedForm] at h
    | _ => exact ⟨_, _, rfl⟩
  | _ => exact ⟨_, _, rfl⟩

/-- C16 as stated fails in two places. For the basic kind `unsafe.Pointer`, which
is neither numeric, nor string, nor bool and is not supported, genRead records no
error and emits a conversion. For the type `*other.T`, a pointer to a named type of
a package that is not bound, which is not supported, genWrite records no error and
emits the conversion to a handle. -/
theorem unsupported_types_emit_code :
    (exampleDeps [helloPkg]).isSupported (.basic .UnsafePointer) = false
    ∧ recorded helloGen
        (genRead (exampleDeps [helloPkg]) helloGen "_v" "v" (.basic .UnsafePointer)
          .modeTransient) = []
    ∧ readOut (exampleDeps [helloPkg]) helloGen "_v" "v" (.basic .UnsafePointer) .modeTransient
      = [⟨0, "_v := unsafe.Pointer(v)\n"⟩]
    ∧ (exampleDeps [helloPkg]).isSupported (.pointer otherT) = false
    ∧ recorded helloGen
        (genWrite (exampleDeps [helloPkg]) helloGen "_v" "v" (.pointer otherT) .modeTransient) = []
    ∧ writeOut (exampleDeps [helloPkg]) helloGen "_v" "v" (.pointer otherT) .modeTransient
      = [⟨0, "var _v C.int32_t = _seq.NullRefNum\n"⟩, ⟨0, "if v != nil \x7b\n"⟩,
         ⟨0, "\t_v = C.int32_t(_seq.ToRefNum(v))\n"⟩, ⟨0, "\x7d\n"⟩] := by
  decide

/-- C16, amended: for a type that the type switches reject by its form (a map, a
channel, an array, a struct, a tuple, a signature, an interface literal, a slice
whose element is not a byte, a pointer to a type that is not named, a named type
whose underlying type is neither an interface nor a pointer), genWrite and genRead
each only record one generation error and emit nothing. For a pointer to a named
type, and for a named type whose underlying type is an interface or a pointer, of
a package that is not bound, genRead only records one generation error and emits
nothing, while genWrite records no error and emits the conversion to a handle.
Nothing is said of the basic kinds. -/
theorem rejected_forms_record_error (D : Deps) (g : goGen) (toVar fromVar : String)
    (mode : varMode) :
    (∀ t : Ty, rejectedForm t = true →
      (∃ f a, genWrite D g toVar fromVar t mode = g.errorf f a)
      ∧ (∃ f a, genRead D g toVar fromVar t mode = g.errorf f a)
      ∧ writeOut D g toVar fromVar t mode = []
      ∧ readOut D g toVar fromVar t mode = []
      ∧ (recorded g (genWrite D g toVar fromVar t mode)).length = 1
      ∧ (recorded g (genRead D g toVar fromVar t mode)).length = 1)
    ∧ (∀ (t : Ty) (n : String) (p : Package) (u : Ty) (ms : List (String × Ty)),
      validPkg g (some p) = false →
      (t = .pointer (.named n (some p) u ms)
        ∨ (t = .named n (some p) u ms ∧ isRefType t = true)) →
      genRead D g toVar fromVar t mode
          = g.errorf "type %s is defined in %s, which is not bound"
              [D.typeStr (.named n (some p) u ms), D.pkgStr (some p)]
      ∧ readOut D g toVar fromVar t mode = []
      ∧ (recorded g (genRead D g toVar fromVar t mode)).length = 1
      ∧ genWrite D g toVar fromVar t mode = genToRefNum g toVar fromVar
      ∧ writeOut D g toVar fromVar t mode
          = [⟨g.indent, "var " ++ toVar ++ " C.int32_t = _seq.NullRefNum\n"⟩,
             ⟨g.indent, "if " ++ fromVar ++ " != nil \x7b\n"⟩,
             ⟨g.indent, "\t" ++ toVar ++ " = C.int32_t(_seq.ToRefNum(" ++ fromVar ++ "))\n"⟩,
             ⟨g.indent, "\x7d\n"⟩]
      ∧ recorded g (genWrite D g toVar fromVar t mode) = []) := by
  refine ⟨fun t h => ?_, fun t n p u ms hv ht => ?_⟩
  · have he : isErrorType t = false := by
      unfold rejectedForm at h
      simp only [Bool.and_eq_true, Bool.not_eq_true'] at h
      exact h.1
    obtain ⟨fw, aw, hw⟩ := genWriteSwitch_rejected D g toVar fromVar t mode h
    obtain ⟨fr, ar, hr⟩ := genReadSwitch_rejected D g toVar fromVar t mode h
    have hw' : genWrite D g toVar fromVar t mode = g.errorf fw aw := by
      simp only [genWrite, he, Bool.false_eq_true, if_false, hw]
    have hr' : genRead D g toVar fromVar t mode = g.errorf fr ar := by
      simp only [genRead, he, Bool.false_eq_true, if_false, hr]
    refine ⟨⟨fw, aw, hw'⟩, ⟨fr, ar, hr'⟩, ?_, ?_, ?_, ?_⟩
    · simp [writeOut, hw', emitted]
    · simp [readOut, hr', emitted]
    · simp [hw', recorded]
    · simp [hr', recorded]
  · have hr : genRead D g toVar fromVar t mode
        = g.errorf "type %s is defined in %s, which is not bound"
            [D.typeStr (.named n (some p) u ms), D.pkgStr (some p)] := by
      rcases ht with rfl | ⟨rfl, href⟩
      · simp [genRead, isErrorType, genReadSwitch, hv]
      · cases u <;> simp_all [isRefType, genRead, isErrorType, genReadSwitch]
    have hw : genWrite D g toVar fromVar t mode = genToRefNum g toVar fromVar := by
      rcases ht with rfl | ⟨rfl, href⟩
      · exact genWrite_refType D g toVar fromVar _ mode rfl rfl
      · exact genWrite_refType D g toVar fromVar _ mode href (isErrorType_of_pkg n p u ms)
    refine ⟨hr, ?_, ?_, hw, ?_, ?_⟩
    · simp [readOut, hr, emitted]
    · simp [hr, recorded]
    · rw [writeOut, hw]
      exact genToRefNum_emitted g toVar fromVar
    · rw [hw]
      simp [genToRefNum, recorded]

/-- Witness of the amended C16: a map, a channel, a slice of strings, a pointer to
a basic type and a named struct type are rejected by genRead, and so is the type
`*other.T` of a package that is not bound, for which genWrite records nothing. -/
theorem rejected_forms_record_error_witness :
    readOut (exampleDeps [helloPkg]) helloGen "_v" "v" (.map (.basic .String) (.basic .Int))
        .modeRetained = []
    ∧ readOut (exampleDeps [helloPkg]) helloGen "_v" "v" (.chan (.basic .Int)) .modeRetained = []
    ∧ readOut (exampleDeps [helloPkg]) helloGen "_v" "v" (.slice (.basic .String))
        .modeRetained = []
    ∧ readOut (exampleDeps [helloPkg]) helloGen "_v" "v" (.pointer (.basic .Int))
        .modeRetained = []
    ∧ readOut (exampleDeps [helloPkg]) helloGen "_v" "v" Foo .modeRetained = []
    ∧ readOut (exampleDeps [helloPkg]) helloGen "_v" "v" (.pointer otherT) .modeRetained = []
    ∧ recorded helloGen
        (genWrite (exampleDeps [helloPkg]) helloGen "_v" "v" (.pointer otherT) .modeRetained)
        = [] :=
  ⟨((rejected_forms_record_error (exampleDeps [helloPkg]) helloGen "_v" "v" .modeRetained).1
      (.map (.basic .String) (.basic .Int)) (by decide)).2.2.2.1,
    ((rejected_forms_record_error (exampleDeps [helloPkg]) helloGen "_v" "v" .modeRetained).1
      (.chan (.basic .Int)) (by decide)).2.2.2.1,
    ((rejected_forms_record_error (exampleDeps [helloPkg]) helloGen "_v" "v" .modeRetained).1
      (.slice (.basic .String)) (by decide)).2.2.2.1,
    ((rejected_forms_record_error (exampleDeps [helloPkg]) helloGen "_v" "v" .modeRetained).1
      (.pointer (.basic .Int)) (by decide)).2.2.2.1,
    ((rejected_forms_record_error (exampleDeps [helloPkg]) helloGen "_v" "v" .modeRetained).1
      Foo (by decide)).2.2.2.1,
    ((rejected_forms_record_error (exampleDeps [helloPkg]) helloGen "_v" "v" .modeRetained).2
      (.pointer otherT) "T" otherPkg (.struct []) [] (by decide) (Or.inl rfl)).2.1,
    ((rejected_forms_record_error (exampleDeps [helloPkg]) helloGen "_v" "v" .modeRetained).2
      (.pointer otherT) "T" otherPkg (.struct []) [] (by decide) (Or.inl rfl)).2.2.2.2.2⟩

/-! ## C17 -/

/-- C17 as stated fails for an interface that is not implementable: for the
interface Secret of the bound package hello, genRead emits the branch of the
native-owned reference only; there is no branch for a foreign-owned reference. -/
theorem genRead_without_foreign_branch :
    validPkg helloGen (some helloPkg) = true
    ∧ ((exampleDeps [helloPkg]).makeIfaceSummary (underlying Secret)).implementable = false
    ∧ (readOut (exampleDeps [helloPkg]) helloGen "_v" "v" Secret .modeRetained).map
        (fun c => c.text)
      = ["var _v hello.Secret\n", "_v_ref := _seq.FromRefNum(int32(v))\n",
         "if _v_ref != nil \x7b\n", "\tif _v_ref.Bind_Num < 0 \x7b // go object \n",
         "  \t _v = _v_ref.Get().(hello.Secret)\n", "\t\x7d\n", "\x7d\n"] := by
  decide

/-- C17, amended: for a named type of a bound package whose underlying type is an
interface or a pointer, the code emitted by genRead looks up the reference and,
when it is not nil, tests `Bind_Num < 0`: in that case (a native-owned object) the
stored object is returned by `Get`. The branch of the foreign-owned reference,
which converts the reference to the reverse proxy `proxy<prefix>_<Name>`, is
emitted for every named pointer type, and for a named interface type exactly when
the interface is implementable. -/
theorem genRead_chooses_by_ownership (D : Deps) (g : goGen) (toVar fromVar n : String)
    (p : Package) (ms : List (String × Ty)) (mode : varMode)
    (hv : validPkg g (some p) = true) :
    (∀ im : List (String × Ty),
      readOut D g toVar fromVar (.named n (some p) (.iface im) ms) mode
        = [⟨g.indent, "var " ++ toVar ++ " "
              ++ typeStringText D g.pkg g.allPkg (.named n (some p) (.iface im) ms) ++ "\n"⟩,
            ⟨g.indent, toVar ++ "_ref := _seq.FromRefNum(int32(" ++ fromVar ++ "))\n"⟩,
            ⟨g.indent, "if " ++ toVar ++ "_ref != nil \x7b\n"⟩,
            ⟨g.indent, "\tif " ++ toVar ++ "_ref.Bind_Num < 0 \x7b // go object \n"⟩,
            ⟨g.indent, "  \t " ++ toVar ++ " = " ++ toVar ++ "_ref.Get().(" ++ p.name ++ "."
              ++ n ++ ")\n"⟩]
          ++ (if (D.makeIfaceSummary (.iface im)).implementable = true then
                [⟨g.indent, "\t\x7d else \x7b // foreign object \n"⟩,
                 ⟨g.indent, "\t   " ++ toVar ++ " = (*proxy" ++ D.pkgPrefixOf p ++ "_" ++ n
                    ++ ")(" ++ toVar ++ "_ref)\n"⟩]
              else [])
          ++ [⟨g.indent, "\t\x7d\n"⟩, ⟨g.indent, "\x7d\n"⟩])
    ∧ (∀ e : Ty,
      readOut D g toVar fromVar (.named n (some p) (.pointer e) ms) mode
        = [⟨g.indent, "var " ++ toVar ++ " "
              ++ typeStringText D g.pkg g.allPkg (.named n (some p) (.pointer e) ms) ++ "\n"⟩,
            ⟨g.indent, toVar ++ "_ref := _seq.FromRefNum(int32(" ++ fromVar ++ "))\n"⟩,
            ⟨g.indent, "if " ++ toVar ++ "_ref != nil \x7b\n"⟩,
            ⟨g.indent, "\tif " ++ toVar ++ "_ref.Bind_Num < 0 \x7b // go object \n"⟩,
            ⟨g.indent, "  \t " ++ toVar ++ " = " ++ toVar ++ "_ref.Get().(" ++ p.name ++ "."
              ++ n ++ ")\n"⟩,
            ⟨g.indent, "\t\x7d else \x7b // foreign object \n"⟩,
            ⟨g.indent, "\t   " ++ toVar ++ " = (*proxy" ++ D.pkgPrefixOf p ++ "_" ++ n
              ++ ")(" ++ toVar ++ "_ref)\n"⟩,
            ⟨g.indent, "\t\x7d\n"⟩, ⟨g.indent, "\x7d\n"⟩]) := by
  constructor
  · intro im
    by_cases hi : (D.makeIfaceSummary (.iface im)).implementable = true <;>
      simp [readOut, genRead, isErrorType_of_pkg, genReadSwitch, hv, emitted, typeString_buf,
        typeString_fst_eq, hi]
  · intro e
    simp [readOut, genRead, isErrorType_of_pkg, genReadSwitch, hv, emitted, typeString_buf,
      typeString_fst_eq]

/-- Witness of the amended C17: the implementable interface Greeter of the bound
package hello is decoded with both branches. -/
theorem genRead_chooses_by_ownership_witness :
    (readOut (exampleDeps [helloPkg]) helloGen "_v" "v" Greeter .modeRetained).map
        (fun c => c.text)
      = ["var _v hello.Greeter\n", "_v_ref := _seq.FromRefNum(int32(v))\n",
         "if _v_ref != nil \x7b\n", "\tif _v_ref.Bind_Num < 0 \x7b // go object \n",
         "  \t _v = _v_ref.Get().(hello.Greeter)\n",
         "\t\x7d else \x7b // foreign object \n",
         "\t   _v = (*proxyhello_Greeter)(_v_ref)\n", "\t\x7d\n", "\x7d\n"] := by
  unfold Greeter
  rw [(genRead_chooses_by_ownership (exampleDeps [helloPkg]) helloGen "_v" "v" "Greeter"
    helloPkg [] .modeRetained (by decide)).1]
  decide

/-! ## C18 -/

theorem genReadSwitch_mode (D : Deps) (g : goGen) (toVar fromVar : String) (t : Ty)
    (m m' : varMode) (h : t ≠ .slice (.basic .Uint8)) :
    genReadSwitch D g toVar fromVar t m = genReadSwitch D g toVar fromVar t m' := by
  cases t with
  | slice e =>
    cases e with
    | basic k => cases k <;> first | exact absurd rfl h | rfl
    | _ => rfl
  | _ => rfl

theorem genWriteSwitch_mode (D : Deps) (g : goGen) (toVar fromVar : String) (t : Ty)
    (m m' : varMode) (h : t ≠ .slice (.basic .Uint8)) :
    genWriteSwitch D g toVar fromVar t m = genWriteSwitch D g toVar fromVar t m' := by
  cases t with
  | slice e =>
    cases e with
    | basic k => cases k <;> first | exact absurd rfl h | rfl
    | _ => rfl
  | _ => rfl

/-- C18: for the type `[]byte` genRead emits `toSlice(from, c)` and genWrite emits
`fromSlice(from, c)`, where the flag `c` is `true` in Retained mode and `false` in
Transient mode. For every other type, the error type and the type `string`
included, genRead and genWrite leave the same generator in Transient mode and in
Retained mode: the same text and the same errors. -/
theorem mode_matters_for_byte_slices_only (D : Deps) (g : goGen) (toVar fromVar : String) :
    (∀ mode : varMode,
      genRead D g toVar fromVar (.slice (.basic .Uint8)) mode
        = g.Printf (toVar ++ " := toSlice(" ++ fromVar ++ ", "
            ++ (if mode = .modeRetained then "true" else "false") ++ ")\n")
      ∧ genWrite D g toVar fromVar (.slice (.basic .Uint8)) mode
        = g.Printf (toVar ++ " := fromSlice(" ++ fromVar ++ ", "
            ++ (if mode = .modeRetained then "true" else "false") ++ ")\n"))
    ∧ (∀ t : Ty, t ≠ .slice (.basic .Uint8) →
      genRead D g toVar fromVar t .modeTransient = genRead D g toVar fromVar t .modeRetained
      ∧ genWrite D g toVar fromVar t .modeTransient = genWrite D g toVar fromVar t .modeRetained
      ∧ readOut D g toVar fromVar t .modeTransient = readOut D g toVar fromVar t .modeRetained
      ∧ writeOut D g toVar fromVar t .modeTransient = writeOut D g toVar fromVar t .modeRetained
      ∧ recorded g (genRead D g toVar fromVar t .modeTransient)
          = recorded g (genRead D g toVar fromVar t .modeRetained)
      ∧ recorded g (genWrite D g toVar fromVar t .modeTransient)
          = recorded g (genWrite D g toVar fromVar t .modeRetained)) := by
  have hstr : stringType ≠ .slice (.basic .Uint8) := fun h => Ty.noConfusion h
  refine ⟨fun mode => ?_, fun t ht => ?_⟩
  · cases mode <;> exact ⟨rfl, rfl⟩
  · have hr : genRead D g toVar fromVar t .modeTransient
        = genRead D g toVar fromVar t .modeRetained := by
      unfold genRead
      split
      · rw [genReadSwitch_mode D g _ _ stringType .modeTransient .modeRetained hstr]
      · exact genReadSwitch_mode D g _ _ t _ _ ht
    have hw : genWrite D g toVar fromVar t .modeTransient
        = genWrite D g toVar fromVar t .modeRetained := by
      unfold genWrite
      split
      · exact genWriteSwitch_mode D _ _ _ stringType _ _ hstr
      · exact genWriteSwitch_mode D g _ _ t _ _ ht
    exact ⟨hr, hw, by rw [readOut, hr, ← readOut], by rw [writeOut, hw, ← writeOut],
      by rw [hr], by rw [hw]⟩

/-- Witness of C18: the types `string` and `error` are marshalled in the same way
in both modes. -/
theorem mode_matters_for_byte_slices_only_witness :
    readOut (exampleDeps [helloPkg]) helloGen "_v" "v" (.basic .String) .modeTransient
      = readOut (exampleDeps [helloPkg]) helloGen "_v" "v" (.basic .String) .modeRetained
    ∧ writeOut (exampleDeps [helloPkg]) helloGen "_v" "v" errorType .modeTransient
      = writeOut (exampleDeps [helloPkg]) helloGen "_v" "v" errorType .modeRetained :=
  ⟨((mode_matters_for_byte_slices_only (exampleDeps [helloPkg]) helloGen "_v" "v").2
      (.basic .String) (fun h => Ty.noConfusion h)).2.2.1,
    ((mode_matters_for_byte_slices_only (exampleDeps [helloPkg]) helloGen "_v" "v").2
      errorType (fun h => Ty.noConfusion h)).2.2.2.1⟩

/-! ## The set of imports -/

@[simp] theorem Indent_imports (g : goGen) : g.Indent.imports = g.imports := rfl
@[simp] theorem Outdent_imports (g : goGen) : g.Outdent.imports = g.imports := rfl
@[simp] theorem cgoType_imports (D : Deps) (g : goGen) (t : Ty) :
    (g.cgoType D t).2.imports = g.imports := rfl

theorem pkgName_imports_mem (g : goGen) (p : Package) : p.path ∈ (g.pkgName p).2.imports := by
  simp only [goGen.pkgName]
  split
  · assumption
  · simp

theorem pkgName_imports_nodup (g : goGen) (p : Package) (h : g.imports.Nodup) :
    (g.pkgName p).2.imports.Nodup := by
  simp only [goGen.pkgName]
  split
  · exact h
  · rename_i hp
    rw [List.nodup_append]
    refine ⟨h, List.nodup_singleton _, ?_⟩
    intro a ha hb
    rw [List.mem_singleton] at hb
    subst hb
    exact hp ha

theorem kd_refl (g : goGen) : KeepsDistinct g g := id

theorem kd_Printf {g x : goGen} (s : String) (h : KeepsDistinct g x) :
    KeepsDistinct g (x.Printf s) := h

theorem kd_errorf {g x : goGen} (f : String) (a : List String) (h : KeepsDistinct g x) :
    KeepsDistinct g (x.errorf f a) := h

theorem kd_Indent {g x : goGen} (h : KeepsDistinct g x) : KeepsDistinct g x.Indent := h

theorem kd_Outdent {g x : goGen} (h : KeepsDistinct g x) : KeepsDistinct g x.Outdent := h

theorem kd_cgoType {g x : goGen} (D : Deps) (t : Ty) (h : KeepsDistinct g x) :
    KeepsDistinct g (x.cgoType D t).2 := h

theorem kd_pkgName {g x : goGen} (p : Package) (h : KeepsDistinct g x) :
    KeepsDistinct g (x.pkgName p).2 :=
  fun hg => pkgName_imports_nodup x p (h hg)

theorem kd_forIdx {α : Type} (body : goGen → Nat → α → goGen)
    (hbody : ∀ g i x, KeepsDistinct g (body g i x)) (xs : List α) :
    ∀ (i : Nat) {g x : goGen}, KeepsDistinct g x → KeepsDistinct g (forIdx body i xs x) := by
  induction xs with
  | nil => intro i g x h; exact h
  | cons a as ih =>
    intro i g x h
    exact ih (i + 1) (fun hg => hbody x i a (h hg))

theorem kd_foldl {α : Type} (body : goGen → α → goGen)
    (hbody : ∀ g x, KeepsDistinct g (body g x)) (xs : List α) :
    ∀ {g x : goGen}, KeepsDistinct g x → KeepsDistinct g (xs.foldl body x) := by
  induction xs with
  | nil => intro g x h; exact h
  | cons a as ih =>
    intro g x h
    exact ih (fun hg => hbody x a (h hg))

theorem kd_genToRefNum {g x : goGen} (toVar fromVar : String) (h : KeepsDistinct g x) :
    KeepsDistinct g (genToRefNum x toVar fromVar) := h

theorem kd_typeString (D : Deps) (t : Ty) {g x : goGen} (h : KeepsDistinct g x) :
    KeepsDistinct g (typeString D x t).2 := by
  have named : ∀ (t : Ty) {x : goGen}, (∀ e, t ≠ .pointer e) → KeepsDistinct g x →
      KeepsDistinct g (Bind.typeString D x t).2 := by
    intro t x ht h
    unfold Bind.typeString
    repeat' split
    all_goals first
      | exact h
      | exact kd_pkgName _ h
      | exact kd_errorf _ _ h
      | exact absurd rfl (ht _)
  by_cases ht : ∃ e, t = .pointer e
  · obtain ⟨e, rfl⟩ := ht
    unfold Bind.typeString
    split
    · exact named _ (by intro e he; cases he) h
    · exact kd_errorf _ _ h
  · exact named t (fun e he => ht ⟨e, he⟩) h

theorem kd_genReadSwitch (D : Deps) (toVar fromVar : String) (t : Ty) (mode : varMode)
    {g x : goGen} (h : KeepsDistinct g x) :
    KeepsDistinct g (genReadSwitch D x toVar fromVar t mode) := by
  unfold Bind.genReadSwitch
  repeat' split
  all_goals
    repeat (first
      | with_reducible exact h
      | with_reducible apply kd_Printf
      | with_reducible apply kd_pkgName
      | with_reducible apply kd_typeString
      | with_reducible apply kd_errorf
      | split)

theorem kd_genRead (D : Deps) (toVar fromVar : String) (t : Ty) (mode : varMode)
    {g x : goGen} (h : KeepsDistinct g x) :
    KeepsDistinct g (genRead D x toVar fromVar t mode) := by
  unfold Bind.genRead
  split
  · exact kd_Printf _ (kd_genReadSwitch D _ _ _ _ h)
  · exact kd_genReadSwitch D _ _ _ _ h

theorem genWriteSwitch_imports (D : Deps) (x : goGen) (toVar fromVar : String) (t : Ty)
    (mode : varMode) : (genWriteSwitch D x toVar fromVar t mode).imports = x.imports := by
  unfold Bind.genWriteSwitch
  repeat' split
  all_goals rfl

theorem genWrite_imports (D : Deps) (x : goGen) (toVar fromVar : String) (t : Ty)
    (mode : varMode) : (genWrite D x toVar fromVar t mode).imports = x.imports := by
  unfold Bind.genWrite
  split <;> simp only [genWriteSwitch_imports, Printf_imports]

theorem kd_genWrite (D : Deps) (toVar fromVar : String) (t : Ty) (mode : varMode)
    {g x : goGen} (h : KeepsDistinct g x) :
    KeepsDistinct g (genWrite D x toVar fromVar t mode) := by
  intro hg
  rw [genWrite_imports]
  exact h hg

theorem kd_decodeParams (D : Deps) (params : List Var) {g x : goGen}
    (h : KeepsDistinct g x) : KeepsDistinct g (decodeParams D params x) :=
  kd_forIdx _ (fun g _ _ => kd_genRead D _ _ _ _ (kd_refl g)) _ 0 h

theorem kd_encodeResults (D : Deps) (res : List Var) {g x : goGen}
    (h : KeepsDistinct g x) : KeepsDistinct g (encodeResults D res x) :=
  kd_forIdx _ (fun g _ _ => kd_genWrite D _ _ _ _ (kd_refl g)) _ 0 h

theorem kd_printIndexed (pre : String) (res : List Var) {g x : goGen}
    (h : KeepsDistinct g x) : KeepsDistinct g (printIndexed pre res x) := by
  refine kd_forIdx _ (fun g i _ => ?_) _ 0 h
  apply kd_Printf
  split
  · exact kd_Printf _ (kd_refl g)
  · exact kd_refl g

theorem kd_printArgs (D : Deps) (params : List Var) {g x : goGen}
    (h : KeepsDistinct g x) : KeepsDistinct g (printArgs D params x) := by
  refine kd_forIdx _ (fun g i _ => ?_) _ 0 h
  apply kd_Printf
  split
  · exact kd_Printf _ (kd_refl g)
  · exact kd_refl g

theorem kd_genFuncBodyCall (D : Deps) (o : Func) (sel : String) {g x : goGen}
    (h : KeepsDistinct g x) : KeepsDistinct g (genFuncBodyCall D x o sel) := by
  unfold Bind.genFuncBodyCall
  dsimp only
  repeat (first
    | with_reducible apply kd_Printf
    | with_reducible apply kd_printIndexed
    | with_reducible apply kd_printArgs
    | with_reducible apply kd_encodeResults
    | split
    | with_reducible exact h)

theorem kd_genFuncBody (D : Deps) (o : Func) (sel : String) {g x : goGen}
    (h : KeepsDistinct g x) : KeepsDistinct g (genFuncBody D x o sel) := by
  unfold Bind.genFuncBody
  dsimp only
  split
  · exact kd_errorf _ _ (kd_decodeParams D _ h)
  · exact kd_genFuncBodyCall D o sel (kd_decodeParams D _ h)

theorem kd_sigParams (D : Deps) (objName : String) (params : List Var) {g x : goGen}
    (h : KeepsDistinct g x) : KeepsDistinct g (sigParams D objName params x) := by
  refine kd_forIdx _ (fun g i _ => ?_) _ 0 h
  apply kd_Printf
  apply kd_cgoType
  split
  · exact kd_Printf _ (kd_refl g)
  · exact kd_refl g

theorem kd_sigResults (D : Deps) (res : List Var) {g x : goGen}
    (h : KeepsDistinct g x) : KeepsDistinct g (sigResults D res x) := by
  refine kd_forIdx _ (fun g i _ => ?_) _ 0 h
  apply kd_Printf
  apply kd_cgoType
  split
  · exact kd_Printf _ (kd_refl g)
  · exact kd_refl g

theorem kd_genFuncSignature (D : Deps) (o : Func) (objName : String) {g x : goGen}
    (h : KeepsDistinct g x) : KeepsDistinct g (genFuncSignature D x o objName) := by
  unfold Bind.genFuncSignature
  dsimp only
  repeat (first
    | with_reducible apply kd_Printf
    | with_reducible apply kd_sigParams
    | with_reducible apply kd_sigResults
    | split
    | with_reducible exact h)

theorem kd_genFunc (D : Deps) (o : Func) {g x : goGen} (h : KeepsDistinct g x) :
    KeepsDistinct g (genFunc D x o) := by
  unfold Bind.genFunc
  dsimp only
  split
  · exact kd_Printf _ h
  · apply kd_Printf
    apply kd_Outdent
    apply kd_genFuncBody
    apply kd_pkgName
    apply kd_Indent
    exact kd_genFuncSignature D o "" h

theorem kd_genStructField (D : Deps) (obj : TypeName) (f : Var) {g x : goGen}
    (h : KeepsDistinct g x) : KeepsDistinct g (genStructField D obj x f) := by
  unfold Bind.genStructField
  dsimp only
  split
  · exact kd_Printf _ h
  · repeat (first
      | with_reducible apply kd_Printf
      | with_reducible apply kd_pkgName
      | with_reducible apply kd_Indent
      | with_reducible apply kd_Outdent
      | with_reducible apply kd_cgoType
      | with_reducible apply kd_genRead
      | with_reducible apply kd_genWrite
      | with_reducible exact h)

theorem kd_genStructMethod (D : Deps) (obj : TypeName) (m : Func) {g x : goGen}
    (h : KeepsDistinct g x) : KeepsDistinct g (genStructMethod D obj x m) := by
  unfold Bind.genStructMethod
  dsimp only
  split
  · exact kd_Printf _ h
  · repeat (first
      | with_reducible apply kd_Printf
      | with_reducible apply kd_pkgName
      | with_reducible apply kd_Indent
      | with_reducible apply kd_Outdent
      | with_reducible apply kd_genFuncBody
      | with_reducible apply kd_genFuncSignature
      | with_reducible exact h)

theorem kd_genStruct (D : Deps) (obj : TypeName) (T : Ty) {g x : goGen}
    (h : KeepsDistinct g x) : KeepsDistinct g (genStruct D x obj T) := by
  unfold Bind.genStruct
  dsimp only
  apply kd_foldl _ (fun g m => kd_genStructMethod D obj m (kd_refl g))
  exact kd_foldl _ (fun g f => kd_genStructField D obj f (kd_refl g)) _ h

theorem kd_genVar (D : Deps) (o : Var) {g x : goGen}
    (h : KeepsDistinct g x) : KeepsDistinct g (genVar D x o) := by
  unfold Bind.genVar
  dsimp only
  split
  · exact kd_Printf _ h
  · repeat (first
      | with_reducible apply kd_Printf
      | with_reducible apply kd_pkgName
      | with_reducible apply kd_Indent
      | with_reducible apply kd_Outdent
      | with_reducible apply kd_cgoType
      | with_reducible apply kd_genRead
      | with_reducible apply kd_genWrite
      | with_reducible exact h)

theorem kd_genInterfaceEntry (D : Deps) (obj : TypeName) (m : Func) {g x : goGen}
    (h : KeepsDistinct g x) : KeepsDistinct g (genInterfaceEntry D obj x m) := by
  unfold Bind.genInterfaceEntry
  dsimp only
  split
  · exact kd_Printf _ h
  · repeat (first
      | with_reducible apply kd_Printf
      | with_reducible apply kd_pkgName
      | with_reducible apply kd_Indent
      | with_reducible apply kd_Outdent
      | with_reducible apply kd_genFuncBody
      | with_reducible apply kd_genFuncSignature
      | with_reducible exact h)

theorem kd_proxyParams (D : Deps) (params : List Var) {g x : goGen}
    (h : KeepsDistinct g x) : KeepsDistinct g (proxyParams D params x) := by
  refine kd_forIdx _ (fun g i _ => ?_) _ 0 h
  apply kd_Printf
  apply kd_typeString
  split
  · exact kd_Printf _ (kd_refl g)
  · exact kd_refl g

theorem kd_proxyEncodeParams (D : Deps) (params : List Var) {g x : goGen}
    (h : KeepsDistinct g x) : KeepsDistinct g (proxyEncodeParams D params x) :=
  kd_forIdx _ (fun g _ _ => kd_genWrite D _ _ _ _ (kd_refl g)) _ 0 h

theorem kd_proxyArgs (D : Deps) (params : List Var) {g x : goGen}
    (h : KeepsDistinct g x) : KeepsDistinct g (proxyArgs D params x) :=
  kd_forIdx _ (fun g _ _ => kd_Printf _ (kd_refl g)) _ 0 h

theorem kd_proxyDecodeResults (D : Deps) (res : List Var) {g x : goGen}
    (h : KeepsDistinct g x) : KeepsDistinct g (proxyDecodeResults D res x) :=
  kd_forIdx _ (fun g _ _ => kd_genRead D _ _ _ _ (kd_refl g)) _ 0 h

theorem kd_genInterfaceProxyMethod (D : Deps) (obj : TypeName) (m : Func) {g x : goGen}
    (h : KeepsDistinct g x) : KeepsDistinct g (genInterfaceProxyMethod D obj x m) := by
  unfold Bind.genInterfaceProxyMethod
  dsimp only
  split
  · exact kd_Printf _ h
  · split
    · exact kd_errorf _ _ h
    · repeat (first
        | with_reducible apply kd_Printf
        | with_reducible apply kd_Indent
        | with_reducible apply kd_Outdent
        | with_reducible apply kd_typeString
        | with_reducible apply kd_genRead
        | with_reducible apply kd_proxyParams
        | with_reducible apply kd_proxyEncodeParams
        | with_reducible apply kd_proxyArgs
        | with_reducible apply kd_proxyDecodeResults
        | split
        | with_reducible exact h)

theorem kd_genInterfaceBody (D : Deps) (obj : TypeName) (iface : Ty) {g x : goGen}
    (h : KeepsDistinct g x) : KeepsDistinct g (genInterfaceBody D x obj iface) := by
  unfold Bind.genInterfaceBody
  dsimp only
  split
  · exact kd_foldl _ (fun g m => kd_genInterfaceEntry D obj m (kd_refl g)) _ h
  · apply kd_foldl _ (fun g m => kd_genInterfaceProxyMethod D obj m (kd_refl g))
    apply kd_Printf
    apply kd_Printf
    exact kd_foldl _ (fun g m => kd_genInterfaceEntry D obj m (kd_refl g)) _ h

theorem kd_declsOf (D : Deps) (g : goGen) : KeepsDistinct g (declsOf D g) := by
  have h1 : KeepsDistinct g (g.structs.foldl (fun g s => genStruct D g s.obj s.t)
      ((g.Printf "// suppress the error if seq ends up unused\n").Printf
        "var _ = _seq.FromRefNum\n")) :=
    kd_foldl (fun g (s : structInfo) => genStruct D g s.obj s.t)
      (fun y s => kd_genStruct D s.obj s.t (kd_refl y)) g.structs
      (kd_Printf _ (kd_Printf _ (kd_refl g)))
  unfold declsOf
  dsimp only
  apply kd_foldl (genFunc D) (fun y f => kd_genFunc D f (kd_refl y))
  apply kd_foldl (genVar D) (fun y v => kd_genVar D v (kd_refl y))
  apply kd_foldl (fun g (i : interfaceInfo) => genInterfaceBody D g i.obj (underlying i.obj.type))
    (fun y i => kd_genInterfaceBody D i.obj _ (kd_refl y))
  exact h1

/-! ## C19 -/

theorem typeString_imports_mem (D : Deps) (x : goGen) (n : String) (p : Package) (u : Ty)
    (ms : List (String × Ty)) (hv : validPkg x (some p) = true)
    (hu : (∃ im, u = .iface im) ∨ (∃ fs, u = .struct fs)) :
    p.path ∈ (typeString D x (.named n (some p) u ms)).2.imports := by
  rcases hu with ⟨im, rfl⟩ | ⟨fs, rfl⟩ <;>
    simp only [typeString, hv, Bool.not_true, Bool.false_eq_true, if_false] <;>
    exact pkgName_imports_mem _ _

theorem genRead_pointer_imports_mem (D : Deps) (x : goGen) (toVar fromVar n : String)
    (p : Package) (u : Ty) (ms : List (String × Ty)) (mode : varMode)
    (hv : validPkg x (some p) = true) :
    p.path ∈ (genRead D x toVar fromVar (.pointer (.named n (some p) u ms)) mode).imports := by
  have he : isErrorType (.pointer (.named n (some p) u ms)) = false := rfl
  simp only [genRead, he, Bool.false_eq_true, if_false, genReadSwitch, hv, Bool.not_true,
    Printf_imports]
  exact pkgName_imports_mem _ _

theorem genRead_named_imports_mem (D : Deps) (x : goGen) (toVar fromVar n : String)
    (p : Package) (u : Ty) (ms : List (String × Ty)) (mode : varMode)
    (hv : validPkg x (some p) = true)
    (hu : (∃ im, u = .iface im) ∨ (∃ e, u = .pointer e)) :
    p.path ∈ (genRead D x toVar fromVar (.named n (some p) u ms) mode).imports := by
  have he := isErrorType_of_pkg n p u ms
  rcases hu with ⟨im, rfl⟩ | ⟨e, rfl⟩ <;>
    simp only [genRead, he, Bool.false_eq_true, if_false, genReadSwitch, hv, Bool.not_true] <;>
    (try split) <;>
    simp only [Printf_imports] <;>
    exact pkgName_imports_mem _ _

theorem genFunc_imports_mem (D : Deps) (x : goGen) (o : Func)
    (hs : D.isSigSupported o = true) : x.pkg.path ∈ (genFunc D x o).imports := by
  unfold genFunc
  simp only [hs, Bool.not_true, Bool.false_eq_true, if_false, Printf_imports, Outdent_imports,
    Indent_pkg, genFuncSignature_pkg]
  exact (step_genFuncBody D o _ (step_refl _ _)).imports _ (pkgName_imports_mem _ _)

theorem genStructMethod_imports_mem (D : Deps) (obj : TypeName) (x : goGen) (m : Func)
    (hs : D.isSigSupported m = true) : x.pkg.path ∈ (genStructMethod D obj x m).imports := by
  unfold genStructMethod
  simp only [hs, Bool.not_true, Bool.false_eq_true, if_false, Printf_imports, Outdent_imports,
    Printf_pkg, Indent_pkg, genFuncSignature_pkg]
  exact (step_genFuncBody D m _ (step_refl _ _)).imports _ (pkgName_imports_mem _ _)

theorem genInterfaceEntry_imports_mem (D : Deps) (obj : TypeName) (x : goGen) (m : Func)
    (hs : D.isSigSupported m = true) : x.pkg.path ∈ (genInterfaceEntry D obj x m).imports := by
  unfold genInterfaceEntry
  simp only [hs, Bool.not_true, Bool.false_eq_true, if_false, Printf_imports, Outdent_imports,
    Printf_pkg, Indent_pkg, genFuncSignature_pkg]
  exact (step_genFuncBody D m _ (step_refl _ _)).imports _ (pkgName_imports_mem _ _)

theorem genVar_imports_mem (D : Deps) (x : goGen) (o : Var)
    (hs : D.isSupported o.type = true) : x.pkg.path ∈ (genVar D x o).imports := by
  unfold genVar
  simp only [hs, Bool.not_true, Bool.false_eq_true, if_false, Printf_imports, Outdent_imports,
    Indent_imports, cgoType_imports, genWrite_imports]
  exact (step_genRead anyErr_intro D _ _ _ _ (step_refl _ _)).imports _
    (pkgName_imports_mem _ _)

theorem genStructField_imports_mem (D : Deps) (obj : TypeName) (x : goGen) (f : Var)
    (hs : D.isSupported f.type = true) : x.pkg.path ∈ (genStructField D obj x f).imports := by
  unfold genStructField
  simp only [hs, Bool.not_true, Bool.false_eq_true, if_false, Printf_imports, Outdent_imports,
    Indent_imports, cgoType_imports, genWrite_imports, Printf_pkg, Outdent_pkg, Indent_pkg,
    cgoType_pkg, genRead_pkg, pkgName_pkg]
  exact pkgName_imports_mem _ _

theorem foldl_imports_mem {α : Type} (body : goGen → α → goGen)
    (hstep : ∀ y a, Step anyErr 0 y (body y a)) (q : String) (a : α) (x : goGen)
    (ha : ∀ y, Step anyErr 0 x y → q ∈ (body y a).imports) :
    ∀ (xs : List α) (y : goGen), Step anyErr 0 x y → a ∈ xs →
      q ∈ (xs.foldl body y).imports := by
  intro xs
  induction xs with
  | nil => intro y _ h; cases h
  | cons b bs ih =>
    intro y hy hmem
    rw [List.foldl_cons]
    rcases List.mem_cons.mp hmem with rfl | hin
    · exact (step_foldl body hstep bs (step_refl _ _)).imports _ (ha y hy)
    · exact ih _ (step_trans hy (hstep y b)) hin

theorem forIdx_imports_mem {α : Type} (body : goGen → Nat → α → goGen)
    (hstep : ∀ y i a, Step anyErr 0 y (body y i a)) (q : String) (a : α) (x : goGen)
    (ha : ∀ y i, Step anyErr 0 x y → q ∈ (body y i a).imports) :
    ∀ (xs : List α) (i : Nat) (y : goGen), Step anyErr 0 x y → a ∈ xs →
      q ∈ (forIdx body i xs y).imports := by
  intro xs
  induction xs with
  | nil => intro i y _ h; cases h
  | cons b bs ih =>
    intro i y hy hmem
    simp only [forIdx]
    rcases List.mem_cons.mp hmem with rfl | hin
    · exact (step_forIdx body hstep bs (i + 1) (step_refl _ _)).imports _ (ha y i hy)
    · exact ih _ _ (step_trans hy (hstep y i b)) hin

/-- A function of a supported signature with a parameter whose type is a pointer to
a named type of a bound package leaves the path of that package in the set. -/
theorem genFunc_param_imports_mem (D : Deps) (x : goGen) (o : Func) (v : Var)
    (n : String) (p : Package) (u : Ty) (ms : List (String × Ty))
    (hs : D.isSigSupported o = true) (hv : v ∈ o.params)
    (ht : v.type = .pointer (.named n (some p) u ms)) (hp : validPkg x (some p) = true) :
    p.path ∈ (genFunc D x o).imports := by
  have hdec : ∀ y, validPkg y (some p) = true →
      p.path ∈ (decodeParams D o.params y).imports := by
    intro y hy
    refine forIdx_imports_mem _
      (fun z i a => step_genRead anyErr_intro D _ _ _ _ (step_refl _ z)) p.path v y ?_
      o.params 0 y (step_refl _ y) hv
    intro z i hz
    rw [ht]
    exact genRead_pointer_imports_mem D z _ _ n p u ms _ (by rw [step_validPkg hz]; exact hy)
  have hbody : ∀ y sel, validPkg y (some p) = true →
      p.path ∈ (genFuncBody D y o sel).imports := by
    intro y sel hy
    unfold genFuncBody
    dsimp only
    split
    · exact hdec y hy
    · exact (step_genFuncBodyCall anyErr_intro D (anyErr_cgo D) o sel (step_refl _ _)).imports _
        (hdec y hy)
  unfold genFunc
  simp only [hs, Bool.not_true, Bool.false_eq_true, if_false, Printf_imports, Outdent_imports]
  apply hbody
  have h1 : Step anyErr 1 x ((genFuncSignature D x o "").Indent.pkgName
      (genFuncSignature D x o "").Indent.pkg).2 :=
    step_pkgName _ (step_Indent (step_genFuncSignature D o "" (step_refl _ x)))
  rw [step_validPkg h1]
  exact hp

theorem genStruct_field_imports_mem (D : Deps) (x : goGen) (obj : TypeName) (T : Ty) (f : Var)
    (hf : f ∈ D.exportedFields T) (hs : D.isSupported f.type = true) :
    x.pkg.path ∈ (genStruct D x obj T).imports := by
  unfold genStruct
  dsimp only
  refine (step_foldl _ (fun y m => step_genStructMethod D obj m (step_refl _ y)) _
    (step_refl _ _)).imports _ ?_
  refine foldl_imports_mem _ (fun y a => step_genStructField D obj a (step_refl _ y)) _ f x ?_
    _ x (step_refl _ x) hf
  intro y hy
  rw [← hy.pkg]
  exact genStructField_imports_mem D obj y f hs

theorem genStruct_method_imports_mem (D : Deps) (x : goGen) (obj : TypeName) (T : Ty)
    (m : Func) (hm : m ∈ D.exportedMethodSet (.pointer obj.type))
    (hs : D.isSigSupported m = true) :
    x.pkg.path ∈ (genStruct D x obj T).imports := by
  unfold genStruct
  dsimp only
  have h1 : Step anyErr 0 x ((D.exportedFields T).foldl (genStructField D obj) x) :=
    step_foldl _ (fun y a => step_genStructField D obj a (step_refl _ y)) _ (step_refl _ x)
  refine foldl_imports_mem _ (fun y a => step_genStructMethod D obj a (step_refl _ y)) _ m _ ?_
    _ _ (step_refl _ _) hm
  intro y hy
  rw [← h1.pkg, ← hy.pkg]
  exact genStructMethod_imports_mem D obj y m hs

theorem genInterfaceBody_imports_mem (D : Deps) (x : goGen) (obj : TypeName) (iface : Ty)
    (m : Func) (hm : m ∈ (D.makeIfaceSummary iface).callable)
    (hs : D.isSigSupported m = true) :
    x.pkg.path ∈ (genInterfaceBody D x obj iface).imports := by
  have h1 : x.pkg.path
      ∈ ((D.makeIfaceSummary iface).callable.foldl (genInterfaceEntry D obj) x).imports := by
    refine foldl_imports_mem _ (fun y a => step_genInterfaceEntry D obj a (step_refl _ y)) _ m x
      ?_ _ x (step_refl _ x) hm
    intro y hy
    rw [← hy.pkg]
    exact genInterfaceEntry_imports_mem D obj y m hs
  unfold genInterfaceBody
  dsimp only
  split
  · exact h1
  · refine (step_foldl _ (fun y a => step_genInterfaceProxyMethod D obj a (step_refl _ y)) _
      (step_refl _ _)).imports _ ?_
    simp only [Printf_imports]
    exact h1

/-- After the declarations are emitted, the set of imports holds the path of the
bound package as soon as one declaration wrote its name as a qualifier, and the
path of the package of every pointer type decoded for a parameter. -/
theorem declsOf_imports_mem (D : Deps) (g : goGen) :
    (∀ f ∈ g.funcs, D.isSigSupported f = true → g.pkg.path ∈ (declsOf D g).imports)
    ∧ (∀ f ∈ g.funcs, D.isSigSupported f = true →
        ∀ v ∈ f.params, ∀ (n : String) (p : Package) (u : Ty) (ms : List (String × Ty)),
          v.type = .pointer (.named n (some p) u ms) → validPkg g (some p) = true →
          p.path ∈ (declsOf D g).imports)
    ∧ (∀ v ∈ g.vars, D.isSupported v.type = true → g.pkg.path ∈ (declsOf D g).imports)
    ∧ (∀ s ∈ g.structs, ∀ f ∈ D.exportedFields s.t, D.isSupported f.type = true →
        g.pkg.path ∈ (declsOf D g).imports)
    ∧ (∀ s ∈ g.structs, ∀ m ∈ D.exportedMethodSet (.pointer s.obj.type),
        D.isSigSupported m = true → g.pkg.path ∈ (declsOf D g).imports)
    ∧ (∀ i ∈ g.interfaces, ∀ m ∈ (D.makeIfaceSummary (underlying i.obj.type)).callable,
        D.isSigSupported m = true → g.pkg.path ∈ (declsOf D g).imports) := by
  have s0 : Step anyErr 0 g ((g.Printf "// suppress the error if seq ends up unused\n").Printf
      "var _ = _seq.FromRefNum\n") := step_Printf _ (step_Printf _ (step_refl _ g))
  have hS : ∀ y, Step anyErr 0 y
      (y.structs.foldl (fun g (s : structInfo) => genStruct D g s.obj s.t) y) := fun y =>
    step_foldl (fun g (s : structInfo) => genStruct D g s.obj s.t)
      (fun y s => step_genStruct D s.obj s.t (step_refl _ y)) _ (step_refl _ y)
  have hI : ∀ y, Step anyErr 0 y
      (y.interfaces.foldl
        (fun g (i : interfaceInfo) => genInterfaceBody D g i.obj (underlying i.obj.type)) y) :=
    fun y => step_foldl
      (fun g (i : interfaceInfo) => genInterfaceBody D g i.obj (underlying i.obj.type))
      (fun y i => step_genInterfaceBody D i.obj _ (step_refl _ y)) _ (step_refl _ y)
  have hV : ∀ y, Step anyErr 0 y (y.vars.foldl (genVar D) y) := fun y =>
    step_foldl (genVar D) (fun y v => step_genVar D v (step_refl _ y)) _ (step_refl _ y)
  have hF : ∀ y, Step anyErr 0 y (y.funcs.foldl (genFunc D) y) := fun y =>
    step_foldl (genFunc D) (fun y v => step_genFunc D v (step_refl _ y)) _ (step_refl _ y)
  have s1 := step_trans s0 (hS _)
  have s2 := step_trans s1 (hI _)
  have s3 := step_trans s2 (hV _)
  refine ⟨?_, ?_, ?_, ?_, ?_, ?_⟩
  · intro f hf hs
    unfold declsOf
    dsimp only
    refine foldl_imports_mem (genFunc D) (fun y a => step_genFunc D a (step_refl _ y)) _ f _ ?_
      _ _ (step_refl _ _) (by rw [s3.funcs]; exact hf)
    intro y hy
    rw [← s3.pkg, ← hy.pkg]
    exact genFunc_imports_mem D y f hs
  · intro f hf hs v hv n p u ms ht hp
    unfold declsOf
    dsimp only
    refine foldl_imports_mem (genFunc D) (fun y a => step_genFunc D a (step_refl _ y)) _ f _ ?_
      _ _ (step_refl _ _) (by rw [s3.funcs]; exact hf)
    intro y hy
    exact genFunc_param_imports_mem D y f v n p u ms hs hv ht
      (by rw [step_validPkg hy, step_validPkg s3]; exact hp)
  · intro v hv hs
    unfold declsOf
    dsimp only
    refine (hF _).imports _ ?_
    refine foldl_imports_mem (genVar D) (fun y a => step_genVar D a (step_refl _ y)) _ v _ ?_
      _ _ (step_refl _ _) (by rw [s2.vars]; exact hv)
    intro y hy
    rw [← s2.pkg, ← hy.pkg]
    exact genVar_imports_mem D y v hs
  · intro s hs f hf hsup
    unfold declsOf
    dsimp only
    refine (hF _).imports _ ((hV _).imports _ ((hI _).imports _ ?_))
    refine foldl_imports_mem (fun g (s : structInfo) => genStruct D g s.obj s.t)
      (fun y a => step_genStruct D a.obj a.t (step_refl _ y)) _ s _ ?_
      _ _ (step_refl _ _) hs
    intro y hy
    rw [← s0.pkg, ← hy.pkg]
    exact genStruct_field_imports_mem D y s.obj s.t f hf hsup
  · intro s hs m hm hsup
    unfold declsOf
    dsimp only
    refine (hF _).imports _ ((hV _).imports _ ((hI _).imports _ ?_))
    refine foldl_imports_mem (fun g (s : structInfo) => genStruct D g s.obj s.t)
      (fun y a => step_genStruct D a.obj a.t (step_refl _ y)) _ s _ ?_
      _ _ (step_refl _ _) hs
    intro y hy
    rw [← s0.pkg, ← hy.pkg]
    exact genStruct_method_imports_mem D y s.obj s.t m hm hsup
  · intro i hi m hm hsup
    unfold declsOf
    dsimp only
    refine (hF _).imports _ ((hV _).imports _ ?_)
    refine foldl_imports_mem
      (fun g (i : interfaceInfo) => genInterfaceBody D g i.obj (underlying i.obj.type))
      (fun y a => step_genInterfaceBody D a.obj _ (step_refl _ y)) _ i _ ?_
      _ _ (step_refl _ _) (by rw [s1.interfaces]; exact hi)
    intro y hy
    rw [← s1.pkg, ← hy.pkg]
    exact genInterfaceBody_imports_mem D y i.obj _ m hm hsup

/-- C19: the invariant of the set of imports. The method pkgName returns the name
of the package and leaves its path in the set, keeping the paths already there
and adding nothing when the path is there already. No method that emits a
declaration, decodes or encodes a value or renders a type removes a path. The
methods that write the name of a package as a qualifier (genRead for a pointer to
a named type and for a named interface or pointer type, typeString for a named
interface or struct type) leave its path in the set. The method gen emits the body
from the empty set; after the body the set has no duplicate and holds the path of
the bound package as soon as a function, a variable, a struct field, a struct
method or an interface method was emitted, and the path of the package of every
pointer type decoded for a parameter of an emitted function. The preamble is then
the header, the fixed import of seq and one line for each path of the set, each
path exactly once since `range` visits every key of the set once. -/
theorem import_set_invariant (D : Deps) (g : goGen)
    (hperm : ∀ l : List String, (D.rangeOrder l).Perm l)
    (h : ∀ i ∈ g.interfaces, namedIface i.obj.type = true) :
    (∀ (x : goGen) (p : Package),
      (x.pkgName p).1 = p.name
      ∧ p.path ∈ (x.pkgName p).2.imports
      ∧ (∀ q ∈ x.imports, q ∈ (x.pkgName p).2.imports)
      ∧ (p.path ∈ x.imports → (x.pkgName p).2.imports = x.imports)
      ∧ (x.imports.Nodup → (x.pkgName p).2.imports.Nodup))
    ∧ (∀ (x : goGen) (q : String), q ∈ x.imports →
      (∀ s : structInfo, q ∈ (genStruct D x s.obj s.t).imports)
      ∧ (∀ (obj : TypeName) (iface : Ty), q ∈ (genInterfaceBody D x obj iface).imports)
      ∧ (∀ v : Var, q ∈ (genVar D x v).imports)
      ∧ (∀ f : Func, q ∈ (genFunc D x f).imports)
      ∧ (∀ (a b : String) (t : Ty) (m : varMode), q ∈ (genRead D x a b t m).imports)
      ∧ (∀ (a b : String) (t : Ty) (m : varMode), q ∈ (genWrite D x a b t m).imports)
      ∧ (∀ t : Ty, q ∈ (typeString D x t).2.imports))
    ∧ (∀ (x : goGen) (n : String) (p : Package) (u : Ty) (ms : List (String × Ty)),
      validPkg x (some p) = true →
      (∀ (a b : String) (m : varMode),
        p.path ∈ (genRead D x a b (.pointer (.named n (some p) u ms)) m).imports)
      ∧ ((∃ im, u = .iface im) ∨ (∃ e, u = .pointer e) →
          ∀ (a b : String) (m : varMode),
            p.path ∈ (genRead D x a b (.named n (some p) u ms) m).imports)
      ∧ ((∃ im, u = .iface im) ∨ (∃ fs, u = .struct fs) →
          p.path ∈ (typeString D x (.named n (some p) u ms)).2.imports))
    ∧ ∃ body g' ret,
      ({ g with imports := [], buf := [] } : goGen).imports = []
      ∧ genDecls D { g with imports := [], buf := [] } = some body
      ∧ gen D g = some (g', ret)
      ∧ g'.imports = body.imports
      ∧ body.imports.Nodup
      ∧ (∀ f ∈ g.funcs, D.isSigSupported f = true → g.pkg.path ∈ body.imports)
      ∧ (∀ f ∈ g.funcs, D.isSigSupported f = true →
          ∀ v ∈ f.params, ∀ (n : String) (p : Package) (u : Ty) (ms : List (String × Ty)),
            v.type = .pointer (.named n (some p) u ms) → validPkg g (some p) = true →
            p.path ∈ body.imports)
      ∧ (∀ v ∈ g.vars, D.isSupported v.type = true → g.pkg.path ∈ body.imports)
      ∧ (∀ s ∈ g.structs, ∀ f ∈ D.exportedFields s.t, D.isSupported f.type = true →
          g.pkg.path ∈ body.imports)
      ∧ (∀ s ∈ g.structs, ∀ m ∈ D.exportedMethodSet (.pointer s.obj.type),
          D.isSigSupported m = true → g.pkg.path ∈ body.imports)
      ∧ (∀ i ∈ g.interfaces, ∀ m ∈ (D.makeIfaceSummary (underlying i.obj.type)).callable,
          D.isSigSupported m = true → g.pkg.path ∈ body.imports)
      ∧ g'.buf = g.buf
          ++ [⟨g.indent, goPreamble g.pkg.name g.pkg.path⟩,
              ⟨g.indent, "import (\n"⟩,
              ⟨g.indent + 1, "_seq \"golang.org/x/mobile/bind/seq\"\n"⟩]
          ++ (D.rangeOrder body.imports).map (fun path => ⟨g.indent + 1, D.quote path ++ "\n"⟩)
          ++ [⟨g.indent, ")\n\n"⟩]
          ++ body.buf
      ∧ (D.rangeOrder body.imports).Nodup
      ∧ (∀ q, q ∈ D.rangeOrder body.imports ↔ q ∈ body.imports) := by
  refine ⟨fun x p => ⟨rfl, pkgName_imports_mem x p, (step_one_pkgName anyErr x p).imports,
      fun hp => by simp [goGen.pkgName, hp], pkgName_imports_nodup x p⟩,
    fun x q hq => ⟨fun s => (step_genStruct D s.obj s.t (step_refl _ x)).imports q hq,
      fun obj iface => (step_genInterfaceBody D obj iface (step_refl _ x)).imports q hq,
      fun v => (step_genVar D v (step_refl _ x)).imports q hq,
      fun f => (step_genFunc D f (step_refl _ x)).imports q hq,
      fun a b t m => (step_genRead anyErr_intro D a b t m (step_refl _ x)).imports q hq,
      fun a b t m =>
        (step_genWrite anyErr_intro D (anyErr_cgo D) a b t m (step_refl _ x)).imports q hq,
      fun t => (step_typeString anyErr_intro D t (step_refl _ x)).imports q hq⟩,
    fun x n p u ms hv => ⟨fun a b m => genRead_pointer_imports_mem D x a b n p u ms m hv,
      fun hu a b m => genRead_named_imports_mem D x a b n p u ms m hv hu,
      fun hu => typeString_imports_mem D x n p u ms hv hu⟩,
    ?_⟩
  have em := declsOf_Em D { g with imports := [], buf := [] }
  have hb : (declsOf D { g with imports := [], buf := [] }).buf = declsOut D g := by
    have := em.out
    simp only [emitted, List.length_nil, List.drop_zero] at this
    rw [this]
    exact declsOut_congr D g [] g.err []
  have hm := declsOf_imports_mem D { g with imports := [], buf := [] }
  refine ⟨declsOf D { g with imports := [], buf := [] }, _, _, rfl,
    genDecls_of_namedIface D _ h, gen_eq D g h, rfl,
    kd_declsOf D _ List.nodup_nil, hm.1, hm.2.1, hm.2.2.1, hm.2.2.2.1, hm.2.2.2.2.1,
    hm.2.2.2.2.2, ?_, (hperm _).nodup_iff.mpr (kd_declsOf D _ List.nodup_nil),
    fun q => (hperm _).mem_iff⟩
  simp [hb, preambleOut]

/-- Witness of C19: package hello is referenced by three functions and by the
accessors of a struct, and the set of imports holds its path once. -/
theorem import_set_invariant_witness :
    (∃ body g' ret,
      genDecls (exampleDeps [helloPkg]) { helloGen with imports := [], buf := [] } = some body
      ∧ gen (exampleDeps [helloPkg]) helloGen = some (g', ret)
      ∧ g'.imports = body.imports
      ∧ body.imports.Nodup)
    ∧ (gen (exampleDeps [helloPkg]) helloGen).map (fun r => r.1.imports)
        = some ["golang.org/x/mobile/example/bind/hello"] := by
  obtain ⟨body, g', ret, _, h2, h3, h4, h5, _⟩ :=
    (import_set_invariant (exampleDeps [helloPkg]) helloGen (fun l => List.Perm.refl l)
      (fun _ hi => nomatch hi)).2.2.2
  exact ⟨⟨body, g', ret, h2, h3, h4, h5⟩, by decide⟩

end Bind
